import Mathlib

/-!
# Mountpoint S3 CSI driver: reconciler, helper-pod watcher and pod mounter

A shallow embedding of

* `cmd/aws-s3-csi-controller/csicontroller/reconciler.go`
* `pkg/podmounter/mppod/creator.go`
* `pkg/podmounter/mppod/mppod.go`
* `pkg/podmounter/mppod/watcher/watcher.go`
* `pkg/driver/node/mounter/pod_mounter.go`

Conventions of the embedding.

* A Go `error` is an `Option` of an error value, `none` being `nil`.  A pair `(T, error)` whose
  first component is meaningless on failure is an `Except`.
* Calls to collaborators (the API client, the informer, the operating system, the credential
  provider) are answered by a record of functions; every call that can change something outside
  the function is appended to a log, in program order.
* A function that can dereference a nil pointer returns `Option`, `none` being the Go panic.
  A function that can block for ever returns `Option`, `none` being "never returns".
* Logging (`klog`, `logr`) has no effect on any result and is left out.
-/

namespace S3CSI

/-! ## Go values -/

/-- A Go `map[string]string`, kept as an association list with distinct keys. -/
abbrev GoMap := List (String × String)

/-- The presence test `_, ok := m[k]`. -/
def GoMap.has (m : GoMap) (k : String) : Bool :=
  (List.lookup k m).isSome

/-- The read `m[k]`: the zero value (the empty string) when the key is absent. -/
def GoMap.get (m : GoMap) (k : String) : String :=
  (List.lookup k m).getD ""

/-- The write `m[k] = v`. -/
def GoMap.set (m : GoMap) (k v : String) : GoMap :=
  if m.has k then m.map (fun kv => if kv.1 == k then (k, v) else kv) else m ++ [(k, v)]

/-- The keys visited by `for k := range m`, in one of the possible orders. -/
def GoMap.keys (m : GoMap) : List String :=
  m.map Prod.fst

/-- A Go error value.  `new` is `errors.New` at a site of this repository, `ext` an error
handed back by a collaborator (`notFound` records whether `apierrors.IsNotFound` holds of it),
`errorf` is `fmt.Errorf` without `%w`, `errorfW` is `fmt.Errorf` with one `%w` verb and
`errorfWV` has, besides, one error shown with `%v`; the format string and the other arguments
are kept as written, in order. -/
inductive Err where
  | new (text : String)
  | ext (text : String) (notFound : Bool)
  | errorf (format : String) (args : List String)
  | errorfW (format : String) (args : List String) (cause : Err)
  | errorfWV (format : String) (args : List String) (cause : Err) (shown : Err)
  deriving DecidableEq, Repr

/-- The test `errors.Is(err, target)`: equality with `target` somewhere along the `%w` chain. -/
def errorsIs : Err → Err → Bool
  | .errorfW f a c, target => (Err.errorfW f a c == target) || errorsIs c target
  | .errorfWV f a c v, target => (Err.errorfWV f a c v == target) || errorsIs c target
  | e, target => e == target

/-- The test `apierrors.IsNotFound(err)`, which looks through `%w` wrappers. -/
def IsNotFound : Err → Bool
  | .ext _ nf => nf
  | .errorfW _ _ c => IsNotFound c
  | .errorfWV _ _ c _ => IsNotFound c
  | _ => false

/-- The error returned by a reconciliation: one error, or the value of `errors.Join`. -/
inductive GoError where
  | single (e : Err)
  | joined (errs : List Err)
  deriving DecidableEq, Repr

/-- The call `errors.Join(errs...)` on non-nil errors: `nil` exactly when there is none. -/
def errorsJoin (errs : List Err) : Option GoError :=
  if errs.isEmpty then none else some (.joined errs)

/-- The call `strconv.FormatInt(i, 10)`. -/
def FormatInt (i : Int) : String :=
  toString i

/-! ## Kubernetes objects (the fields the program reads or writes) -/

abbrev PodPhase := String

def PodPending : PodPhase := "Pending"
def PodRunning : PodPhase := "Running"
def PodSucceeded : PodPhase := "Succeeded"
def PodFailed : PodPhase := "Failed"

def ClaimBound : String := "Bound"
def RestartPolicyOnFailure : String := "OnFailure"
def NodeSelectorOpIn : String := "In"
def TolerationOpExists : String := "Exists"
def SeccompProfileTypeRuntimeDefault : String := "RuntimeDefault"
def ObjectNameField : String := "metadata.name"

structure PersistentVolumeClaimVolumeSource where
  ClaimName : String := ""
  deriving DecidableEq, Repr

structure Volume where
  Name : String := ""
  PersistentVolumeClaim : Option PersistentVolumeClaimVolumeSource := none
  EmptyDir : Bool := false
  deriving DecidableEq, Repr

structure PodSecurityContext where
  FSGroup : Option Int := none
  deriving DecidableEq, Repr

structure SecurityContext where
  AllowPrivilegeEscalation : Option Bool := none
  CapabilitiesDrop : List String := []
  RunAsUser : Option Int := none
  RunAsNonRoot : Option Bool := none
  SeccompProfileType : String := ""
  deriving DecidableEq, Repr

structure VolumeMount where
  Name : String := ""
  MountPath : String := ""
  deriving DecidableEq, Repr

structure Container where
  Name : String := ""
  Image : String := ""
  ImagePullPolicy : String := ""
  Command : List String := []
  SecurityContext : Option SecurityContext := none
  VolumeMounts : List VolumeMount := []
  deriving DecidableEq, Repr

structure NodeSelectorRequirement where
  Key : String := ""
  Operator : String := ""
  Values : List String := []
  deriving DecidableEq, Repr

structure NodeSelectorTerm where
  MatchFields : List NodeSelectorRequirement := []
  deriving DecidableEq, Repr

structure Toleration where
  Operator : String := ""
  deriving DecidableEq, Repr

/-- The pod spec.  `Affinity` holds the node selector terms of
`Affinity.NodeAffinity.RequiredDuringSchedulingIgnoredDuringExecution`. -/
structure PodSpec where
  NodeName : String := ""
  Volumes : List Volume := []
  SecurityContext : Option PodSecurityContext := none
  ServiceAccountName : String := ""
  RestartPolicy : String := ""
  Containers : List Container := []
  PriorityClassName : String := ""
  Affinity : Option (List NodeSelectorTerm) := none
  Tolerations : List Toleration := []
  deriving DecidableEq, Repr

structure PodStatus where
  Phase : PodPhase := ""
  Reason : String := ""
  deriving DecidableEq, Repr

structure Pod where
  Name : String := ""
  GenerateName : String := ""
  Namespace : String := ""
  UID : String := ""
  Labels : GoMap := []
  DeletionTimestamp : Option Nat := none
  Spec : PodSpec := {}
  Status : PodStatus := {}
  deriving DecidableEq, Repr

structure PersistentVolumeClaim where
  Name : String := ""
  Namespace : String := ""
  VolumeName : String := ""
  Phase : String := ""
  deriving DecidableEq, Repr

structure CSIPersistentVolumeSource where
  Driver : String := ""
  VolumeAttributes : Option GoMap := none
  deriving DecidableEq, Repr

structure ObjectReference where
  Name : String := ""
  Namespace : String := ""
  deriving DecidableEq, Repr

structure PersistentVolume where
  Name : String := ""
  CSI : Option CSIPersistentVolumeSource := none
  ClaimRef : Option ObjectReference := none
  deriving DecidableEq, Repr

/-! ## Declarations of the repository outside the embedded files -/

/-- Modelled from the spec: the constant `credentialprovider.AuthenticationSourceDriver`, whose
declaration is not among the embedded files; the spec names the value "driver". -/
def AuthenticationSourceDriver : String := "driver"

/-- Modelled from the spec: the constant `credentialprovider.AuthenticationSourcePod`, whose
declaration is not among the embedded files; the spec names the value "pod". -/
def AuthenticationSourcePod : String := "pod"

/-- Modelled from the spec: the constant `credentialprovider.AuthenticationSourceUnspecified`,
whose declaration is not among the embedded files: the unset (empty) authentication source. -/
def AuthenticationSourceUnspecified : String := ""

/-- Constants and helpers of other packages of the repository that `creator.go` and
`reconciler.go` use: the two volume-attribute keys of package `volumecontext`, the name of the
communication directory, the user id of a cluster variant, and `filepath.Join`. -/
structure Pkg where
  volumecontextAuthenticationSource : String
  volumecontextMountpointPodServiceAccountName : String
  CommunicationDirName : String
  MountpointPodUserID : Int → Option Int
  filepathJoin : List String → String

/-! ## `mppod/creator.go` -/

def LabelMountpointVersion : String := "s3.csi.aws.com/mountpoint-version"
def LabelCSIDriverVersion : String := "s3.csi.aws.com/mounted-by-csi-driver-version"
def LabelVolumeName : String := "s3.csi.aws.com/volume-name"
def LabelAuthenticationSource : String := "s3.csi.aws.com/authentication-source"
def LabelWorkloadPodFSGroup : String := "s3.csi.aws.com/workload-pod-fsgroup"
def LabelWorkloadPodNamespace : String := "s3.csi.aws.com/workload-pod-namespace"
def LabelWorkloadPodServiceAccountName : String :=
  "s3.csi.aws.com/workload-pod-service-account-name"

structure ContainerConfig where
  Command : String := ""
  Image : String := ""
  ImagePullPolicy : String := ""
  deriving DecidableEq, Repr

structure Config where
  Namespace : String := ""
  MountpointVersion : String := ""
  PriorityClassName : String := ""
  Container : ContainerConfig := {}
  CSIDriverVersion : String := ""
  ClusterVariant : Int := 0
  deriving DecidableEq, Repr

structure Creator where
  config : Config
  deriving DecidableEq, Repr

def NewCreator (config : Config) : Creator :=
  { config := config }

/-- The function `ExtractVolumeAttributes`: never a nil map. -/
def ExtractVolumeAttributes (pv : PersistentVolume) : GoMap :=
  match pv.CSI with
  | none => []
  | some csiSpec =>
    match csiSpec.VolumeAttributes with
    | none => []
    | some volumeAttributes => volumeAttributes

/-- The method `Creator.Create`.  `none` is the panic of `pod.Spec.SecurityContext.FSGroup` on a
nil `SecurityContext`. -/
def Creator.Create (c : Creator) (pkg : Pkg) (pod : Pod) (pv : PersistentVolume) : Option Pod :=
  let volumeAttributes := ExtractVolumeAttributes pv
  let node := pod.Spec.NodeName
  let authSource := volumeAttributes.get pkg.volumecontextAuthenticationSource
  let authSource := if authSource == "" then AuthenticationSourceDriver else authSource
  match pod.Spec.SecurityContext with
  | none => none
  | some securityContext =>
    let fsGroup := match securityContext.FSGroup with
      | some g => FormatInt g
      | none => ""
    let labels : GoMap := [
      (LabelMountpointVersion, c.config.MountpointVersion),
      (LabelCSIDriverVersion, c.config.CSIDriverVersion),
      (LabelVolumeName, pv.Name),
      (LabelAuthenticationSource, authSource),
      (LabelWorkloadPodFSGroup, fsGroup)]
    let labels :=
      if authSource == AuthenticationSourcePod then
        (labels.set LabelWorkloadPodNamespace pod.Namespace).set
          LabelWorkloadPodServiceAccountName pod.Spec.ServiceAccountName
      else labels
    let saName := volumeAttributes.get pkg.volumecontextMountpointPodServiceAccountName
    some {
      GenerateName := "mp-"
      Namespace := c.config.Namespace
      Labels := labels
      Spec := {
        RestartPolicy := RestartPolicyOnFailure
        Containers := [{
          Name := "mountpoint"
          Image := c.config.Container.Image
          ImagePullPolicy := c.config.Container.ImagePullPolicy
          Command := [c.config.Container.Command]
          SecurityContext := some {
            AllowPrivilegeEscalation := some false
            CapabilitiesDrop := ["ALL"]
            RunAsUser := pkg.MountpointPodUserID c.config.ClusterVariant
            RunAsNonRoot := some true
            SeccompProfileType := SeccompProfileTypeRuntimeDefault }
          VolumeMounts := [{
            Name := pkg.CommunicationDirName
            MountPath := pkg.filepathJoin ["/", pkg.CommunicationDirName] }] }]
        PriorityClassName := c.config.PriorityClassName
        Affinity := some [{
          MatchFields := [{
            Key := ObjectNameField
            Operator := NodeSelectorOpIn
            Values := [node] }] }]
        Tolerations := [{ Operator := TolerationOpExists }]
        Volumes := [{ Name := pkg.CommunicationDirName, EmptyDir := true }]
        ServiceAccountName := if saName != "" then saName else "" } }

/-! ## `csicontroller/reconciler.go` -/

def mountpointCSIDriverName : String := "s3.csi.aws.com"

/-- The expectation tracker: the key set of the `sync.Map`. -/
structure Expectations where
  pending : List String := []
  deriving DecidableEq, Repr

def NewExpectations : Expectations :=
  {}

def Expectations.SetPending (e : Expectations) (key : String) : Expectations :=
  if e.pending.contains key then e else { pending := key :: e.pending }

def Expectations.IsPending (e : Expectations) (key : String) : Bool :=
  e.pending.contains key

def Expectations.Clear (e : Expectations) (key : String) : Expectations :=
  { pending := e.pending.filter (fun k => k != key) }

/-- The answers of the API client embedded in the reconciler (`client.Client`).  `List` is
called with a namespace, the value of the `spec.nodeName` field filter and the label filter. -/
structure Client where
  GetPod : String → String → Except Err Pod
  GetPVC : String → String → Except Err PersistentVolumeClaim
  GetPV : String → Except Err PersistentVolume
  List : String → String → GoMap → Except Err (List Pod)
  Create : Pod → Option Err
  Delete : Pod → Option Err

/-- A call made on the API client. -/
inductive Call where
  | getPod (ns name : String)
  | getPVC (ns name : String)
  | getPV (name : String)
  | list (ns nodeName : String) (labels : GoMap)
  | create (pod : Pod)
  | delete (pod : Pod)
  deriving DecidableEq, Repr

def Call.isCreate : Call → Bool
  | .create _ => true
  | _ => false

def Call.isDelete : Call → Bool
  | .delete _ => true
  | _ => false

def Call.isList : Call → Bool
  | .list _ _ _ => true
  | _ => false

/-- What a reconciliation can change: the expectation tracker, and the calls made so far on
the API client (oldest first). -/
structure RState where
  mountpointPodExpectations : Expectations := {}
  calls : List Call := []
  deriving DecidableEq, Repr

def RState.call (s : RState) (c : Call) : RState :=
  { s with calls := s.calls ++ [c] }

structure Reconciler where
  mountpointPodConfig : Config
  mountpointPodCreator : Creator
  client : Client
  pkg : Pkg

def NewReconciler (client : Client) (pkg : Pkg) (podConfig : Config) : Reconciler × RState :=
  ({ client := client, pkg := pkg, mountpointPodConfig := podConfig,
     mountpointPodCreator := NewCreator podConfig },
   { mountpointPodExpectations := NewExpectations })

structure NamespacedName where
  Namespace : String := ""
  Name : String := ""
  deriving DecidableEq, Repr

/-- The value `reconcile.Result`; `RequeueAfter` is never set by this program. -/
structure Result where
  Requeue : Bool := false
  deriving DecidableEq, Repr

def errPVCIsNotBoundToAPV : Err :=
  .new "PVC is not bound to a PV yet"

def isPodActive (p : Pod) : Bool :=
  PodSucceeded != p.Status.Phase &&
    PodFailed != p.Status.Phase &&
    p.DeletionTimestamp.isNone

def extractCSISpecFromPV (pv : PersistentVolume) : Option CSIPersistentVolumeSource :=
  match pv.CSI with
  | none => none
  | some csi => if csi.Driver != mountpointCSIDriverName then none else some csi

def Reconciler.isMountpointPod (r : Reconciler) (pod : Pod) : Bool :=
  pod.Namespace == r.mountpointPodConfig.Namespace

def deriveKeyFromFilters (labelFilters : GoMap) (nodeName : String) : String :=
  let keys := (GoMap.keys labelFilters).insertionSort (fun a b => a ≤ b)
  let sb := keys.foldl (fun sb k => sb ++ k ++ "=" ++ labelFilters.get k ++ ";") ""
  nodeName ++ sb

def Reconciler.deleteMountpointPod (r : Reconciler) (s : RState) (mountpointPod : Pod) :
    Option Err × RState :=
  let s := s.call (.delete mountpointPod)
  match r.client.Delete mountpointPod with
  | none => (none, s)
  | some err => if IsNotFound err then (none, s) else (some err, s)

def Reconciler.getBoundPVForPodClaim (r : Reconciler) (s : RState) (pod : Pod)
    (claim : PersistentVolumeClaimVolumeSource) :
    Except Err (PersistentVolumeClaim × PersistentVolume) × RState :=
  let s := s.call (.getPVC pod.Namespace claim.ClaimName)
  match r.client.GetPVC pod.Namespace claim.ClaimName with
  | .error err => (.error (.errorfW "Failed to get PVC for Pod: %w" [] err), s)
  | .ok pvc =>
    if pvc.Phase != ClaimBound || pvc.VolumeName == "" then (.error errPVCIsNotBoundToAPV, s)
    else
      let s := s.call (.getPV pvc.VolumeName)
      match r.client.GetPV pvc.VolumeName with
      | .error err => (.error (.errorfW "Failed to get PV bound to PVC: %w" [] err), s)
      | .ok pv =>
        match pv.ClaimRef with
        | none => (.error (.new "The PV has a different `ClaimRef` than the PVC"), s)
        | some claimRef =>
          if claimRef.Name != pvc.Name then
            (.error (.new "The PV has a different `ClaimRef` than the PVC"), s)
          else (.ok (pvc, pv), s)

def Reconciler.spawnMountpointPod (r : Reconciler) (s : RState) (workloadPod : Pod)
    (_pvc : PersistentVolumeClaim) (pv : PersistentVolume) (_csi : CSIPersistentVolumeSource)
    (_authSource : String) : Option (Option Err × RState) :=
  match r.mountpointPodCreator.Create r.pkg workloadPod pv with
  | none => none
  | some mpPod =>
    let s := s.call (.create mpPod)
    match r.client.Create mpPod with
    | some err => some (some err, s)
    | none => some (none, s)

/-- Lines 200 to 225 of `spawnOrDeleteMountpointPodIfNeeded`: the authentication source and the
label filter of the helper pod of `workloadPod` and `pv`.  `none` is the panic of
`workloadPod.Spec.SecurityContext.FSGroup` on a nil `SecurityContext`. -/
def Reconciler.selector (r : Reconciler) (workloadPod : Pod) (pv : PersistentVolume) :
    Option (String × GoMap) :=
  let volumeAttributes := ExtractVolumeAttributes pv
  let authSource := volumeAttributes.get r.pkg.volumecontextAuthenticationSource
  let authSource := if authSource == "" then "driver" else authSource
  match workloadPod.Spec.SecurityContext with
  | none => none
  | some securityContext =>
    let fsGroup := match securityContext.FSGroup with
      | some g => FormatInt g
      | none => ""
    let labelFilters : GoMap := [
      (LabelVolumeName, pv.Name),
      (LabelAuthenticationSource, authSource),
      (LabelWorkloadPodFSGroup, fsGroup)]
    let labelFilters :=
      if authSource == "pod" then
        (labelFilters.set LabelWorkloadPodNamespace workloadPod.Namespace).set
          LabelWorkloadPodServiceAccountName workloadPod.Spec.ServiceAccountName
      else labelFilters
    some (authSource, labelFilters)

/-- The method `spawnOrDeleteMountpointPodIfNeeded`: the pair `(needsRequeue, err)` and the
state afterwards; `none` is a panic. -/
def Reconciler.spawnOrDeleteMountpointPodIfNeeded (r : Reconciler) (s : RState)
    (workloadPod : Pod) (pvc : PersistentVolumeClaim) (pv : PersistentVolume)
    (csiSpec : CSIPersistentVolumeSource) : Option ((Bool × Option Err) × RState) :=
  if !isPodActive workloadPod then some ((false, none), s)
  else
    match r.selector workloadPod pv with
    | none => none
    | some (authSource, labelFilters) =>
      let expectKey := deriveKeyFromFilters labelFilters workloadPod.Spec.NodeName
      let s := s.call
        (.list r.mountpointPodConfig.Namespace workloadPod.Spec.NodeName labelFilters)
      match r.client.List r.mountpointPodConfig.Namespace workloadPod.Spec.NodeName
          labelFilters with
      | .error err => some ((false, some err), s)
      | .ok items =>
        if items.length > 1 then
          some ((false, some (.errorf "found %d Mountpoint Pods on Node %s instead of 1"
            [toString items.length, workloadPod.Spec.NodeName])), s)
        else if items.length == 1 then
          if s.mountpointPodExpectations.IsPending expectKey then
            some ((false, none),
              { s with mountpointPodExpectations := s.mountpointPodExpectations.Clear expectKey })
          else some ((false, none), s)
        else if s.mountpointPodExpectations.IsPending expectKey then
          some ((true, none), s)
        else
          match r.spawnMountpointPod s workloadPod pvc pv csiSpec authSource with
          | none => none
          | some (some err, s) => some ((false, some err), s)
          | some (none, s) =>
            some ((true, none),
              { s with
                mountpointPodExpectations := s.mountpointPodExpectations.SetPending expectKey })

/-- One pass of the loop body of `reconcileWorkloadPod` over `vol`, on the accumulators
`requeue` and `errs`. -/
def Reconciler.reconcileVolume (r : Reconciler) (pod : Pod) (requeue : Bool) (errs : List Err)
    (s : RState) (vol : Volume) : Option (Bool × List Err × RState) :=
  match vol.PersistentVolumeClaim with
  | none => some (requeue, errs, s)
  | some podPVC =>
    match r.getBoundPVForPodClaim s pod podPVC with
    | (.error err, s) =>
      if errorsIs err errPVCIsNotBoundToAPV then some (true, errs, s)
      else some (requeue, errs ++ [err], s)
    | (.ok (pvc, pv), s) =>
      match extractCSISpecFromPV pv with
      | none => some (requeue, errs, s)
      | some csiSpec =>
        match r.spawnOrDeleteMountpointPodIfNeeded s pod pvc pv csiSpec with
        | none => none
        | some ((needsRequeue, err), s) =>
          let requeue := requeue || needsRequeue
          match err with
          | some err => some (requeue, errs ++ [err], s)
          | none => some (requeue, errs, s)

/-- The loop `for _, vol := range pod.Spec.Volumes` of `reconcileWorkloadPod`. -/
def Reconciler.reconcileVolumes (r : Reconciler) (pod : Pod) :
    List Volume → Bool → List Err → RState → Option (Bool × List Err × RState)
  | [], requeue, errs, s => some (requeue, errs, s)
  | vol :: vols, requeue, errs, s =>
    match r.reconcileVolume pod requeue errs s vol with
    | none => none
    | some (requeue, errs, s) => r.reconcileVolumes pod vols requeue errs s

def Reconciler.reconcileWorkloadPod (r : Reconciler) (s : RState) (pod : Pod) :
    Option ((Result × Option GoError) × RState) :=
  if pod.Spec.NodeName == "" then some (({}, none), s)
  else if pod.Spec.Volumes.length == 0 then some (({}, none), s)
  else
    match r.reconcileVolumes pod pod.Spec.Volumes false [] s with
    | none => none
    | some (requeue, errs, s) => some (({ Requeue := requeue }, errorsJoin errs), s)

def Reconciler.reconcileMountpointPod (r : Reconciler) (s : RState) (pod : Pod) :
    (Result × Option GoError) × RState :=
  if pod.Status.Phase == PodPending then (({}, none), s)
  else if pod.Status.Phase == PodRunning then (({}, none), s)
  else if pod.Status.Phase == PodSucceeded then
    match r.deleteMountpointPod s pod with
    | (some err, s) => (({}, some (.single err)), s)
    | (none, s) => (({}, none), s)
  else (({}, none), s)

def Reconciler.Reconcile (r : Reconciler) (s : RState) (req : NamespacedName) :
    Option ((Result × Option GoError) × RState) :=
  let s := s.call (.getPod req.Namespace req.Name)
  match r.client.GetPod req.Namespace req.Name with
  | .error err =>
    if IsNotFound err then some (({}, none), s) else some (({}, some (.single err)), s)
  | .ok pod =>
    if r.isMountpointPod pod then some (r.reconcileMountpointPod s pod)
    else r.reconcileWorkloadPod s pod


/-! ## `mppod/watcher/watcher.go` -/

def ErrPodNotFound : Err :=
  .new "mppod/watcher: mountpoint pod not found"

def ErrPodNotReady : Err :=
  .new "mppod/watcher: mountpoint pod not ready"

def ErrCacheDesync : Err :=
  .new "mppod/watcher: failed to sync pod informer cache within the timeout"

/-- Modelled from the spec: the type `credentialprovider.ProvideContext` (the credential context
of the spec), declared outside the embedded files; the fields that `watcher.go` and
`pod_mounter.go` read or set. -/
structure ProvideContext where
  AuthenticationSource : String := ""
  FSGroup : String := ""
  PodNamespace : String := ""
  ServiceAccountName : String := ""
  WritePath : String := ""
  EnvPath : String := ""
  deriving DecidableEq, Repr

/-- Modelled from the spec: the method `ProvideContext.SetWriteAndEnvPath`, declared outside the
embedded files. -/
def ProvideContext.SetWriteAndEnvPath (c : ProvideContext) (writePath envPath : String) :
    ProvideContext :=
  { c with WritePath := writePath, EnvPath := envPath }

/-- Modelled from the spec: the type `credentialprovider.CleanupContext`, declared outside the
embedded files; `Unmount` sets its `WritePath`. -/
structure CleanupContext where
  WritePath : String := ""
  PodID : String := ""
  VolumeID : String := ""
  deriving DecidableEq, Repr

/-- A `context.Context`, as far as a blocking call can tell: whether it is cancelled, or
reaches its deadline, at some time (as it does unless stated otherwise); and, for a `select`
statement that finds the context done while another of its cases is ready as well, whether
the Go runtime, which takes one of the ready cases at random, takes the case of the context. -/
structure Context where
  Done : Bool := true
  DoneChosen : Bool := false
  deriving DecidableEq, Repr

/-- A notification of the pod informer. -/
inductive PodEvent where
  | add (obj : Pod)
  | update (old new : Pod)
  deriving DecidableEq, Repr

/-- The informer and the lister of a `Watcher`, as one call of `Wait` meets them: the error of
`informer.AddEventHandler`, the answer of `lister.List` to a label selector, and the
notifications delivered to the registered handler, in order, until the `select` statement of
`Wait` is decided. -/
structure Watcher where
  AddEventHandler : Option Err
  Events : List PodEvent
  List : GoMap → Except Err (List Pod)

/-- The environment variables of the process (`os.Getenv`). -/
abbrev Getenv := String → String

def isAssignedMpPod (getenv : Getenv) (mpPod : Pod) (volumeName : String)
    (credentialCtx : ProvideContext) : Bool :=
  if mpPod.Spec.NodeName != getenv "CSI_NODE_NAME" then false
  else
    let labels := mpPod.Labels
    if credentialCtx.AuthenticationSource == AuthenticationSourceUnspecified ||
        credentialCtx.AuthenticationSource == AuthenticationSourceDriver then
      labels.get LabelVolumeName == volumeName &&
        labels.get LabelWorkloadPodFSGroup == credentialCtx.FSGroup &&
        labels.get LabelAuthenticationSource == AuthenticationSourceDriver
    else if credentialCtx.AuthenticationSource == AuthenticationSourcePod then
      labels.get LabelVolumeName == volumeName &&
        labels.get LabelWorkloadPodFSGroup == credentialCtx.FSGroup &&
        labels.get LabelAuthenticationSource == credentialCtx.AuthenticationSource &&
        labels.get LabelWorkloadPodNamespace == credentialCtx.PodNamespace &&
        labels.get LabelWorkloadPodServiceAccountName == credentialCtx.ServiceAccountName
    else false

def Watcher.isPodReady (_w : Watcher) (pod : Pod) : Bool :=
  pod.Status.Phase == PodRunning

/-- The pod a notification carries to the handlers of `Wait`: `obj` of an add, `new` of an
update. -/
def PodEvent.pod : PodEvent → Pod
  | .add obj => obj
  | .update _ new => new

/-- Whether the handlers of `Wait` store `true` in `podFound` during the notifications. -/
def Watcher.eventsFound (w : Watcher) (getenv : Getenv) (volumeName : String)
    (credentialCtx : ProvideContext) : Bool :=
  w.Events.any (fun ev => isAssignedMpPod getenv ev.pod volumeName credentialCtx)

/-- The pod received from `podChan`: the first one a handler of `Wait` sends. -/
def Watcher.podChan (w : Watcher) (getenv : Getenv) (volumeName : String)
    (credentialCtx : ProvideContext) : Option Pod :=
  (w.Events.find? (fun ev =>
    isAssignedMpPod getenv ev.pod volumeName credentialCtx && w.isPodReady ev.pod)).map
      PodEvent.pod

/-- The label selector that `Wait` hands to the lister. -/
def Watcher.labelSelector (volumeName : String) (credentialCtx : ProvideContext) : GoMap :=
  let labelSelector : GoMap := [
    (LabelVolumeName, volumeName),
    (LabelAuthenticationSource, AuthenticationSourceDriver),
    (LabelWorkloadPodFSGroup, credentialCtx.FSGroup)]
  if credentialCtx.AuthenticationSource == AuthenticationSourcePod then
    ((labelSelector.set LabelAuthenticationSource AuthenticationSourcePod).set
      LabelWorkloadPodNamespace credentialCtx.PodNamespace).set
        LabelWorkloadPodServiceAccountName credentialCtx.ServiceAccountName
  else labelSelector

/-- The `select` statement that ends `Wait`, `podFound` holding what the list stored in it:
a pod sent by a handler is returned, unless the context is done as well when the statement is
decided and the runtime takes that case; the context being done gives one of the two errors,
and a context that is never done, with no pod sent, leaves the call blocked. -/
def Watcher.select (w : Watcher) (getenv : Getenv) (ctx : Context) (volumeName : String)
    (credentialCtx : ProvideContext) (podFound : Bool) : Option (Except Err Pod) :=
  match w.podChan getenv volumeName credentialCtx with
  | some pod =>
    if ctx.Done && ctx.DoneChosen then
      if podFound || w.eventsFound getenv volumeName credentialCtx then
        some (.error ErrPodNotReady)
      else some (.error ErrPodNotFound)
    else some (.ok pod)
  | none =>
    if ctx.Done then
      if podFound || w.eventsFound getenv volumeName credentialCtx then
        some (.error ErrPodNotReady)
      else some (.error ErrPodNotFound)
    else none

/-- Lines 60 to 124 of `Wait`, which come before its `select` statement: either the value
that `Wait` returns without waiting, or the content of `podFound` with which the `select`
statement is reached. -/
def Watcher.beforeSelect (w : Watcher) (getenv : Getenv) (volumeName : String)
    (credentialCtx : ProvideContext) : Except Err Pod ⊕ Bool :=
  match w.AddEventHandler with
  | some err => .inl (.error (.errorfW "failed to add event handler for %s: %w" [volumeName] err))
  | none =>
    match w.List (Watcher.labelSelector volumeName credentialCtx) with
    | .error err => .inl (.error (.errorfW "failed to list pods %s: %w" [volumeName] err))
    | .ok pods =>
      let podsOnCurrentNode := pods.filter (fun pod => pod.Spec.NodeName == getenv "CSI_NODE_NAME")
      match podsOnCurrentNode with
      | [pod] => if w.isPodReady pod then .inl (.ok pod) else .inr true
      | _ :: _ :: _ =>
        .inl (.error (.errorf "found %d MP Pods instead of 1" [toString podsOnCurrentNode.length]))
      | [] => .inr false

/-- The method `Watcher.Wait`; `none` when it never returns.  The deferred
`RemoveEventHandler` has no part in the result. -/
def Watcher.Wait (w : Watcher) (getenv : Getenv) (ctx : Context) (volumeName : String)
    (credentialCtx : ProvideContext) : Option (Except Err Pod) :=
  match w.beforeSelect getenv volumeName credentialCtx with
  | .inl res => some res
  | .inr podFound => w.select getenv ctx volumeName credentialCtx podFound

/-! ## `driver/node/mounter/pod_mounter.go` -/

def SourceMountDir : String := "/var/lib/kubelet/plugins/s3.csi.aws.com/mnt/"

/-- The arguments of Mountpoint (`mountpoint.Args`) and the environment handed to it
(`envprovider.Environment`); their operations are fields of `NodePkg`. -/
abbrev Args := List String

abbrev Env := List String

/-- The value `mountoptions.Options`. -/
structure Options where
  Fd : Int := 0
  BucketName : String := ""
  Args : List String := []
  Env : List String := []
  deriving DecidableEq, Repr

/-- Constants and pure helpers of other packages of the repository that `pod_mounter.go` uses
(`targetpath`, `util`, `mppod`, `mountpoint`, `envprovider`, and `UserAgent` of this package),
with `filepath.Join`.  `ParseTargetPath` is `targetpath.Parse` followed by `.VolumeID`. -/
structure NodePkg where
  ParseTargetPath : String → Except Err String
  filepathJoin : List String → String
  PathOnHost : String → String → String
  PathInsideMountpointPod : String → String
  KnownPathCredentials : String
  KnownPathMountSock : String
  KnownPathMountError : String
  KnownPathMountExit : String
  ArgAWSMaxAttempts : String
  ArgUserAgentPrefix : String
  EnvMaxAttempts : String
  ArgsRemove : Args → String → Args × Option String
  ArgsSet : Args → String → String → Args
  ArgsSortedList : Args → List String
  EnvDefault : Env
  EnvMerge : Env → Env → Env
  EnvSet : Env → String → String → Env
  EnvList : Env → List String
  UserAgent : String → String → String

/-- One observation of the two pollers of `waitForMount`: a read of the mount-error file, a
check of the mount point, or the context found done by the mount-point poller. -/
inductive MountPoll where
  | errorFile (res : Except Err String)
  | mountPoint (res : Except Err Bool)
  | cancelled (err : Err)

/-- The answers of the node: the file system and the mount table (`os`, `mount.Interface`, the
helpers `verifyMountPointStatx`, `isMountPoint`, `findSourceMountPoint`, `bindMountCount`), the
platform mount calls, the credential provider, and the socket of the helper pod.  `OpenFile` is
`os.OpenFile` with `O_RDONLY|O_CREATE`.  `Polls` gives, for a mount point and a mount-error
file, what the pollers of `waitForMount` observe, in the order in which they observe it.  The
error of `syscall.Close` is only logged by the program, so it has no field. -/
structure Host where
  Getenv : Getenv
  verifyMountPointStatx : String → Option Err
  IsNotExist : Err → Bool
  IsExist : Err → Bool
  IsCorruptedMnt : Err → Bool
  MkdirAll : String → Option Err
  Mkdir : String → Option Err
  Unmount : String → Option Err
  isMountPoint : String → Except Err Bool
  findSourceMountPoint : String → Except Err String
  bindMountCount : String → String → Except Err Int
  mountSyscallDefault : String → Args → Except Err Int
  bindMountSyscallDefault : String → String → Option Err
  Provide : ProvideContext → Except Err (Env × String)
  Cleanup : CleanupContext → Option Err
  Send : String → Options → Option Err
  Remove : String → Option Err
  OpenFile : String → Option Err
  Polls : String → String → List MountPoll

/-- A call of the pod mounter that can change the node, or that waits. -/
inductive Action where
  | mkdirAll (path : String)
  | mkdir (path : String)
  | unmount (path : String)
  | lock (uid : String)
  | unlock (uid : String)
  | provide (ctx : ProvideContext)
  | mount (source : String) (args : Args)
  | removeFile (path : String)
  | send (sockPath : String) (options : Options)
  | waitForMount (target podName errorPath : String)
  | bindMount (source target : String)
  | closeFD (fd : Int)
  | createFile (path : String)
  | cleanup (ctx : CleanupContext)
  deriving DecidableEq, Repr

structure PodMounter where
  podWatcher : Watcher
  kubeletPath : String
  mountSyscall : Option (String → Args → Except Err Int)
  bindMountSyscall : Option (String → String → Option Err)
  kubernetesVersion : String

/-- The registry `mpPodLocks`: the reference count of each helper pod UID that has an entry.
The mutex of an entry is not part of the state; taking and releasing it are logged. -/
abbrev MPPodLocks := List (String × Int)

def getMPPodLock (mpPodLocks : MPPodLocks) (mpPodUID : String) : MPPodLocks :=
  match List.lookup mpPodUID mpPodLocks with
  | none => mpPodLocks ++ [(mpPodUID, 1)]
  | some refCount =>
    mpPodLocks.map (fun e => if e.1 == mpPodUID then (mpPodUID, refCount + 1) else e)

def releaseMPPodLock (mpPodLocks : MPPodLocks) (mpPodUID : String) : MPPodLocks :=
  match List.lookup mpPodUID mpPodLocks with
  | none => mpPodLocks
  | some refCount =>
    if refCount - 1 ≤ 0 then mpPodLocks.filter (fun e => e.1 != mpPodUID)
    else mpPodLocks.map (fun e => if e.1 == mpPodUID then (mpPodUID, refCount - 1) else e)

/-- The call `filepath.Base(path)` on a system whose separator is the slash. -/
def filepathBase (path : String) : String :=
  if path == "" then "."
  else
    let stripped := (path.toList.reverse.dropWhile (fun c => c == '/')).reverse
    let last := (stripped.reverse.takeWhile (fun c => c != '/')).reverse
    if last.isEmpty then "/" else String.mk last

/-- What a call of `Mount` or `Unmount` leaves: the error returned, the calls made, in
order, and the lock registry. -/
structure Outcome where
  err : Option Err
  log : List Action
  locks : MPPodLocks
  deriving DecidableEq, Repr

def PodMounter.helpMessageForGettingMountpointLogs (_pm : PodMounter) (pod : String) : String :=
  "You can see Mountpoint logs by running: `kubectl logs -n  " ++ pod ++
    "`. If the Mountpoint Pod already restarted, you can also pass `--previous` to get logs from the previous run."

def PodMounter.unmountTarget (_pm : PodMounter) (h : Host) (target : String) : Option Err :=
  h.Unmount target

def PodMounter.volumeNameFromTargetPath (_pm : PodMounter) (pkg : NodePkg) (target : String) :
    Except Err String :=
  pkg.ParseTargetPath target

def PodMounter.IsMountPoint (_pm : PodMounter) (h : Host) (target : String) : Except Err Bool :=
  h.isMountPoint target

def PodMounter.findSourceMountPoint (_pm : PodMounter) (h : Host) (target : String) :
    Except Err String :=
  h.findSourceMountPoint target

def PodMounter.bindMountCount (_pm : PodMounter) (h : Host) (source target : String) :
    Except Err Int :=
  h.bindMountCount source target

def PodMounter.podPath (pm : PodMounter) (pkg : NodePkg) (podUID : String) : String :=
  pkg.filepathJoin [pm.kubeletPath, "pods", podUID]

def PodMounter.credentialsDir (_pm : PodMounter) (pkg : NodePkg) (podPath : String) : String :=
  pkg.PathOnHost podPath pkg.KnownPathCredentials

def PodMounter.mountSyscallWithDefault (pm : PodMounter) (h : Host) (target : String)
    (args : Args) : Except Err Int :=
  match pm.mountSyscall with
  | some f => f target args
  | none => h.mountSyscallDefault target args

def PodMounter.bindMountSyscallWithDefault (pm : PodMounter) (h : Host)
    (source target : String) : Option Err :=
  match pm.bindMountSyscall with
  | some f => f source target
  | none => h.bindMountSyscallDefault source target

/-- The method `verifyOrSetupMountTarget`: the error and the calls made. -/
def PodMounter.verifyOrSetupMountTarget (pm : PodMounter) (h : Host) (target : String) :
    Option Err × List Action :=
  match h.verifyMountPointStatx target with
  | none => (none, [])
  | some err =>
    if h.IsNotExist err then
      match h.MkdirAll target with
      | some e => (some (.errorfW "Failed to create target directory: %w" [] e),
          [.mkdirAll target])
      | none => (none, [.mkdirAll target])
    else if h.IsCorruptedMnt err then
      match pm.unmountTarget h target with
      | some unmountErr =>
        (some (.errorfWV "Failed to unmount target path %q: %w, original failure of stat: %v"
          [target] unmountErr err), [.unmount target])
      | none => (none, [.unmount target])
    else (some err, [])

/-- The method `ensureCredentialsDirExists`. -/
def PodMounter.ensureCredentialsDirExists (pm : PodMounter) (h : Host) (pkg : NodePkg)
    (podPath : String) : Except Err String × List Action :=
  let credentialsBasepath := pm.credentialsDir pkg podPath
  match h.Mkdir credentialsBasepath with
  | some err =>
    if !h.IsExist err then (.error err, [.mkdir credentialsBasepath])
    else (.ok credentialsBasepath, [.mkdir credentialsBasepath])
  | none => (.ok credentialsBasepath, [.mkdir credentialsBasepath])

/-- The method `waitForMountpointPod`. -/
def PodMounter.waitForMountpointPod (pm : PodMounter) (h : Host) (pkg : NodePkg) (ctx : Context)
    (volumeName : String) (credentialCtx : ProvideContext) : Option (Except Err (Pod × String)) :=
  match pm.podWatcher.Wait h.Getenv ctx volumeName credentialCtx with
  | none => none
  | some (.error err) => some (.error err)
  | some (.ok pod) => some (.ok (pod, pm.podPath pkg pod.UID))

/-- The value received from `mountResultCh`, the pollers observing `polls` in that order: the
first observation that ends a poller with a send.  `none`: nothing is ever sent. -/
def waitForMountResult (podName : String) : List MountPoll → Option (Option Err)
  | [] => none
  | .errorFile (.ok res) :: _ => some (some (.errorf "Mountpoint Pod %s failed: %s" [podName, res]))
  | .errorFile (.error _) :: polls => waitForMountResult podName polls
  | .mountPoint (.ok true) :: _ => some none
  | .mountPoint (.ok false) :: polls => waitForMountResult podName polls
  | .mountPoint (.error err) :: _ =>
    some (some (.errorfW "Failed to check if Mountpoint Pod %s mounted: %w" [podName] err))
  | .cancelled err :: _ =>
    some (some (.errorfW "Failed to check if Mountpoint Pod %s mounted: %w" [podName] err))

/-- The method `waitForMount`; `none` when it never returns. -/
def PodMounter.waitForMount (_pm : PodMounter) (h : Host) (target podName
    podMountErrorPath : String) : Option (Option Err) :=
  waitForMountResult podName (h.Polls target podMountErrorPath)

/-- Lines 246 to 253 of `Mount`: the bind mount of the source onto the target. -/
def PodMounter.bindSourceToTarget (pm : PodMounter) (h : Host) (source target : String) :
    Option Err × List Action :=
  match pm.bindMountSyscallWithDefault h source target with
  | some err =>
    (some (.errorfW "Failed to bind mount %s to target %s: %w" [source, target] err),
      [.bindMount source target])
  | none => (none, [.bindMount source target])

/-- The two functions that `Mount` defers once the mount syscall has succeeded, in the order
in which they run when `Mount` returns: the descriptor is closed, then the source is unmounted
if the flag `unmount` is still set. -/
def PodMounter.deferred (_pm : PodMounter) (source : String) (fuseDeviceFD : Int)
    (unmount : Bool) : List Action :=
  [.closeFD fuseDeviceFD] ++ (if unmount then [.unmount source] else [])

/-- Lines 182 to 190 of `Mount`: the arguments handed to the mount syscall, without
`--aws-max-attempts` and with the user agent. -/
def PodMounter.mountArgs (pm : PodMounter) (pkg : NodePkg) (args : Args)
    (authenticationSource : String) : Args :=
  pkg.ArgsSet (pkg.ArgsRemove args pkg.ArgAWSMaxAttempts).1 pkg.ArgUserAgentPrefix
    (pkg.UserAgent authenticationSource pm.kubernetesVersion)

/-- Lines 182 to 188 of `Mount`: the environment of Mountpoint, with the credentials and the
value of `--aws-max-attempts` if that argument was given. -/
def PodMounter.mountEnv (_pm : PodMounter) (pkg : NodePkg) (args : Args) (credEnv : Env) : Env :=
  let env := pkg.EnvMerge pkg.EnvDefault credEnv
  match (pkg.ArgsRemove args pkg.ArgAWSMaxAttempts).2 with
  | some maxAttempts => pkg.EnvSet env pkg.EnvMaxAttempts maxAttempts
  | none => env

/-- Lines 226 to 231 of `Mount`: the options sent to the helper pod. -/
def PodMounter.mountOptions (pm : PodMounter) (pkg : NodePkg) (bucketName : String)
    (args : Args) (credEnv : Env) (authenticationSource : String) (fuseDeviceFD : Int) :
    Options :=
  { Fd := fuseDeviceFD, BucketName := bucketName,
    Args := pkg.ArgsSortedList (pm.mountArgs pkg args authenticationSource),
    Env := pkg.EnvList (pm.mountEnv pkg args credEnv) }

/-- Lines 181 to 253 of `Mount` when the source is not a mount point yet: the source mount,
the bind mount and the deferred calls.  `none` when `waitForMount` never returns. -/
def PodMounter.mountSource (pm : PodMounter) (h : Host) (pkg : NodePkg)
    (bucketName target : String) (args : Args) (pod : Pod) (podPath source : String)
    (credEnv : Env) (authenticationSource : String) : Option (Option Err × List Action) :=
  let mpPodUID := pod.UID
  let podMountSockPath := pkg.PathOnHost podPath pkg.KnownPathMountSock
  let podMountErrorPath := pkg.PathOnHost podPath pkg.KnownPathMountError
  let args' := pm.mountArgs pkg args authenticationSource
  match pm.mountSyscallWithDefault h source args' with
  | .error err =>
    some (some (.errorfW "Failed to mount source %s: %w" [source] err), [.mount source args'])
  | .ok fuseDeviceFD =>
    let options := pm.mountOptions pkg bucketName args credEnv authenticationSource fuseDeviceFD
    let log : List Action :=
      [.mount source args', .removeFile podMountErrorPath, .send podMountSockPath options]
    match h.Send podMountSockPath options with
    | some err =>
      some (some (.errorfW "Failed to send mount options to Mountpoint Pod %s for %s: %w\n%s"
          [pod.Name, source, pm.helpMessageForGettingMountpointLogs mpPodUID] err),
        log ++ pm.deferred source fuseDeviceFD true)
    | none =>
      let log := log ++ [.waitForMount source pod.Name podMountErrorPath]
      match pm.waitForMount h source pod.Name podMountErrorPath with
      | none => none
      | some (some err) =>
        some (some (.errorfW
            "Failed to wait for Mountpoint Pod %s to be ready for %s: %w\n%s"
            [pod.Name, source, pm.helpMessageForGettingMountpointLogs mpPodUID] err),
          log ++ pm.deferred source fuseDeviceFD true)
      | some none =>
        let bound := pm.bindSourceToTarget h source target
        some (bound.1, log ++ bound.2 ++ pm.deferred source fuseDeviceFD false)

/-- Lines 149 to 253 of `Mount`: what it does while it holds the lock of the helper pod. -/
def PodMounter.mountLocked (pm : PodMounter) (h : Host) (pkg : NodePkg)
    (bucketName target : String) (credentialCtx : ProvideContext) (args : Args)
    (isTargetMountPoint : Bool) (pod : Pod) (podPath : String) :
    Option (Option Err × List Action) :=
  let mpPodUID := pod.UID
  let source := SourceMountDir ++ mpPodUID
  match pm.verifyOrSetupMountTarget h source with
  | (some err, log1) =>
    some (some (.errorfW
      "Failed to verify source path can be used as a mount point %q: %w" [source] err), log1)
  | (none, log1) =>
    match pm.ensureCredentialsDirExists h pkg podPath with
    | (.error err, log2) =>
      some (some (.errorfW "Failed to create credentials directory for %q: %w" [target] err),
        log1 ++ log2)
    | (.ok podCredentialsPath, log2) =>
      let credentialCtx := credentialCtx.SetWriteAndEnvPath podCredentialsPath
        (pkg.PathInsideMountpointPod pkg.KnownPathCredentials)
      let log := log1 ++ log2 ++ [.provide credentialCtx]
      match h.Provide credentialCtx with
      | .error err =>
        some (some (.errorfW "Failed to provide credentials for %q: %w\n%s"
          [target, pm.helpMessageForGettingMountpointLogs mpPodUID] err), log)
      | .ok (credEnv, authenticationSource) =>
        if isTargetMountPoint then some (none, log)
        else
          match pm.IsMountPoint h source with
          | .error err =>
            some (some (.errorfW "Could not check if source %q is already a mount point: %w"
              [source] err), log)
          | .ok isSourceMountPoint =>
            if !isSourceMountPoint then
              match pm.mountSource h pkg bucketName target args pod podPath source credEnv
                  authenticationSource with
              | none => none
              | some (err, log') => some (err, log ++ log')
            else
              let bound := pm.bindSourceToTarget h source target
              some (bound.1, log ++ bound.2)

/-- The method `Mount`, called with the lock registry `mpPodLocks`; `none` when the call
never returns. -/
def PodMounter.Mount (pm : PodMounter) (h : Host) (pkg : NodePkg) (mpPodLocks : MPPodLocks)
    (ctx : Context) (bucketName target : String) (credentialCtx : ProvideContext)
    (args : Args) : Option Outcome :=
  match pm.volumeNameFromTargetPath pkg target with
  | .error err =>
    some ⟨some (.errorfW "Failed to extract volume name from %q: %w" [target] err), [],
      mpPodLocks⟩
  | .ok volumeName =>
    match pm.verifyOrSetupMountTarget h target with
    | (some err, log) =>
      some ⟨some (.errorfW
        "Failed to verify target path can be used as a mount point %q: %w" [target] err), log,
        mpPodLocks⟩
    | (none, log) =>
      match pm.IsMountPoint h target with
      | .error err =>
        some ⟨some (.errorfW "Could not check if %q is already a mount point: %w" [target] err),
          log, mpPodLocks⟩
      | .ok isTargetMountPoint =>
        match pm.waitForMountpointPod h pkg ctx volumeName credentialCtx with
        | none => none
        | some (.error err) =>
          some ⟨some (.errorfW "Failed to wait for Mountpoint Pod to be ready for %q: %w"
            [target] err), log, mpPodLocks⟩
        | some (.ok (pod, podPath)) =>
          let mpPodUID := pod.UID
          let mpPodLocks := getMPPodLock mpPodLocks mpPodUID
          match pm.mountLocked h pkg bucketName target credentialCtx args isTargetMountPoint
              pod podPath with
          | none => none
          | some (err, log') =>
            some ⟨err, log ++ [.lock mpPodUID] ++ log' ++ [.unlock mpPodUID],
              releaseMPPodLock mpPodLocks mpPodUID⟩

/-- Lines 278 to 328 of `Unmount`: what it does while it holds the lock of the helper pod. -/
def PodMounter.unmountLocked (pm : PodMounter) (h : Host) (pkg : NodePkg) (target : String)
    (credentialCtx : CleanupContext) (source mpPodUID : String) : Option Err × List Action :=
  let podPath := pm.podPath pkg mpPodUID
  let credentialCtx := { credentialCtx with WritePath := pm.credentialsDir pkg podPath }
  match pm.unmountTarget h target with
  | some err =>
    (some (.errorfW "Failed to unmount bind mount %q: %w" [target] err), [.unmount target])
  | none =>
    match pm.bindMountCount h source target with
    | .error err =>
      (some (.errorfW "Failed to bindMountCount %q: %w" [source] err), [.unmount target])
    | .ok bindMountCount =>
      if bindMountCount == 0 then
        let podMountExitPath := pkg.PathOnHost podPath pkg.KnownPathMountExit
        match h.OpenFile podMountExitPath with
        | some err =>
          (some (.errorfW "Failed to send a exit message to Mountpoint Pod for %q: %w\n%s"
            [source, pm.helpMessageForGettingMountpointLogs mpPodUID] err),
            [.unmount target, .createFile podMountExitPath])
        | none =>
          match pm.unmountTarget h source with
          | some err =>
            (some (.errorfW "Failed to unmount source %q: %w" [source] err),
              [.unmount target, .createFile podMountExitPath, .unmount source])
          | none =>
            match h.Remove source with
            | some err =>
              (some (.errorfW "Failed to remove source directory %q: %w" [source] err),
                [.unmount target, .createFile podMountExitPath, .unmount source,
                  .removeFile source])
            | none =>
              match h.Cleanup credentialCtx with
              | some err =>
                (some (.errorfW "Failed to clean up credentials for %q: %w\n%s"
                  [source, pm.helpMessageForGettingMountpointLogs mpPodUID] err),
                  [.unmount target, .createFile podMountExitPath, .unmount source,
                    .removeFile source, .cleanup credentialCtx])
              | none =>
                (none, [.unmount target, .createFile podMountExitPath, .unmount source,
                  .removeFile source, .cleanup credentialCtx])
      else (none, [.unmount target])

/-- The method `Unmount`, called with the lock registry `mpPodLocks`. -/
def PodMounter.Unmount (pm : PodMounter) (h : Host) (pkg : NodePkg) (mpPodLocks : MPPodLocks)
    (target : String) (credentialCtx : CleanupContext) : Outcome :=
  match pm.findSourceMountPoint h target with
  | .error _ =>
    match pm.unmountTarget h target with
    | some err =>
      ⟨some (.errorfW "Failed to unmount bind mount %q: %w" [target] err), [.unmount target],
        mpPodLocks⟩
    | none => ⟨none, [.unmount target], mpPodLocks⟩
  | .ok source =>
    let mpPodUID := filepathBase source
    let mpPodLocks := getMPPodLock mpPodLocks mpPodUID
    let res := pm.unmountLocked h pkg target credentialCtx source mpPodUID
    ⟨res.1, [.lock mpPodUID] ++ res.2 ++ [.unlock mpPodUID], releaseMPPodLock mpPodLocks mpPodUID⟩

/-! ## Reading the logs -/

def Action.isProvide : Action → Bool
  | .provide _ => true
  | _ => false

def Action.isMount : Action → Bool
  | .mount _ _ => true
  | _ => false

def Action.isSend : Action → Bool
  | .send _ _ => true
  | _ => false

def Action.isWaitForMount : Action → Bool
  | .waitForMount _ _ _ => true
  | _ => false

def Action.isBindMount : Action → Bool
  | .bindMount _ _ => true
  | _ => false

/-- The pods of the create calls made so far, oldest first. -/
def RState.creates (s : RState) : List Pod :=
  s.calls.filterMap (fun c => match c with
    | .create p => some p
    | _ => none)

/-- The result of `getBoundPVForPodClaim`, which does not depend on the state. -/
def Reconciler.boundPV (r : Reconciler) (pod : Pod) (claim : PersistentVolumeClaimVolumeSource) :
    Except Err (PersistentVolumeClaim × PersistentVolume) :=
  (r.getBoundPVForPodClaim {} pod claim).1

/-- A volume on which the loop of `reconcileWorkloadPod` takes no decision: it is not a claim,
or its claim is bound to a volume of another driver. -/
def Reconciler.passesOver (r : Reconciler) (pod : Pod) (vol : Volume) : Bool :=
  match vol.PersistentVolumeClaim with
  | none => true
  | some podPVC =>
    match r.boundPV pod podPVC with
    | .ok (_, pv) => (extractCSISpecFromPV pv).isNone
    | .error _ => false

/-- Repeated evaluation: `n` consecutive runs of `spawnOrDeleteMountpointPodIfNeeded` for the
same workload pod and volume, each on the state left by the one before; the results, oldest
first, and the last state. -/
def Reconciler.respawn (r : Reconciler) (workloadPod : Pod) (pvc : PersistentVolumeClaim)
    (pv : PersistentVolume) (csiSpec : CSIPersistentVolumeSource) :
    Nat → RState → Option (List (Bool × Option Err) × RState)
  | 0, s => some ([], s)
  | n + 1, s =>
    match r.spawnOrDeleteMountpointPodIfNeeded s workloadPod pvc pv csiSpec with
    | none => none
    | some (res, s) =>
      match r.respawn workloadPod pvc pv csiSpec n s with
      | none => none
      | some (ress, s) => some (res :: ress, s)

/-- The credential context that `Mount` hands to the credential provider. -/
def PodMounter.provideContext (pm : PodMounter) (pkg : NodePkg) (credentialCtx : ProvideContext)
    (podPath : String) : ProvideContext :=
  credentialCtx.SetWriteAndEnvPath (pm.credentialsDir pkg podPath)
    (pkg.PathInsideMountpointPod pkg.KnownPathCredentials)

/-- The calls that `Mount` makes before it reaches the check of the source mount point, the
helper pod being `pod`: on the target, then under the lock. -/
def PodMounter.mountPreamble (pm : PodMounter) (h : Host) (pkg : NodePkg) (target : String)
    (credentialCtx : ProvideContext) (pod : Pod) (podPath : String) : List Action :=
  (pm.verifyOrSetupMountTarget h target).2 ++ [.lock pod.UID] ++
    ((pm.verifyOrSetupMountTarget h (SourceMountDir ++ pod.UID)).2 ++
      [.mkdir (pm.credentialsDir pkg podPath)] ++
      [.provide (pm.provideContext pkg credentialCtx podPath)])

/-- The exit marker of the helper pod whose source mount is `source` (line 300). -/
def PodMounter.podMountExitPath (pm : PodMounter) (pkg : NodePkg) (source : String) : String :=
  pkg.PathOnHost (pm.podPath pkg (filepathBase source)) pkg.KnownPathMountExit

/-- The credential context that `Unmount` hands to the credential provider (line 283). -/
def PodMounter.cleanupContext (pm : PodMounter) (pkg : NodePkg) (credentialCtx : CleanupContext)
    (source : String) : CleanupContext :=
  { credentialCtx with WritePath := pm.credentialsDir pkg (pm.podPath pkg (filepathBase source)) }

/-- The four calls by which `Unmount` tears down the mount state of the helper pod whose source
mount is `source`, in program order: the exit marker is created, the source is unmounted, the
source directory is removed, the credentials are cleaned up. -/
def PodMounter.teardown (pm : PodMounter) (pkg : NodePkg) (credentialCtx : CleanupContext)
    (source : String) : List Action :=
  [.createFile (pm.podMountExitPath pkg source), .unmount source, .removeFile source,
    .cleanup (pm.cleanupContext pkg credentialCtx source)]

/-! ## Concrete executions

The values below are one cluster and one node, used to run the definitions above on concrete
inputs: a workload pod `web-0` on `node-a` with a claim bound to the volume `pv-123`, and a
running helper pod with UID `abc`. -/

def examplePkg : Pkg :=
  { volumecontextAuthenticationSource := "authenticationSource"
    volumecontextMountpointPodServiceAccountName := "mountpointPodServiceAccountName"
    CommunicationDirName := "comm"
    MountpointPodUserID := fun _ => some 1000
    filepathJoin := fun xs => String.join xs }

def examplePV : PersistentVolume :=
  { Name := "pv-123", CSI := some { Driver := "s3.csi.aws.com" },
    ClaimRef := some { Name := "claim" } }

def examplePVC : PersistentVolumeClaim :=
  { Name := "claim", VolumeName := "pv-123", Phase := "Bound" }

def exampleVolume : Volume :=
  { Name := "data", PersistentVolumeClaim := some { ClaimName := "claim" } }

def exampleWorkload : Pod :=
  { Name := "web-0", Namespace := "default",
    Spec := { NodeName := "node-a", SecurityContext := some {},
              Volumes := [{ Name := "tmp", EmptyDir := true }, exampleVolume] } }

def exampleHelper : Pod :=
  { Name := "mp-abc", Namespace := "mount-s3", UID := "abc",
    Labels := [(LabelVolumeName, "pv-123"), (LabelAuthenticationSource, "driver"),
      (LabelWorkloadPodFSGroup, "")],
    Spec := { NodeName := "node-a" }, Status := { Phase := PodRunning } }

def exampleSelector : GoMap :=
  [(LabelVolumeName, "pv-123"), (LabelAuthenticationSource, "driver"),
    (LabelWorkloadPodFSGroup, "")]

def exampleKey : String :=
  "node-as3.csi.aws.com/authentication-source=driver;s3.csi.aws.com/volume-name=pv-123;s3.csi.aws.com/workload-pod-fsgroup=;"

/-- An API client that lists `items` as helper pods and answers a create call with
`createErr`. -/
def exampleClient (items : List Pod) (createErr : Option Err) : Client :=
  { GetPod := fun _ _ => .ok exampleWorkload
    GetPVC := fun _ _ => .ok examplePVC
    GetPV := fun _ => .ok examplePV
    List := fun _ _ _ => .ok items
    Create := fun _ => createErr
    Delete := fun _ => none }

def exampleReconciler (items : List Pod) (createErr : Option Err) : Reconciler :=
  (NewReconciler (exampleClient items createErr) examplePkg { Namespace := "mount-s3" }).1

def exampleNodePkg : NodePkg :=
  { ParseTargetPath := fun _ => .ok "pv-123"
    filepathJoin := fun xs => "/".intercalate xs
    PathOnHost := fun podPath path => podPath ++ "/comm/" ++ path
    PathInsideMountpointPod := fun path => "/comm/" ++ path
    KnownPathCredentials := "credentials"
    KnownPathMountSock := "mount.sock"
    KnownPathMountError := "mount.error"
    KnownPathMountExit := "mount.exit"
    ArgAWSMaxAttempts := "--aws-max-attempts"
    ArgUserAgentPrefix := "--user-agent-prefix"
    EnvMaxAttempts := "AWS_MAX_ATTEMPTS"
    ArgsRemove := fun args _ => (args, none)
    ArgsSet := fun args k v => args ++ [k ++ "=" ++ v]
    ArgsSortedList := fun args => args
    EnvDefault := []
    EnvMerge := fun a b => a ++ b
    EnvSet := fun env k v => env ++ [k ++ "=" ++ v]
    EnvList := fun env => env
    UserAgent := fun authenticationSource version => authenticationSource ++ "/" ++ version }

def exampleSource : String := SourceMountDir ++ "abc"

/-- A node on which every call succeeds, no path is a mount point unless listed in `mounted`,
the target `t1` is a bind mount of the source of helper pod `abc`, `count` bind mounts of that
source remain, and the source becomes a mount point at the first poll. -/
def exampleHost (mounted : List String) (count : Int) : Host :=
  { Getenv := fun _ => "node-a"
    verifyMountPointStatx := fun _ => none
    IsNotExist := fun _ => false
    IsExist := fun _ => false
    IsCorruptedMnt := fun _ => false
    MkdirAll := fun _ => none
    Mkdir := fun _ => none
    Unmount := fun _ => none
    isMountPoint := fun path => .ok (mounted.contains path)
    findSourceMountPoint := fun _ => .ok exampleSource
    bindMountCount := fun _ _ => .ok count
    mountSyscallDefault := fun _ _ => .ok 7
    bindMountSyscallDefault := fun _ _ => none
    Provide := fun _ => .ok ([], "driver")
    Cleanup := fun _ => none
    Send := fun _ _ => none
    Remove := fun _ => none
    OpenFile := fun _ => none
    Polls := fun _ _ => [.mountPoint (.ok true)] }

/-- A watcher whose lister answers `pods` and whose informer delivers `events`. -/
def exampleWatcher (pods : List Pod) (events : List PodEvent) : Watcher :=
  { AddEventHandler := none, Events := events, List := fun _ => .ok pods }

def exampleMounter : PodMounter :=
  { podWatcher := exampleWatcher [exampleHelper] []
    kubeletPath := "/var/lib/kubelet"
    mountSyscall := none
    bindMountSyscall := none
    kubernetesVersion := "v1.30" }

def exampleTarget : String := "t1"

/-- The example node with no bind mount left, on which the exit marker cannot be created. -/
def exampleHostReadOnly : Host :=
  { exampleHost [] 0 with OpenFile := fun _ => some (.ext "read-only file system" false) }

/-- The example node on which the mount syscall fails. -/
def exampleHostNoFuse : Host :=
  { exampleHost [] 0 with mountSyscallDefault := fun _ _ => .error (.ext "mount failed" false) }

/-- A state in which the expectation of the example workload and volume is outstanding. -/
def examplePending : RState :=
  { mountpointPodExpectations :=
      { pending := [deriveKeyFromFilters exampleSelector exampleWorkload.Spec.NodeName] } }

/-- The example helper pod before it runs. -/
def examplePendingHelper : Pod :=
  { exampleHelper with Status := { Phase := PodPending } }

/-- A helper pod of the same volume on another node. -/
def exampleRemoteHelper : Pod :=
  { exampleHelper with Name := "mp-def", UID := "def", Spec := { NodeName := "node-b" } }

/-! ## The verdict of the reconciler on one volume -/

/-- What one volume of a workload pod contributes to a reconciliation, in the words of the
specification: whether a retry is requested for it (its claim is not bound yet, or the spawn
decision asks for a retry) and its non-retryable errors (a failed resolution of the claim, or
the error of the spawn decision); with the state afterwards.  `none` is a panic. -/
def Reconciler.volumeVerdict (r : Reconciler) (pod : Pod) (s : RState) (vol : Volume) :
    Option ((Bool × List Err) × RState) :=
  match vol.PersistentVolumeClaim with
  | none => some ((false, []), s)
  | some podPVC =>
    match r.getBoundPVForPodClaim s pod podPVC with
    | (.error err, s) =>
      if errorsIs err errPVCIsNotBoundToAPV then some ((true, []), s)
      else some ((false, [err]), s)
    | (.ok (pvc, pv), s) =>
      match extractCSISpecFromPV pv with
      | none => some ((false, []), s)
      | some csiSpec =>
        match r.spawnOrDeleteMountpointPodIfNeeded s pod pvc pv csiSpec with
        | none => none
        | some ((needsRequeue, err), s) => some ((needsRequeue, err.toList), s)

/-- The verdicts of the volumes of a workload pod, each on the state left by the volumes
before it, in order; with the last state. -/
def Reconciler.volumeVerdicts (r : Reconciler) (pod : Pod) :
    List Volume → RState → Option (List (Bool × List Err) × RState)
  | [], s => some ([], s)
  | vol :: vols, s =>
    match r.volumeVerdict pod s vol with
    | none => none
    | some (v, s) =>
      match r.volumeVerdicts pod vols s with
      | none => none
      | some (vs, s) => some (v :: vs, s)

/-! ## The labels and the node of a helper pod -/

/-- The authentication source of a volume as the specification resolves it: the value of the
volume attribute, or "driver" when the attribute is unset or empty. -/
def resolvedAuthenticationSource (pkg : Pkg) (pv : PersistentVolume) : String :=
  match List.lookup pkg.volumecontextAuthenticationSource (ExtractVolumeAttributes pv) with
  | none => "driver"
  | some value => if value = "" then "driver" else value

/-- The `fsGroup` of a workload as the specification renders it: in decimal, or the empty
string when it is unset. -/
def renderedFSGroup (securityContext : PodSecurityContext) : String :=
  match securityContext.FSGroup with
  | some g => FormatInt g
  | none => ""

/-- The node selector terms by which `Creator.Create` pins a helper pod to the node `node`. -/
def pinnedTo (node : String) : List NodeSelectorTerm :=
  [{
    MatchFields := [{
      Key := ObjectNameField
      Operator := NodeSelectorOpIn
      Values := [node] }] }]

/-! ## Sequences of calls on the lock registry -/

/-- A call on the lock registry: `getMPPodLock` or `releaseMPPodLock` for a helper pod UID. -/
inductive LockCall where
  | acquire (mpPodUID : String)
  | release (mpPodUID : String)
  deriving DecidableEq, Repr

/-- The registry after one call. -/
def LockCall.run (mpPodLocks : MPPodLocks) : LockCall → MPPodLocks
  | .acquire mpPodUID => getMPPodLock mpPodLocks mpPodUID
  | .release mpPodUID => releaseMPPodLock mpPodLocks mpPodUID

/-- The registry after the calls, made in order on the registry `mpPodLocks`. -/
def runLockCalls (mpPodLocks : MPPodLocks) (calls : List LockCall) : MPPodLocks :=
  calls.foldl LockCall.run mpPodLocks

/-- The number of acquires of `mpPodUID` among the calls. -/
def acquires (mpPodUID : String) (calls : List LockCall) : Nat :=
  calls.count (.acquire mpPodUID)

/-- The number of releases of `mpPodUID` among the calls. -/
def releases (mpPodUID : String) (calls : List LockCall) : Nat :=
  calls.count (.release mpPodUID)

/-- Each release among `calls` is preceded by an unmatched acquire of the same UID, `seen`
being the calls made before them: when a UID is released, it has been acquired more often than
released. -/
def releasesMatched (seen : List LockCall) : List LockCall → Bool
  | [] => true
  | .acquire mpPodUID :: calls => releasesMatched (seen ++ [.acquire mpPodUID]) calls
  | .release mpPodUID :: calls =>
    decide (releases mpPodUID seen < acquires mpPodUID seen) &&
      releasesMatched (seen ++ [.release mpPodUID]) calls

/-- The entry that the specification gives a UID after the calls: none unless the acquires
exceed the releases, and then the difference as reference count. -/
def expectedLock (mpPodUID : String) (calls : List LockCall) : Option Int :=
  if releases mpPodUID calls < acquires mpPodUID calls then
    some ((acquires mpPodUID calls : Int) - (releases mpPodUID calls : Int))
  else none

/-! ## The entries of an expectation key -/

/-- The concatenation of "key=value;" for the keys `keys`, in the order of the list, the values
being those of the filter: the part of the expectation key that follows the node name, in the
words of the specification. -/
def concatEntries (labelFilters : GoMap) : List String → String
  | [] => ""
  | k :: keys => k ++ "=" ++ labelFilters.get k ++ ";" ++ concatEntries labelFilters keys

/-! ## Further concrete executions -/

/-- The example helper pod after Mountpoint has exited with success. -/
def exampleSucceededHelper : Pod :=
  { exampleHelper with Status := { Phase := PodSucceeded } }

/-- An API client that returns `pod` for every pod and answers a delete call with
`deleteErr`. -/
def exampleHelperClient (pod : Pod) (deleteErr : Option Err) : Client :=
  { GetPod := fun _ _ => .ok pod
    GetPVC := fun _ _ => .ok examplePVC
    GetPV := fun _ => .ok examplePV
    List := fun _ _ _ => .ok []
    Create := fun _ => none
    Delete := fun _ => deleteErr }

/-- The reconciler of the example cluster over `exampleHelperClient pod deleteErr`. -/
def exampleHelperReconciler (pod : Pod) (deleteErr : Option Err) : Reconciler :=
  (NewReconciler (exampleHelperClient pod deleteErr) examplePkg { Namespace := "mount-s3" }).1

/-- The example workload once it is scheduled for deletion. -/
def exampleTerminatingWorkload : Pod :=
  { exampleWorkload with DeletionTimestamp := some 1 }

/-- The example node on which the source mount of a target cannot be resolved. -/
def exampleHostNoSource : Host :=
  { exampleHost [] 0 with
    findSourceMountPoint := fun _ => .error (.ext "no source mount" false) }

/-- The example volume before the binding controller has set its claim reference. -/
def exampleUnclaimedPV : PersistentVolume :=
  { examplePV with ClaimRef := none }

/-- An API client like `exampleClient [] none` whose volume `pv-123` has no claim reference. -/
def exampleUnclaimedClient : Client :=
  { exampleClient [] none with GetPV := fun _ => .ok exampleUnclaimedPV }

/-- The reconciler of the example cluster over `exampleUnclaimedClient`. -/
def exampleUnclaimedReconciler : Reconciler :=
  (NewReconciler exampleUnclaimedClient examplePkg { Namespace := "mount-s3" }).1

/-- The helper pod that the example reconciler builds for the example workload and volume. -/
def exampleMountpointPod : Pod :=
  ((NewCreator { Namespace := "mount-s3" }).Create examplePkg exampleWorkload examplePV).getD {}

/-- The example workload with the `fsGroup` 1000 and the service account `reader`. -/
def examplePodScopedWorkload : Pod :=
  { exampleWorkload with
    Spec := { exampleWorkload.Spec with
      SecurityContext := some { FSGroup := some 1000 }, ServiceAccountName := "reader" } }

/-- The example volume with the pod-scoped authentication source. -/
def examplePodScopedPV : PersistentVolume :=
  { examplePV with
    CSI := some { Driver := "s3.csi.aws.com",
                  VolumeAttributes := some [("authenticationSource", "pod")] } }

/-- The example selector with its entries in another order. -/
def exampleSelectorReordered : GoMap :=
  [(LabelWorkloadPodFSGroup, ""), (LabelVolumeName, "pv-123"),
    (LabelAuthenticationSource, "driver")]

/-! ## `mppod/mppod.go` -/

/-- One hexadecimal digit, in lower case. -/
def hexDigit (n : Nat) : Char :=
  "0123456789abcdef".toList.getD (n % 16) '0'

/-- The verb `%x` of `fmt` on a byte array: two hexadecimal digits for each byte, in order. -/
def formatHex (bytes : List Nat) : String :=
  String.mk (bytes.flatMap (fun b => [hexDigit (b / 16), hexDigit b]))

/-- The function `MountpointPodNameFor`.  `Sum224` is `sha256.Sum224` of the Go library, which
is handed the bytes written by `fmt.Appendf(nil, "%s%s", nodeName, volumeName)`: those of
`nodeName` followed by those of `volumeName`. -/
def MountpointPodNameFor (Sum224 : String → List Nat) (nodeName volumeName : String) : String :=
  "mp-" ++ formatHex (Sum224 (nodeName ++ volumeName))

/-! ## The values shown by an error -/

/-- The values that the outermost `fmt.Errorf` of an error shows through its verbs other than
`%w`, in order; an error that is not built by `fmt.Errorf` shows none. -/
def Err.args : Err → List String
  | .errorf _ args => args
  | .errorfW _ args _ => args
  | .errorfWV _ args _ _ => args
  | _ => []

/-! ## The pods that a label selector selects -/

/-- The test `Matches` of the selector that `labels.Set.AsSelector` of `k8s.io/apimachinery`
makes of a label set, by which the lister of `Wait` filters the pods: every key of the
selector is a label of the pod, and has the value that the selector gives it. -/
def matchesSelector (labelSelector labels : GoMap) : Bool :=
  labelSelector.all (fun kv => labels.has kv.1 && labels.get kv.1 == kv.2)

/-! ## The calls on the mutex of a helper pod -/

/-- Whether a call takes or releases the mutex of a helper pod. -/
def Action.onLock : Action → Bool
  | .lock _ => true
  | .unlock _ => true
  | _ => false

/-! ## The least key of a label filter -/

/-- The first key that `deriveKeyFromFilters` writes after the node name: the least key of the
filter, if the filter has a key. -/
def leastKey (labelFilters : GoMap) : Option String :=
  ((GoMap.keys labelFilters).insertionSort (fun a b => a ≤ b)).head?

/-! ## Concrete executions for the errors, the panics and the selectors -/

/-- The example workload while it is pending and scheduled for deletion. -/
def examplePendingTerminatingWorkload : Pod :=
  { exampleWorkload with DeletionTimestamp := some 1, Status := { Phase := PodPending } }

/-- An API client that returns the pending workload scheduled for deletion and lists the
helper pod `mp-abc` for it. -/
def exampleTerminatingClient : Client :=
  { exampleClient [exampleHelper] none with
    GetPod := fun _ _ => .ok examplePendingTerminatingWorkload }

/-- The reconciler of the example cluster over `exampleTerminatingClient`. -/
def exampleTerminatingReconciler : Reconciler :=
  (NewReconciler exampleTerminatingClient examplePkg { Namespace := "mount-s3" }).1

/-- The example workload without a pod-level security context. -/
def exampleBareWorkload : Pod :=
  { exampleWorkload with Spec := { exampleWorkload.Spec with SecurityContext := none } }

/-- An API client that returns the workload without security context. -/
def exampleBareClient : Client :=
  { exampleClient [] none with GetPod := fun _ _ => .ok exampleBareWorkload }

/-- The reconciler of the example cluster over `exampleBareClient`. -/
def exampleBareReconciler : Reconciler :=
  (NewReconciler exampleBareClient examplePkg { Namespace := "mount-s3" }).1

/-- The example node on which the stat of every path fails with `err`, classified as missing
or as a corrupted mount by `missing` and `corrupted`. -/
def exampleHostStat (err : Err) (missing corrupted : Bool) : Host :=
  { exampleHost [] 0 with
    verifyMountPointStatx := fun _ => some err
    IsNotExist := fun _ => missing
    IsCorruptedMnt := fun _ => corrupted }

/-- The example helper pod without the label of the `fsGroup` of the workload. -/
def exampleUnlabelledHelper : Pod :=
  { exampleHelper with
    Labels := [(LabelVolumeName, "pv-123"), (LabelAuthenticationSource, "driver")] }

/-- A watcher whose lister holds `pods` and answers a label selector with those of them that
satisfy it, and whose informer delivers `events`. -/
def exampleListingWatcher (pods : List Pod) (events : List PodEvent) : Watcher :=
  { AddEventHandler := none
    Events := events
    List := fun labelSelector =>
      .ok (pods.filter (fun pod => matchesSelector labelSelector pod.Labels)) }

/-! ## The expectation tracker and the log of API calls -/

/-- A key is pending once it has been set. -/
theorem IsPending_SetPending (e : Expectations) (k : String) :
    (e.SetPending k).IsPending k = true := by
  unfold Expectations.SetPending Expectations.IsPending
  split <;> simp_all

/-- A key is not pending once it has been cleared. -/
theorem IsPending_Clear (e : Expectations) (k : String) :
    (e.Clear k).IsPending k = false := by
  simp [Expectations.Clear, Expectations.IsPending]

/-- Clearing a key leaves every other key as it was. -/
theorem IsPending_Clear_other (e : Expectations) (k k' : String) (h : k' ≠ k) :
    (e.Clear k).IsPending k' = e.IsPending k' := by
  simp [Expectations.Clear, Expectations.IsPending, h]

/-- A create call adds its pod to the pods created. -/
theorem creates_call_create (s : RState) (p : Pod) :
    (s.call (.create p)).creates = s.creates ++ [p] := by
  simp [RState.call, RState.creates, List.filterMap_append]

/-- The result of `getBoundPVForPodClaim` is the same in every state. -/
theorem getBound_fst (r : Reconciler) (s : RState) (pod : Pod)
    (c : PersistentVolumeClaimVolumeSource) :
    (r.getBoundPVForPodClaim s pod c).1 = r.boundPV pod c := by
  unfold Reconciler.boundPV Reconciler.getBoundPVForPodClaim
  repeat' split
  all_goals simp_all

/-- The method `getBoundPVForPodClaim` neither touches the expectations nor creates a pod. -/
theorem getBound_snd (r : Reconciler) (s : RState) (pod : Pod)
    (c : PersistentVolumeClaimVolumeSource) :
    (r.getBoundPVForPodClaim s pod c).2.mountpointPodExpectations = s.mountpointPodExpectations ∧
    (r.getBoundPVForPodClaim s pod c).2.creates = s.creates := by
  unfold Reconciler.getBoundPVForPodClaim
  repeat' split
  all_goals simp [RState.call, RState.creates, List.filterMap_append]

/-- A volume that is passed over leaves the accumulators, the expectations and the pods created as they were. -/
theorem reconcileVolume_passesOver (r : Reconciler) (pod : Pod) (requeue : Bool)
    (errs : List Err) (s : RState) (vol : Volume) (h : r.passesOver pod vol = true) :
    ∃ s', r.reconcileVolume pod requeue errs s vol = some (requeue, errs, s') ∧
      s'.mountpointPodExpectations = s.mountpointPodExpectations ∧ s'.creates = s.creates := by
  unfold Reconciler.passesOver at h
  unfold Reconciler.reconcileVolume
  cases hv : vol.PersistentVolumeClaim with
  | none => exact ⟨s, by simp, rfl, rfl⟩
  | some podPVC =>
    have h1 := getBound_fst r s pod podPVC
    have h2 := getBound_snd r s pod podPVC
    rw [hv] at h
    simp only at h
    rcases hg : r.getBoundPVForPodClaim s pod podPVC with ⟨res, s1⟩
    rw [hg] at h1 h2
    simp only at h1 h2
    rw [← h1] at h
    cases res with
    | error e => simp at h
    | ok pp =>
      obtain ⟨pvc, pv⟩ := pp
      simp only at h
      cases hx : extractCSISpecFromPV pv with
      | none => exact ⟨s1, by simp [hg, hx], h2.1, h2.2⟩
      | some c => simp [hx] at h

/-- Volumes that are all passed over leave the accumulators, the expectations and the pods created as they were. -/
theorem reconcileVolumes_passesOver (r : Reconciler) (pod : Pod) (vols : List Volume)
    (requeue : Bool) (errs : List Err) (s : RState)
    (h : ∀ v ∈ vols, r.passesOver pod v = true) :
    ∃ s', r.reconcileVolumes pod vols requeue errs s = some (requeue, errs, s') ∧
      s'.mountpointPodExpectations = s.mountpointPodExpectations ∧ s'.creates = s.creates := by
  induction vols generalizing s with
  | nil => exact ⟨s, rfl, rfl, rfl⟩
  | cons v vs ih =>
    obtain ⟨s1, h1, e1, c1⟩ := reconcileVolume_passesOver r pod requeue errs s v
      (h v (List.mem_cons_self _ _))
    obtain ⟨s2, h2, e2, c2⟩ := ih s1 (fun w hw => h w (List.mem_cons_of_mem _ hw))
    exact ⟨s2, by simp [Reconciler.reconcileVolumes, h1, h2], e2.trans e1, c2.trans c1⟩

/-- The loop over a concatenation is the loop over the first list followed by the loop over the second. -/
theorem reconcileVolumes_append (r : Reconciler) (pod : Pod) (xs ys : List Volume)
    (requeue : Bool) (errs : List Err) (s : RState) :
    r.reconcileVolumes pod (xs ++ ys) requeue errs s =
      match r.reconcileVolumes pod xs requeue errs s with
      | none => none
      | some (requeue, errs, s) => r.reconcileVolumes pod ys requeue errs s := by
  induction xs generalizing requeue errs s with
  | nil => simp [Reconciler.reconcileVolumes]
  | cons v vs ih =>
    simp only [List.cons_append, Reconciler.reconcileVolumes]
    cases r.reconcileVolume pod requeue errs s v with
    | none => rfl
    | some x => obtain ⟨a, b, c⟩ := x; exact ih a b c

/-- When the selector of a workload pod can be computed, `Creator.Create` builds a pod for it. -/
theorem selector_Create (r : Reconciler) (pod : Pod) (pv : PersistentVolume)
    (authSource : String) (labelFilters : GoMap)
    (hsel : r.selector pod pv = some (authSource, labelFilters)) :
    ∃ mpPod, r.mountpointPodCreator.Create r.pkg pod pv = some mpPod := by
  unfold Reconciler.selector at hsel
  unfold Creator.Create
  cases hsc : pod.Spec.SecurityContext with
  | none => simp [hsc] at hsel
  | some sc => exact ⟨_, rfl⟩

/-- With no helper pod listed and the expectation outstanding, the spawn decision only lists and asks for a retry. -/
theorem spawn_pending_step (r : Reconciler) (s : RState) (workloadPod : Pod)
    (pvc : PersistentVolumeClaim) (pv : PersistentVolume) (csiSpec : CSIPersistentVolumeSource)
    (authSource : String) (labelFilters : GoMap)
    (hactive : isPodActive workloadPod = true)
    (hsel : r.selector workloadPod pv = some (authSource, labelFilters))
    (hlist : r.client.List r.mountpointPodConfig.Namespace workloadPod.Spec.NodeName labelFilters
      = .ok [])
    (hpend : s.mountpointPodExpectations.IsPending
      (deriveKeyFromFilters labelFilters workloadPod.Spec.NodeName) = true) :
    r.spawnOrDeleteMountpointPodIfNeeded s workloadPod pvc pv csiSpec =
      some ((true, none), s.call
        (.list r.mountpointPodConfig.Namespace workloadPod.Spec.NodeName labelFilters)) := by
  simp [Reconciler.spawnOrDeleteMountpointPodIfNeeded, hactive, hsel, hlist, RState.call, hpend]

/-! ## C1 to C4: the spawn decision of the reconciler -/

/-- C1 (as amended): for an active, scheduled workload pod with exactly one bound volume of
this driver (every other volume being passed over), when the list of helper pods matching the
derived selector on the node of the pod is empty, no expectation is outstanding for the derived
key and the create call succeeds, one reconciliation issues exactly one create call, for the
pod built by `Creator.Create`, records an expectation under
`deriveKeyFromFilters(selector, nodeName)` and returns `Requeue = true` with no error. -/
theorem C1_reconcile_spawns_once_when_create_succeeds (r : Reconciler) (s : RState) (req : NamespacedName) (pod : Pod)
    (before after : List Volume) (vol : Volume) (podPVC : PersistentVolumeClaimVolumeSource)
    (pvc : PersistentVolumeClaim) (pv : PersistentVolume) (csiSpec : CSIPersistentVolumeSource)
    (authSource : String) (labelFilters : GoMap)
    (hget : r.client.GetPod req.Namespace req.Name = .ok pod)
    (hworkload : r.isMountpointPod pod = false)
    (hactive : isPodActive pod = true)
    (hsched : pod.Spec.NodeName ≠ "")
    (hvols : pod.Spec.Volumes = before ++ vol :: after)
    (hothers : ∀ v ∈ before ++ after, r.passesOver pod v = true)
    (hvol : vol.PersistentVolumeClaim = some podPVC)
    (hbound : r.boundPV pod podPVC = .ok (pvc, pv))
    (hcsi : extractCSISpecFromPV pv = some csiSpec)
    (hsel : r.selector pod pv = some (authSource, labelFilters))
    (hlist : r.client.List r.mountpointPodConfig.Namespace pod.Spec.NodeName labelFilters
      = .ok [])
    (hpend : s.mountpointPodExpectations.IsPending
      (deriveKeyFromFilters labelFilters pod.Spec.NodeName) = false)
    (hcreate : ∀ mpPod, r.mountpointPodCreator.Create r.pkg pod pv = some mpPod →
      r.client.Create mpPod = none) :
    ∃ mpPod s', r.mountpointPodCreator.Create r.pkg pod pv = some mpPod ∧
      r.Reconcile s req = some (({ Requeue := true }, none), s') ∧
      s'.creates = s.creates ++ [mpPod] ∧
      s'.mountpointPodExpectations = s.mountpointPodExpectations.SetPending
        (deriveKeyFromFilters labelFilters pod.Spec.NodeName) ∧
      s'.mountpointPodExpectations.IsPending
        (deriveKeyFromFilters labelFilters pod.Spec.NodeName) = true := by
  obtain ⟨mpPod, hmk⟩ := selector_Create r pod pv authSource labelFilters hsel
  have hc := hcreate mpPod hmk
  -- the volumes before the bound one
  obtain ⟨s1, h1, e1, c1⟩ := reconcileVolumes_passesOver r pod before false []
    (s.call (.getPod req.Namespace req.Name))
    (fun v hv => hothers v (List.mem_append_left _ hv))
  -- the bound volume
  have hb := getBound_fst r s1 pod podPVC
  have hb2 := getBound_snd r s1 pod podPVC
  rcases hg : r.getBoundPVForPodClaim s1 pod podPVC with ⟨res, s2⟩
  rw [hg] at hb hb2
  simp only at hb hb2
  rw [hbound] at hb
  subst hb
  have hp2 : s2.mountpointPodExpectations.IsPending
      (deriveKeyFromFilters labelFilters pod.Spec.NodeName) = false := by
    rw [hb2.1, e1]; simpa [RState.call] using hpend
  have hstep : r.reconcileVolume pod false [] s1 vol = some (true, [],
      { mountpointPodExpectations := s2.mountpointPodExpectations.SetPending
          (deriveKeyFromFilters labelFilters pod.Spec.NodeName)
        calls := s2.calls ++ [.list r.mountpointPodConfig.Namespace pod.Spec.NodeName
          labelFilters, .create mpPod] }) := by
    simp [Reconciler.reconcileVolume, hvol, hg, hcsi,
      Reconciler.spawnOrDeleteMountpointPodIfNeeded, hactive, hsel, hlist, hp2,
      Reconciler.spawnMountpointPod, hmk, hc, RState.call]
  -- the volumes after it
  obtain ⟨s3, h3, e3, c3⟩ := reconcileVolumes_passesOver r pod after true []
    { mountpointPodExpectations := s2.mountpointPodExpectations.SetPending
        (deriveKeyFromFilters labelFilters pod.Spec.NodeName)
      calls := s2.calls ++ [.list r.mountpointPodConfig.Namespace pod.Spec.NodeName
        labelFilters, .create mpPod] }
    (fun v hv => hothers v (List.mem_append_right _ hv))
  refine ⟨mpPod, s3, hmk, ?_, ?_, ?_, ?_⟩
  · simp [Reconciler.Reconcile, hget, hworkload, Reconciler.reconcileWorkloadPod, hsched, hvols,
      reconcileVolumes_append, h1, Reconciler.reconcileVolumes, hstep, h3, errorsJoin]
  · rw [c3]
    have : s2.creates = s.creates := by
      rw [hb2.2, c1]; simp [RState.call, RState.creates, List.filterMap_append]
    simp [RState.creates, List.filterMap_append] at this ⊢
    exact this
  · rw [e3]
    simp only
    rw [hb2.1, e1]
    rfl
  · rw [e3]
    exact IsPending_SetPending _ _

/-- Witness of C1 (as amended): the workload `web-0` on `node-a` with the bound volume `pv-123`, no
helper pod listed, no expectation outstanding and a create call that succeeds. -/
theorem C1_witness :
    ∃ mpPod s',
      (exampleReconciler [] none).mountpointPodCreator.Create (exampleReconciler [] none).pkg
        exampleWorkload examplePV = some mpPod ∧
      (exampleReconciler [] none).Reconcile {} { Namespace := "default", Name := "web-0" } =
        some (({ Requeue := true }, none), s') ∧
      s'.creates = ({} : RState).creates ++ [mpPod] ∧
      s'.mountpointPodExpectations = ({} : RState).mountpointPodExpectations.SetPending
        (deriveKeyFromFilters exampleSelector exampleWorkload.Spec.NodeName) ∧
      s'.mountpointPodExpectations.IsPending
        (deriveKeyFromFilters exampleSelector exampleWorkload.Spec.NodeName) = true :=
  C1_reconcile_spawns_once_when_create_succeeds (exampleReconciler [] none) {}
    { Namespace := "default", Name := "web-0" } exampleWorkload
    [{ Name := "tmp", EmptyDir := true }] [] exampleVolume { ClaimName := "claim" }
    examplePVC examplePV { Driver := "s3.csi.aws.com" } "driver" exampleSelector
    rfl (by decide) (by decide) (by decide) rfl (by decide) rfl rfl (by decide) (by decide)
    rfl rfl (fun _ _ => rfl)

/-- Counterexample to C1 as stated: the same workload, volume, empty list and empty expectation
set, but the API server refuses the create call.  The reconciliation issues its one create
call, then returns `Requeue = false` with an error and records no expectation. -/
theorem C1_counterexample_create_refused :
    isPodActive exampleWorkload = true ∧
    exampleWorkload.Spec.NodeName ≠ "" ∧
    (exampleReconciler [] (some (.ext "create refused" false))).isMountpointPod exampleWorkload
      = false ∧
    (exampleReconciler [] (some (.ext "create refused" false))).boundPV exampleWorkload
      { ClaimName := "claim" } = .ok (examplePVC, examplePV) ∧
    extractCSISpecFromPV examplePV = some { Driver := "s3.csi.aws.com" } ∧
    (exampleReconciler [] (some (.ext "create refused" false))).selector exampleWorkload
      examplePV = some ("driver", exampleSelector) ∧
    (exampleReconciler [] (some (.ext "create refused" false))).client.List "mount-s3" "node-a"
      exampleSelector = .ok [] ∧
    ({} : RState).mountpointPodExpectations.IsPending
      (deriveKeyFromFilters exampleSelector "node-a") = false ∧
    ((exampleReconciler [] (some (.ext "create refused" false))).Reconcile {}
      { Namespace := "default", Name := "web-0" }).map
        (fun x => (x.1, x.2.creates.length, x.2.mountpointPodExpectations)) =
      some (({ Requeue := false }, some (.joined [.ext "create refused" false])), 1, {}) :=
  ⟨by decide, by decide, by decide, rfl, by decide, by decide, rfl, rfl, by decide⟩

/-- C2: for an active workload pod and a bound volume, `labelFilters` being the selector that
the function derives for them, when no helper pod matches the selector and an expectation is
outstanding for the derived key, `spawnOrDeleteMountpointPodIfNeeded`
makes its list call and no other call, leaves the expectation set unchanged and returns
`(true, nil)`; hence any number `n` of consecutive evaluations, the list staying empty, return
`(true, nil)` each time, make `n` list calls and no create call, and leave the expectation set
unchanged. -/
theorem C2_outstanding_expectation_suppresses_create (r : Reconciler) (s : RState) (workloadPod : Pod)
    (pvc : PersistentVolumeClaim) (pv : PersistentVolume) (csiSpec : CSIPersistentVolumeSource)
    (authSource : String) (labelFilters : GoMap)
    (hactive : isPodActive workloadPod = true)
    (hsel : r.selector workloadPod pv = some (authSource, labelFilters))
    (hlist : r.client.List r.mountpointPodConfig.Namespace workloadPod.Spec.NodeName labelFilters
      = .ok [])
    (hpend : s.mountpointPodExpectations.IsPending
      (deriveKeyFromFilters labelFilters workloadPod.Spec.NodeName) = true) :
    r.spawnOrDeleteMountpointPodIfNeeded s workloadPod pvc pv csiSpec =
      some ((true, none),
        { s with calls := s.calls ++
            [.list r.mountpointPodConfig.Namespace workloadPod.Spec.NodeName labelFilters] }) ∧
    ∀ n : Nat, r.respawn workloadPod pvc pv csiSpec n s =
      some (List.replicate n (true, none),
        { s with calls := (s.calls ++ List.replicate n
            (Call.list r.mountpointPodConfig.Namespace workloadPod.Spec.NodeName labelFilters)) })
    := by
  refine ⟨spawn_pending_step r s workloadPod pvc pv csiSpec authSource labelFilters
    hactive hsel hlist hpend, ?_⟩
  intro n
  induction n generalizing s with
  | zero => simp [Reconciler.respawn]
  | succ n ih =>
    have hstep := spawn_pending_step r s workloadPod pvc pv csiSpec authSource labelFilters
      hactive hsel hlist hpend
    have hpend' : (s.call (.list r.mountpointPodConfig.Namespace workloadPod.Spec.NodeName
        labelFilters)).mountpointPodExpectations.IsPending
        (deriveKeyFromFilters labelFilters workloadPod.Spec.NodeName) = true := by
      simpa [RState.call] using hpend
    simp only [Reconciler.respawn, hstep, ih _ hpend']
    simp [RState.call, List.replicate_succ]

/-- Witness of C2: the workload `web-0`, no helper pod listed, its expectation outstanding. -/
theorem C2_witness :
    (exampleReconciler [] none).spawnOrDeleteMountpointPodIfNeeded examplePending
        exampleWorkload examplePVC examplePV { Driver := "s3.csi.aws.com" } =
      some ((true, none),
        { examplePending with calls := examplePending.calls ++
            [.list (exampleReconciler [] none).mountpointPodConfig.Namespace
              exampleWorkload.Spec.NodeName exampleSelector] }) ∧
    ∀ n : Nat, (exampleReconciler [] none).respawn exampleWorkload examplePVC examplePV
        { Driver := "s3.csi.aws.com" } n examplePending =
      some (List.replicate n (true, none),
        { examplePending with calls := (examplePending.calls ++ List.replicate n
            (Call.list (exampleReconciler [] none).mountpointPodConfig.Namespace
              exampleWorkload.Spec.NodeName exampleSelector)) }) :=
  C2_outstanding_expectation_suppresses_create (exampleReconciler [] none) examplePending
    exampleWorkload examplePVC examplePV { Driver := "s3.csi.aws.com" } "driver"
    exampleSelector (by decide) (by decide) rfl
    (by simp [examplePending, Expectations.IsPending])

/-- C3: for an active workload pod and a bound volume, `labelFilters` being the selector that
the function derives for them, when exactly one helper pod matches the selector on the node, `spawnOrDeleteMountpointPodIfNeeded` makes its list call and no other
call (no create, no delete), returns `(false, nil)`, and afterwards no expectation is pending
for the derived key, every other key being as before. -/
theorem C3_one_helper_pod_clears_expectation (r : Reconciler) (s : RState) (workloadPod : Pod)
    (pvc : PersistentVolumeClaim) (pv : PersistentVolume) (csiSpec : CSIPersistentVolumeSource)
    (authSource : String) (labelFilters : GoMap) (items : List Pod)
    (hactive : isPodActive workloadPod = true)
    (hsel : r.selector workloadPod pv = some (authSource, labelFilters))
    (hlist : r.client.List r.mountpointPodConfig.Namespace workloadPod.Spec.NodeName labelFilters
      = .ok items)
    (hone : items.length = 1) :
    ∃ s', r.spawnOrDeleteMountpointPodIfNeeded s workloadPod pvc pv csiSpec =
        some ((false, none), s') ∧
      s'.calls = s.calls ++
        [.list r.mountpointPodConfig.Namespace workloadPod.Spec.NodeName labelFilters] ∧
      s'.mountpointPodExpectations.IsPending
        (deriveKeyFromFilters labelFilters workloadPod.Spec.NodeName) = false ∧
      ∀ k, k ≠ deriveKeyFromFilters labelFilters workloadPod.Spec.NodeName →
        s'.mountpointPodExpectations.IsPending k = s.mountpointPodExpectations.IsPending k := by
  by_cases hp : s.mountpointPodExpectations.IsPending
      (deriveKeyFromFilters labelFilters workloadPod.Spec.NodeName) = true
  · refine ⟨RState.mk (s.mountpointPodExpectations.Clear
        (deriveKeyFromFilters labelFilters workloadPod.Spec.NodeName)) (s.calls ++
        [.list r.mountpointPodConfig.Namespace workloadPod.Spec.NodeName labelFilters]), ?_, rfl,
      IsPending_Clear _ _, fun k hk => IsPending_Clear_other _ _ _ hk⟩
    simp [Reconciler.spawnOrDeleteMountpointPodIfNeeded, hactive, hsel, hlist, hone,
      RState.call, hp]
  · refine ⟨RState.mk s.mountpointPodExpectations (s.calls ++
        [.list r.mountpointPodConfig.Namespace workloadPod.Spec.NodeName labelFilters]),
      ?_, rfl, by simpa using hp, fun k _ => rfl⟩
    simp [Reconciler.spawnOrDeleteMountpointPodIfNeeded, hactive, hsel, hlist, hone,
      RState.call, hp]

/-- Witness of C3: the workload `web-0`, its helper pod listed, its expectation outstanding. -/
theorem C3_witness :
    ∃ s', (exampleReconciler [exampleHelper] none).spawnOrDeleteMountpointPodIfNeeded
        examplePending exampleWorkload examplePVC examplePV { Driver := "s3.csi.aws.com" } =
        some ((false, none), s') ∧
      s'.calls = examplePending.calls ++
        [.list (exampleReconciler [exampleHelper] none).mountpointPodConfig.Namespace
          exampleWorkload.Spec.NodeName exampleSelector] ∧
      s'.mountpointPodExpectations.IsPending
        (deriveKeyFromFilters exampleSelector exampleWorkload.Spec.NodeName) = false ∧
      ∀ k, k ≠ deriveKeyFromFilters exampleSelector exampleWorkload.Spec.NodeName →
        s'.mountpointPodExpectations.IsPending k =
          examplePending.mountpointPodExpectations.IsPending k :=
  C3_one_helper_pod_clears_expectation (exampleReconciler [exampleHelper] none) examplePending
    exampleWorkload examplePVC examplePV { Driver := "s3.csi.aws.com" } "driver"
    exampleSelector [exampleHelper] (by decide) (by decide) rfl rfl

/-- C4: for an active workload pod and a bound volume, `labelFilters` being the selector that
the function derives for them, when more than one helper pod matches the selector on the node, `spawnOrDeleteMountpointPodIfNeeded` returns a non-nil error, having
made its list call and no other call (no create, no delete) and left the expectation set
unchanged. -/
theorem C4_several_helper_pods_is_an_error (r : Reconciler) (s : RState) (workloadPod : Pod)
    (pvc : PersistentVolumeClaim) (pv : PersistentVolume) (csiSpec : CSIPersistentVolumeSource)
    (authSource : String) (labelFilters : GoMap) (items : List Pod)
    (hactive : isPodActive workloadPod = true)
    (hsel : r.selector workloadPod pv = some (authSource, labelFilters))
    (hlist : r.client.List r.mountpointPodConfig.Namespace workloadPod.Spec.NodeName labelFilters
      = .ok items)
    (hmany : items.length > 1) :
    ∃ err, r.spawnOrDeleteMountpointPodIfNeeded s workloadPod pvc pv csiSpec =
        some ((false, some err),
          { s with calls := s.calls ++
            [.list r.mountpointPodConfig.Namespace workloadPod.Spec.NodeName labelFilters] }) := by
  refine ⟨.errorf "found %d Mountpoint Pods on Node %s instead of 1"
    [toString items.length, workloadPod.Spec.NodeName], ?_⟩
  simp [Reconciler.spawnOrDeleteMountpointPodIfNeeded, hactive, hsel, hlist, RState.call, hmany]

/-- Witness of C4: the workload `web-0` with two helper pods listed. -/
theorem C4_witness :
    ∃ err, (exampleReconciler [exampleHelper, exampleHelper]
        none).spawnOrDeleteMountpointPodIfNeeded {} exampleWorkload examplePVC examplePV
        { Driver := "s3.csi.aws.com" } =
      some ((false, some err),
        { ({} : RState) with calls := ({} : RState).calls ++
            [.list (exampleReconciler [exampleHelper, exampleHelper]
              none).mountpointPodConfig.Namespace exampleWorkload.Spec.NodeName
              exampleSelector] }) :=
  C4_several_helper_pods_is_an_error (exampleReconciler [exampleHelper, exampleHelper] none) {}
    exampleWorkload examplePVC examplePV { Driver := "s3.csi.aws.com" } "driver"
    exampleSelector [exampleHelper, exampleHelper] (by decide) (by decide) rfl (by decide)

/-! ## C5: the teardown of `Unmount` -/

/-- C5 (as amended): for an `Unmount` call whose source mount resolves, whose unmount of the
target succeeds on the node and whose bind-mount count is obtained, the teardown of the mount
state of the helper pod is started (the creation of the exit marker is attempted) if and only
if the count is zero.  When the count is not zero none of the four teardown calls is made and
`Unmount` returns success.  When the count is zero the four calls (exit marker, unmount of the
source, removal of the source directory, credential cleanup) are made in this order, each only
if the one before succeeded: the first that fails is the last call before the unlock and its
error is returned, wrapped; when the first three succeed all four are made, and `Unmount`
succeeds exactly when the cleanup does. -/
theorem C5_unmount_teardown_iff_count_zero (pm : PodMounter) (h : Host) (pkg : NodePkg)
    (mpPodLocks : MPPodLocks) (target : String) (credentialCtx : CleanupContext)
    (source : String) (count : Int)
    (hfind : h.findSourceMountPoint target = .ok source)
    (hunmount : h.Unmount target = none)
    (hcount : h.bindMountCount source target = .ok count) :
    (pm.podMountExitPath pkg source =
        pkg.PathOnHost (pkg.filepathJoin [pm.kubeletPath, "pods", filepathBase source])
          pkg.KnownPathMountExit ∧
      pm.cleanupContext pkg credentialCtx source =
        { credentialCtx with
          WritePath := pkg.PathOnHost
            (pkg.filepathJoin [pm.kubeletPath, "pods", filepathBase source])
            pkg.KnownPathCredentials }) ∧
    (Action.createFile (pm.podMountExitPath pkg source) ∈
        (pm.Unmount h pkg mpPodLocks target credentialCtx).log ↔ count = 0) ∧
    (count ≠ 0 →
      pm.Unmount h pkg mpPodLocks target credentialCtx =
        ⟨none, [.lock (filepathBase source), .unmount target, .unlock (filepathBase source)],
          releaseMPPodLock (getMPPodLock mpPodLocks (filepathBase source))
            (filepathBase source)⟩) ∧
    (count = 0 →
      (∀ e, h.OpenFile (pm.podMountExitPath pkg source) = some e →
        pm.Unmount h pkg mpPodLocks target credentialCtx =
          ⟨some (.errorfW "Failed to send a exit message to Mountpoint Pod for %q: %w\n%s"
              [source, pm.helpMessageForGettingMountpointLogs (filepathBase source)] e),
            [.lock (filepathBase source), .unmount target,
              .createFile (pm.podMountExitPath pkg source), .unlock (filepathBase source)],
            releaseMPPodLock (getMPPodLock mpPodLocks (filepathBase source))
              (filepathBase source)⟩) ∧
      (h.OpenFile (pm.podMountExitPath pkg source) = none →
        (∀ e, h.Unmount source = some e →
          pm.Unmount h pkg mpPodLocks target credentialCtx =
            ⟨some (.errorfW "Failed to unmount source %q: %w" [source] e),
              [.lock (filepathBase source), .unmount target,
                .createFile (pm.podMountExitPath pkg source), .unmount source,
                .unlock (filepathBase source)],
              releaseMPPodLock (getMPPodLock mpPodLocks (filepathBase source))
                (filepathBase source)⟩) ∧
        (h.Unmount source = none →
          (∀ e, h.Remove source = some e →
            pm.Unmount h pkg mpPodLocks target credentialCtx =
              ⟨some (.errorfW "Failed to remove source directory %q: %w" [source] e),
                [.lock (filepathBase source), .unmount target,
                  .createFile (pm.podMountExitPath pkg source), .unmount source,
                  .removeFile source, .unlock (filepathBase source)],
                releaseMPPodLock (getMPPodLock mpPodLocks (filepathBase source))
                  (filepathBase source)⟩) ∧
          (h.Remove source = none →
            (∀ e, h.Cleanup (pm.cleanupContext pkg credentialCtx source) = some e →
              pm.Unmount h pkg mpPodLocks target credentialCtx =
                ⟨some (.errorfW "Failed to clean up credentials for %q: %w\n%s"
                    [source, pm.helpMessageForGettingMountpointLogs (filepathBase source)] e),
                  [.lock (filepathBase source), .unmount target,
                    .createFile (pm.podMountExitPath pkg source), .unmount source,
                    .removeFile source,
                    .cleanup (pm.cleanupContext pkg credentialCtx source),
                    .unlock (filepathBase source)],
                  releaseMPPodLock (getMPPodLock mpPodLocks (filepathBase source))
                    (filepathBase source)⟩) ∧
            (h.Cleanup (pm.cleanupContext pkg credentialCtx source) = none →
              pm.Unmount h pkg mpPodLocks target credentialCtx =
                ⟨none,
                  [.lock (filepathBase source), .unmount target,
                    .createFile (pm.podMountExitPath pkg source), .unmount source,
                    .removeFile source,
                    .cleanup (pm.cleanupContext pkg credentialCtx source),
                    .unlock (filepathBase source)],
                  releaseMPPodLock (getMPPodLock mpPodLocks (filepathBase source))
                    (filepathBase source)⟩))))) := by
  have hne : count ≠ 0 → pm.Unmount h pkg mpPodLocks target credentialCtx =
      ⟨none, [.lock (filepathBase source), .unmount target, .unlock (filepathBase source)],
        releaseMPPodLock (getMPPodLock mpPodLocks (filepathBase source))
          (filepathBase source)⟩ := by
    intro hc
    simp [PodMounter.Unmount, PodMounter.findSourceMountPoint, hfind,
      PodMounter.unmountLocked, PodMounter.unmountTarget, hunmount,
      PodMounter.bindMountCount, hcount, hc]
  have hz : count = 0 →
      Action.createFile (pm.podMountExitPath pkg source) ∈
        (pm.Unmount h pkg mpPodLocks target credentialCtx).log := by
    intro hc
    subst hc
    simp only [PodMounter.Unmount, PodMounter.findSourceMountPoint, hfind,
      PodMounter.unmountLocked, PodMounter.unmountTarget, hunmount,
      PodMounter.bindMountCount, hcount, PodMounter.podMountExitPath, beq_self_eq_true,
      if_true]
    repeat' split
    all_goals simp
  refine ⟨⟨rfl, rfl⟩, ⟨?_, hz⟩, hne, ?_⟩
  · intro hmem
    by_contra hc
    rw [hne hc] at hmem
    simp at hmem
  · intro hc
    subst hc
    refine ⟨?_, ?_⟩
    · intro e h1
      simp only [PodMounter.podMountExitPath] at h1
      simp [PodMounter.Unmount, PodMounter.findSourceMountPoint, hfind,
        PodMounter.unmountLocked, PodMounter.unmountTarget, hunmount,
        PodMounter.bindMountCount, hcount, PodMounter.podMountExitPath, h1]
    · intro h1
      simp only [PodMounter.podMountExitPath] at h1
      refine ⟨?_, ?_⟩
      · intro e h2
        simp [PodMounter.Unmount, PodMounter.findSourceMountPoint, hfind,
          PodMounter.unmountLocked, PodMounter.unmountTarget, hunmount,
          PodMounter.bindMountCount, hcount, PodMounter.podMountExitPath, h1, h2]
      · intro h2
        refine ⟨?_, ?_⟩
        · intro e h3
          simp [PodMounter.Unmount, PodMounter.findSourceMountPoint, hfind,
            PodMounter.unmountLocked, PodMounter.unmountTarget, hunmount,
            PodMounter.bindMountCount, hcount, PodMounter.podMountExitPath, h1, h2, h3]
        · intro h3
          refine ⟨?_, ?_⟩
          · intro e h4
            simp only [PodMounter.cleanupContext] at h4
            simp [PodMounter.Unmount, PodMounter.findSourceMountPoint, hfind,
              PodMounter.unmountLocked, PodMounter.unmountTarget, hunmount,
              PodMounter.bindMountCount, hcount, PodMounter.podMountExitPath,
              PodMounter.cleanupContext, h1, h2, h3, h4]
          · intro h4
            simp only [PodMounter.cleanupContext] at h4
            simp [PodMounter.Unmount, PodMounter.findSourceMountPoint, hfind,
              PodMounter.unmountLocked, PodMounter.unmountTarget, hunmount,
              PodMounter.bindMountCount, hcount, PodMounter.podMountExitPath,
              PodMounter.cleanupContext, h1, h2, h3, h4]

/-- Witness of C5 (as amended): the last bind mount `t1` of the source of helper pod `abc`
is unmounted on a node where every call succeeds. -/
theorem C5_witness :
    exampleMounter.Unmount (exampleHost [] 0) exampleNodePkg [] "t1" {} =
      ⟨none,
        [.lock (filepathBase exampleSource), .unmount "t1",
          .createFile (exampleMounter.podMountExitPath exampleNodePkg exampleSource),
          .unmount exampleSource, .removeFile exampleSource,
          .cleanup (exampleMounter.cleanupContext exampleNodePkg {} exampleSource),
          .unlock (filepathBase exampleSource)],
        releaseMPPodLock (getMPPodLock [] (filepathBase exampleSource))
          (filepathBase exampleSource)⟩ :=
  ((((((C5_unmount_teardown_iff_count_zero exampleMounter (exampleHost [] 0) exampleNodePkg []
    "t1" {} exampleSource 0 rfl rfl rfl).2.2.2 rfl).2 rfl).2 rfl).2 rfl).2 rfl)

/-- Counterexample to C5 as stated: the source mount of `t1` resolves, the unmount of `t1`
succeeds and the recomputed count is zero, but the exit marker cannot be created.  `Unmount`
returns an error and the source is neither unmounted nor removed, nor are the credentials
cleaned up: the teardown is not performed although the count is zero. -/
theorem C5_counterexample_exit_marker_fails :
    exampleHostReadOnly.findSourceMountPoint "t1" = .ok exampleSource ∧
    exampleHostReadOnly.Unmount "t1" = none ∧
    exampleHostReadOnly.bindMountCount exampleSource "t1" = .ok 0 ∧
    exampleHostReadOnly.OpenFile "/var/lib/kubelet/pods/abc/comm/mount.exit" =
      some (.ext "read-only file system" false) ∧
    (exampleMounter.Unmount exampleHostReadOnly exampleNodePkg [] "t1" {}).log =
      [.lock "abc", .unmount "t1",
        .createFile "/var/lib/kubelet/pods/abc/comm/mount.exit", .unlock "abc"] ∧
    (exampleMounter.Unmount exampleHostReadOnly exampleNodePkg [] "t1" {}).err =
      some (.errorfW "Failed to send a exit message to Mountpoint Pod for %q: %w\n%s"
        ["/var/lib/kubelet/plugins/s3.csi.aws.com/mnt/abc",
          exampleMounter.helpMessageForGettingMountpointLogs "abc"]
        (.ext "read-only file system" false)) :=
  ⟨rfl, rfl, rfl, rfl, by decide, rfl⟩

/-! ## C6 to C8: `Mount` -/

/-- The method `verifyOrSetupMountTarget` creates or unmounts its target, and calls nothing else. -/
theorem verifyOrSetup_log (pm : PodMounter) (h : Host) (target : String) :
    ∀ a ∈ (pm.verifyOrSetupMountTarget h target).2, a = .mkdirAll target ∨ a = .unmount target := by
  unfold PodMounter.verifyOrSetupMountTarget
  intro a
  repeat' split
  all_goals simp
  all_goals
    intro ha
    simp [ha]

/-- The method `ensureCredentialsDirExists` makes the one `Mkdir` call. -/
theorem ensureCredentialsDir_log (pm : PodMounter) (h : Host) (pkg : NodePkg) (podPath : String) :
    (pm.ensureCredentialsDirExists h pkg podPath).2 = [.mkdir (pm.credentialsDir pkg podPath)] := by
  unfold PodMounter.ensureCredentialsDirExists
  simp only
  repeat' split
  all_goals rfl

/-- The method `Mount` once the helper pod is found: the part under the lock, between the calls made on
the target before it and the release of the lock. -/
theorem Mount_of_wait (pm : PodMounter) (h : Host) (pkg : NodePkg) (mpPodLocks : MPPodLocks)
    (ctx : Context) (bucketName target : String) (credentialCtx : ProvideContext) (args : Args)
    (volumeName : String) (pod : Pod) (podPath : String) (isTargetMountPoint : Bool)
    (hvol : pm.volumeNameFromTargetPath pkg target = .ok volumeName)
    (htarget : (pm.verifyOrSetupMountTarget h target).1 = none)
    (hmounted : pm.IsMountPoint h target = .ok isTargetMountPoint)
    (hwait : pm.waitForMountpointPod h pkg ctx volumeName credentialCtx
      = some (.ok (pod, podPath))) :
    pm.Mount h pkg mpPodLocks ctx bucketName target credentialCtx args =
      (pm.mountLocked h pkg bucketName target credentialCtx args isTargetMountPoint pod
        podPath).map (fun r =>
          ⟨r.1, (pm.verifyOrSetupMountTarget h target).2 ++ [.lock pod.UID] ++ r.2 ++
            [.unlock pod.UID], releaseMPPodLock (getMPPodLock mpPodLocks pod.UID) pod.UID⟩) := by
  rcases h0 : pm.verifyOrSetupMountTarget h target with ⟨e0, log0⟩
  rw [h0] at htarget
  simp only at htarget
  subst htarget
  simp only [PodMounter.Mount, hvol, h0, hmounted, hwait]
  cases pm.mountLocked h pkg bucketName target credentialCtx args isTargetMountPoint pod podPath
    <;> rfl

/-- The part of `Mount` under the lock once the credentials are provided. -/
theorem mountLocked_of_provide (pm : PodMounter) (h : Host) (pkg : NodePkg)
    (bucketName target : String) (credentialCtx : ProvideContext) (args : Args)
    (pod : Pod) (podPath : String) (isTargetMountPoint : Bool) (credEnv : Env)
    (authenticationSource : String)
    (hsource : (pm.verifyOrSetupMountTarget h (SourceMountDir ++ pod.UID)).1 = none)
    (hdir : (pm.ensureCredentialsDirExists h pkg podPath).1 = .ok (pm.credentialsDir pkg podPath))
    (hprovide : h.Provide (pm.provideContext pkg credentialCtx podPath)
      = .ok (credEnv, authenticationSource)) :
    pm.mountLocked h pkg bucketName target credentialCtx args isTargetMountPoint pod podPath =
      if isTargetMountPoint then
        some (none, (pm.verifyOrSetupMountTarget h (SourceMountDir ++ pod.UID)).2 ++
          [.mkdir (pm.credentialsDir pkg podPath)] ++
          [.provide (pm.provideContext pkg credentialCtx podPath)])
      else
        match pm.IsMountPoint h (SourceMountDir ++ pod.UID) with
        | .error err =>
          some (some (.errorfW "Could not check if source %q is already a mount point: %w"
            [SourceMountDir ++ pod.UID] err),
            (pm.verifyOrSetupMountTarget h (SourceMountDir ++ pod.UID)).2 ++
              [.mkdir (pm.credentialsDir pkg podPath)] ++
              [.provide (pm.provideContext pkg credentialCtx podPath)])
        | .ok isSourceMountPoint =>
          (if isSourceMountPoint then
            some (pm.bindSourceToTarget h (SourceMountDir ++ pod.UID) target)
          else pm.mountSource h pkg bucketName target args pod podPath
            (SourceMountDir ++ pod.UID) credEnv authenticationSource).map (fun r =>
            (r.1, (pm.verifyOrSetupMountTarget h (SourceMountDir ++ pod.UID)).2 ++
              [.mkdir (pm.credentialsDir pkg podPath)] ++
              [.provide (pm.provideContext pkg credentialCtx podPath)] ++ r.2)) := by
  have hl2 := ensureCredentialsDir_log pm h pkg podPath
  rcases h1 : pm.verifyOrSetupMountTarget h (SourceMountDir ++ pod.UID) with ⟨e1, log1⟩
  rcases h2 : pm.ensureCredentialsDirExists h pkg podPath with ⟨p, log2⟩
  rw [h1] at hsource
  rw [h2] at hdir hl2
  simp only at hsource hdir hl2
  subst hsource hdir hl2
  simp only [PodMounter.provideContext] at hprovide
  simp only [PodMounter.mountLocked, h1, h2, hprovide, PodMounter.provideContext]
  cases isTargetMountPoint
  · simp only [Bool.false_eq_true, if_false]
    cases pm.IsMountPoint h (SourceMountDir ++ pod.UID) with
    | error e => rfl
    | ok b =>
      cases b
      · simp only [Bool.not_false, if_true, Bool.false_eq_true, if_false]
        cases pm.mountSource h pkg bucketName target args pod podPath (SourceMountDir ++ pod.UID)
          credEnv authenticationSource <;> rfl
      · simp
  · simp

/-- The method `Mount` on a target that is not a mount point yet, once the credentials are provided and
the source has been checked: the bind mount alone, or the source mount, between the calls made
before and the release of the lock. -/
theorem Mount_of_provide (pm : PodMounter) (h : Host) (pkg : NodePkg) (mpPodLocks : MPPodLocks)
    (ctx : Context) (bucketName target : String) (credentialCtx : ProvideContext) (args : Args)
    (volumeName : String) (pod : Pod) (podPath : String) (credEnv : Env)
    (authenticationSource : String) (isSourceMountPoint : Bool)
    (hvol : pm.volumeNameFromTargetPath pkg target = .ok volumeName)
    (htarget : (pm.verifyOrSetupMountTarget h target).1 = none)
    (hmounted : pm.IsMountPoint h target = .ok false)
    (hwait : pm.waitForMountpointPod h pkg ctx volumeName credentialCtx
      = some (.ok (pod, podPath)))
    (hsource : (pm.verifyOrSetupMountTarget h (SourceMountDir ++ pod.UID)).1 = none)
    (hdir : (pm.ensureCredentialsDirExists h pkg podPath).1 = .ok (pm.credentialsDir pkg podPath))
    (hprovide : h.Provide (pm.provideContext pkg credentialCtx podPath)
      = .ok (credEnv, authenticationSource))
    (hsrc : pm.IsMountPoint h (SourceMountDir ++ pod.UID) = .ok isSourceMountPoint) :
    pm.Mount h pkg mpPodLocks ctx bucketName target credentialCtx args =
      (if isSourceMountPoint then
        some (pm.bindSourceToTarget h (SourceMountDir ++ pod.UID) target)
      else pm.mountSource h pkg bucketName target args pod podPath
        (SourceMountDir ++ pod.UID) credEnv authenticationSource).map (fun r =>
        ⟨r.1, pm.mountPreamble h pkg target credentialCtx pod podPath ++ r.2 ++
          [.unlock pod.UID], releaseMPPodLock (getMPPodLock mpPodLocks pod.UID) pod.UID⟩) := by
  rw [Mount_of_wait pm h pkg mpPodLocks ctx bucketName target credentialCtx args
    volumeName pod podPath false hvol htarget hmounted hwait,
    mountLocked_of_provide pm h pkg bucketName target credentialCtx args pod podPath false
    credEnv authenticationSource hsource hdir hprovide]
  simp only [Bool.false_eq_true, if_false, hsrc, Option.map_map, PodMounter.mountPreamble]
  congr 1
  funext r
  simp [List.append_assoc]

/-- C6: for a `Mount` call in which the target is already an active mount point (`Mount` finds
it so, the target path having been parsed and verified) and the wait for the helper pod, the
setup of the source, the creation of the credentials directory and the provision of
credentials succeed, `Mount` calls the credential provider exactly once and returns success,
and it calls neither the mount syscall, nor the send of mount options, nor the bind mount. -/
theorem C6_mount_on_mounted_target_only_refreshes_credentials (pm : PodMounter) (h : Host) (pkg : NodePkg) (mpPodLocks : MPPodLocks)
    (ctx : Context) (bucketName target : String) (credentialCtx : ProvideContext) (args : Args)
    (volumeName : String) (pod : Pod) (podPath : String) (credEnv : Env)
    (authenticationSource : String)
    (hvol : pm.volumeNameFromTargetPath pkg target = .ok volumeName)
    (htarget : (pm.verifyOrSetupMountTarget h target).1 = none)
    (hmounted : pm.IsMountPoint h target = .ok true)
    (hwait : pm.waitForMountpointPod h pkg ctx volumeName credentialCtx = some (.ok (pod, podPath)))
    (hsource : (pm.verifyOrSetupMountTarget h (SourceMountDir ++ pod.UID)).1 = none)
    (hdir : (pm.ensureCredentialsDirExists h pkg podPath).1 = .ok (pm.credentialsDir pkg podPath))
    (hprovide : h.Provide (pm.provideContext pkg credentialCtx podPath)
      = .ok (credEnv, authenticationSource)) :
    ∃ out, pm.Mount h pkg mpPodLocks ctx bucketName target credentialCtx args = some out ∧
      out.err = none ∧
      out.log.filter Action.isProvide = [.provide (pm.provideContext pkg credentialCtx podPath)] ∧
      (∀ a ∈ out.log, a.isMount = false ∧ a.isSend = false ∧ a.isBindMount = false) := by
  have l0 := verifyOrSetup_log pm h target
  have l1 := verifyOrSetup_log pm h (SourceMountDir ++ pod.UID)
  have hM := Mount_of_wait pm h pkg mpPodLocks ctx bucketName target credentialCtx args
    volumeName pod podPath true hvol htarget hmounted hwait
  rw [mountLocked_of_provide pm h pkg bucketName target credentialCtx args pod podPath true
    credEnv authenticationSource hsource hdir hprovide] at hM
  simp only [if_true, Option.map_some'] at hM
  refine ⟨_, hM, rfl, ?_, ?_⟩
  · have f0 : (pm.verifyOrSetupMountTarget h target).2.filter Action.isProvide = [] := by
      rw [List.filter_eq_nil_iff]
      intro a ha
      rcases l0 a ha with rfl | rfl <;> simp [Action.isProvide]
    have f1 : (pm.verifyOrSetupMountTarget h (SourceMountDir ++ pod.UID)).2.filter
        Action.isProvide = [] := by
      rw [List.filter_eq_nil_iff]
      intro a ha
      rcases l1 a ha with rfl | rfl <;> simp [Action.isProvide]
    simp [List.filter_append, f0, f1, Action.isProvide, List.filter]
  · intro a ha
    simp only [List.mem_append, List.mem_singleton] at ha
    rcases ha with (((ha | ha) | ((ha | ha) | ha)) | ha)
    · rcases l0 a ha with rfl | rfl <;> simp [Action.isMount, Action.isSend, Action.isBindMount]
    · subst ha; simp [Action.isMount, Action.isSend, Action.isBindMount]
    · rcases l1 a ha with rfl | rfl <;> simp [Action.isMount, Action.isSend, Action.isBindMount]
    · subst ha; simp [Action.isMount, Action.isSend, Action.isBindMount]
    · subst ha; simp [Action.isMount, Action.isSend, Action.isBindMount]
    · subst ha; simp [Action.isMount, Action.isSend, Action.isBindMount]

/-- Witness of C6: `Mount` on the target `t1`, which is a mount point already. -/
theorem C6_witness :
    ∃ out, exampleMounter.Mount (exampleHost ["t1"] 1) exampleNodePkg [] {} "bucket" "t1" {} []
        = some out ∧
      out.err = none ∧
      out.log.filter Action.isProvide =
        [.provide (exampleMounter.provideContext exampleNodePkg {}
          "/var/lib/kubelet/pods/abc")] ∧
      (∀ a ∈ out.log, a.isMount = false ∧ a.isSend = false ∧ a.isBindMount = false) :=
  C6_mount_on_mounted_target_only_refreshes_credentials exampleMounter (exampleHost ["t1"] 1)
    exampleNodePkg [] {} "bucket" "t1" {} [] "pv-123" exampleHelper "/var/lib/kubelet/pods/abc"
    [] "driver" rfl rfl rfl rfl rfl rfl rfl

/-- C7: for a `Mount` call in which the target is not a mount point yet but the source path of
the helper pod is already an active mount point (`Mount` finds it so, every step before that
check having succeeded), `Mount` calls no mount syscall, sends no mount options and does not
wait for a mount; after the calls made before the check it performs exactly one bind mount of
the source onto the target, through the bind mount syscall it was given or else that of the
platform, releases the lock, and returns the outcome of that bind mount: success when it
succeeds, its error (wrapped) when it fails. -/
theorem C7_mount_on_mounted_source_only_binds (pm : PodMounter) (h : Host) (pkg : NodePkg)
    (mpPodLocks : MPPodLocks)
    (ctx : Context) (bucketName target : String) (credentialCtx : ProvideContext) (args : Args)
    (volumeName : String) (pod : Pod) (credEnv : Env) (authenticationSource : String)
    (hvol : pkg.ParseTargetPath target = .ok volumeName)
    (htarget : (pm.verifyOrSetupMountTarget h target).1 = none)
    (hmounted : h.isMountPoint target = .ok false)
    (hwait : pm.podWatcher.Wait h.Getenv ctx volumeName credentialCtx = some (.ok pod))
    (hsource : (pm.verifyOrSetupMountTarget h (SourceMountDir ++ pod.UID)).1 = none)
    (hdir : (pm.ensureCredentialsDirExists h pkg (pm.podPath pkg pod.UID)).1 =
      .ok (pm.credentialsDir pkg (pm.podPath pkg pod.UID)))
    (hprovide : h.Provide (pm.provideContext pkg credentialCtx (pm.podPath pkg pod.UID))
      = .ok (credEnv, authenticationSource))
    (hsrc : h.isMountPoint (SourceMountDir ++ pod.UID) = .ok true) :
    ∃ out, pm.Mount h pkg mpPodLocks ctx bucketName target credentialCtx args = some out ∧
      out.log = pm.mountPreamble h pkg target credentialCtx pod (pm.podPath pkg pod.UID) ++
        [.bindMount (SourceMountDir ++ pod.UID) target, .unlock pod.UID] ∧
      out.log.filter Action.isBindMount = [.bindMount (SourceMountDir ++ pod.UID) target] ∧
      (∀ a ∈ out.log, a.isMount = false ∧ a.isSend = false ∧ a.isWaitForMount = false) ∧
      out.locks = releaseMPPodLock (getMPPodLock mpPodLocks pod.UID) pod.UID ∧
      (∀ f, pm.bindMountSyscall = some f →
        (out.err = none ↔ f (SourceMountDir ++ pod.UID) target = none) ∧
        (∀ err, f (SourceMountDir ++ pod.UID) target = some err →
          out.err = some (.errorfW "Failed to bind mount %s to target %s: %w"
            [SourceMountDir ++ pod.UID, target] err))) ∧
      (pm.bindMountSyscall = none →
        (out.err = none ↔ h.bindMountSyscallDefault (SourceMountDir ++ pod.UID) target = none) ∧
        (∀ err, h.bindMountSyscallDefault (SourceMountDir ++ pod.UID) target = some err →
          out.err = some (.errorfW "Failed to bind mount %s to target %s: %w"
            [SourceMountDir ++ pod.UID, target] err))) := by
  have l0 := verifyOrSetup_log pm h target
  have l1 := verifyOrSetup_log pm h (SourceMountDir ++ pod.UID)
  have hwait' : pm.waitForMountpointPod h pkg ctx volumeName credentialCtx
      = some (.ok (pod, pm.podPath pkg pod.UID)) := by
    simp [PodMounter.waitForMountpointPod, hwait]
  have hM := Mount_of_provide pm h pkg mpPodLocks ctx bucketName target credentialCtx args
    volumeName pod (pm.podPath pkg pod.UID) credEnv authenticationSource true hvol htarget
    hmounted hwait' hsource hdir hprovide hsrc
  simp only [if_true, Option.map_some'] at hM
  have hlog : (pm.bindSourceToTarget h (SourceMountDir ++ pod.UID) target).2 =
      [.bindMount (SourceMountDir ++ pod.UID) target] := by
    unfold PodMounter.bindSourceToTarget
    split <;> rfl
  have hpre : ∀ a ∈ pm.mountPreamble h pkg target credentialCtx pod (pm.podPath pkg pod.UID),
      a.isMount = false ∧ a.isSend = false ∧ a.isWaitForMount = false ∧
        a.isBindMount = false := by
    intro a ha
    simp only [PodMounter.mountPreamble, List.mem_append, List.mem_singleton] at ha
    rcases ha with ((ha | ha) | ((ha | ha) | ha))
    · rcases l0 a ha with rfl | rfl <;>
        simp [Action.isMount, Action.isSend, Action.isBindMount, Action.isWaitForMount]
    · subst ha; simp [Action.isMount, Action.isSend, Action.isBindMount, Action.isWaitForMount]
    · rcases l1 a ha with rfl | rfl <;>
        simp [Action.isMount, Action.isSend, Action.isBindMount, Action.isWaitForMount]
    · subst ha; simp [Action.isMount, Action.isSend, Action.isBindMount, Action.isWaitForMount]
    · subst ha; simp [Action.isMount, Action.isSend, Action.isBindMount, Action.isWaitForMount]
  refine ⟨_, hM, ?_, ?_, ?_, rfl, ?_, ?_⟩
  · simp [hlog]
  · have f : (pm.mountPreamble h pkg target credentialCtx pod (pm.podPath pkg pod.UID)).filter
        Action.isBindMount = [] := by
      rw [List.filter_eq_nil_iff]
      intro a ha
      simp [(hpre a ha).2.2.2]
    simp [List.filter_append, f, hlog, Action.isBindMount, List.filter]
  · intro a ha
    simp only [hlog, List.mem_append, List.mem_singleton] at ha
    rcases ha with ((ha | ha) | ha)
    · exact ⟨(hpre a ha).1, (hpre a ha).2.1, (hpre a ha).2.2.1⟩
    · subst ha; simp [Action.isMount, Action.isSend, Action.isWaitForMount]
    · subst ha; simp [Action.isMount, Action.isSend, Action.isWaitForMount]
  · intro f hf
    simp only [PodMounter.bindSourceToTarget, PodMounter.bindMountSyscallWithDefault, hf]
    cases f (SourceMountDir ++ pod.UID) target <;> simp
  · intro hf
    simp only [PodMounter.bindSourceToTarget, PodMounter.bindMountSyscallWithDefault, hf]
    cases h.bindMountSyscallDefault (SourceMountDir ++ pod.UID) target <;> simp

/-- Witness of C7: `Mount` on the target `t1` when the source of helper pod `abc` is mounted. -/
theorem C7_witness :
    ∃ out, exampleMounter.Mount (exampleHost [exampleSource] 1) exampleNodePkg [] {} "bucket"
        "t1" {} [] = some out ∧
      out.log = exampleMounter.mountPreamble (exampleHost [exampleSource] 1) exampleNodePkg "t1"
          {} exampleHelper (exampleMounter.podPath exampleNodePkg exampleHelper.UID) ++
        [.bindMount (SourceMountDir ++ exampleHelper.UID) "t1", .unlock exampleHelper.UID] ∧
      out.log.filter Action.isBindMount =
        [.bindMount (SourceMountDir ++ exampleHelper.UID) "t1"] ∧
      (∀ a ∈ out.log, a.isMount = false ∧ a.isSend = false ∧ a.isWaitForMount = false) ∧
      out.locks = releaseMPPodLock (getMPPodLock [] exampleHelper.UID) exampleHelper.UID ∧
      (∀ f, exampleMounter.bindMountSyscall = some f →
        (out.err = none ↔ f (SourceMountDir ++ exampleHelper.UID) "t1" = none) ∧
        (∀ err, f (SourceMountDir ++ exampleHelper.UID) "t1" = some err →
          out.err = some (.errorfW "Failed to bind mount %s to target %s: %w"
            [SourceMountDir ++ exampleHelper.UID, "t1"] err))) ∧
      (exampleMounter.bindMountSyscall = none →
        (out.err = none ↔ (exampleHost [exampleSource] 1).bindMountSyscallDefault
          (SourceMountDir ++ exampleHelper.UID) "t1" = none) ∧
        (∀ err, (exampleHost [exampleSource] 1).bindMountSyscallDefault
            (SourceMountDir ++ exampleHelper.UID) "t1" = some err →
          out.err = some (.errorfW "Failed to bind mount %s to target %s: %w"
            [SourceMountDir ++ exampleHelper.UID, "t1"] err))) :=
  C7_mount_on_mounted_source_only_binds exampleMounter (exampleHost [exampleSource] 1)
    exampleNodePkg [] {} "bucket" "t1" {} [] "pv-123" exampleHelper
    [] "driver" rfl rfl rfl rfl rfl rfl rfl rfl

/-- C8 (as amended): for a `Mount` call that reaches the source mount step, when the mount
syscall itself fails the error is returned with nothing unmounted (the next call is the
release of the lock); when the mount syscall succeeds and the send of mount options fails, the
descriptor is closed and then the source is unmounted before the error is returned; and
whenever a descriptor was obtained and the send succeeded, `Mount`, if the wait for the mount
returns, closes the descriptor before it returns, and unmounts the source as well when that
wait failed. -/
theorem C8_source_unmounted_after_failed_send_and_descriptor_closed (pm : PodMounter) (h : Host) (pkg : NodePkg) (mpPodLocks : MPPodLocks)
    (ctx : Context) (bucketName target : String) (credentialCtx : ProvideContext) (args : Args)
    (volumeName : String) (pod : Pod) (podPath : String) (credEnv : Env)
    (authenticationSource : String)
    (hvol : pm.volumeNameFromTargetPath pkg target = .ok volumeName)
    (htarget : (pm.verifyOrSetupMountTarget h target).1 = none)
    (hmounted : pm.IsMountPoint h target = .ok false)
    (hwait : pm.waitForMountpointPod h pkg ctx volumeName credentialCtx
      = some (.ok (pod, podPath)))
    (hsource : (pm.verifyOrSetupMountTarget h (SourceMountDir ++ pod.UID)).1 = none)
    (hdir : (pm.ensureCredentialsDirExists h pkg podPath).1 = .ok (pm.credentialsDir pkg podPath))
    (hprovide : h.Provide (pm.provideContext pkg credentialCtx podPath)
      = .ok (credEnv, authenticationSource))
    (hsrc : pm.IsMountPoint h (SourceMountDir ++ pod.UID) = .ok false) :
    (∀ err, pm.mountSyscallWithDefault h (SourceMountDir ++ pod.UID)
        (pm.mountArgs pkg args authenticationSource) = .error err →
      pm.Mount h pkg mpPodLocks ctx bucketName target credentialCtx args =
        some ⟨some (.errorfW "Failed to mount source %s: %w" [SourceMountDir ++ pod.UID] err),
          pm.mountPreamble h pkg target credentialCtx pod podPath ++
            [.mount (SourceMountDir ++ pod.UID) (pm.mountArgs pkg args authenticationSource),
             .unlock pod.UID],
          releaseMPPodLock (getMPPodLock mpPodLocks pod.UID) pod.UID⟩) ∧
    (∀ fd err, pm.mountSyscallWithDefault h (SourceMountDir ++ pod.UID)
        (pm.mountArgs pkg args authenticationSource) = .ok fd →
      h.Send (pkg.PathOnHost podPath pkg.KnownPathMountSock)
        (pm.mountOptions pkg bucketName args credEnv authenticationSource fd) = some err →
      pm.Mount h pkg mpPodLocks ctx bucketName target credentialCtx args =
        some ⟨some (.errorfW
            "Failed to send mount options to Mountpoint Pod %s for %s: %w\n%s"
            [pod.Name, SourceMountDir ++ pod.UID,
              pm.helpMessageForGettingMountpointLogs pod.UID] err),
          pm.mountPreamble h pkg target credentialCtx pod podPath ++
            [.mount (SourceMountDir ++ pod.UID) (pm.mountArgs pkg args authenticationSource),
             .removeFile (pkg.PathOnHost podPath pkg.KnownPathMountError),
             .send (pkg.PathOnHost podPath pkg.KnownPathMountSock)
               (pm.mountOptions pkg bucketName args credEnv authenticationSource fd),
             .closeFD fd, .unmount (SourceMountDir ++ pod.UID), .unlock pod.UID],
          releaseMPPodLock (getMPPodLock mpPodLocks pod.UID) pod.UID⟩) ∧
    (∀ fd res, pm.mountSyscallWithDefault h (SourceMountDir ++ pod.UID)
        (pm.mountArgs pkg args authenticationSource) = .ok fd →
      h.Send (pkg.PathOnHost podPath pkg.KnownPathMountSock)
        (pm.mountOptions pkg bucketName args credEnv authenticationSource fd) = none →
      pm.waitForMount h (SourceMountDir ++ pod.UID) pod.Name
        (pkg.PathOnHost podPath pkg.KnownPathMountError) = some res →
      ∃ out before, pm.Mount h pkg mpPodLocks ctx bucketName target credentialCtx args
          = some out ∧
        out.log = before ++ [.closeFD fd] ++
          (if res.isSome then [.unmount (SourceMountDir ++ pod.UID)] else []) ++
          [.unlock pod.UID] ∧
        (res.isSome → out.err.isSome)) := by
  have hM := Mount_of_provide pm h pkg mpPodLocks ctx bucketName target credentialCtx args
    volumeName pod podPath credEnv authenticationSource false hvol htarget hmounted hwait
    hsource hdir hprovide hsrc
  simp only [Bool.false_eq_true, if_false] at hM
  refine ⟨?_, ?_, ?_⟩
  · intro err he
    rw [hM]
    simp [PodMounter.mountSource, he]
  · intro fd err hfd hs
    rw [hM]
    simp [PodMounter.mountSource, hfd, hs, PodMounter.deferred]
  · intro fd res hfd hs hw
    rw [hM]
    cases res with
    | some e =>
      have hms : pm.mountSource h pkg bucketName target args pod podPath
          (SourceMountDir ++ pod.UID) credEnv authenticationSource =
          some (some (.errorfW
            "Failed to wait for Mountpoint Pod %s to be ready for %s: %w\n%s"
            [pod.Name, SourceMountDir ++ pod.UID,
              pm.helpMessageForGettingMountpointLogs pod.UID] e),
            [.mount (SourceMountDir ++ pod.UID) (pm.mountArgs pkg args authenticationSource),
             .removeFile (pkg.PathOnHost podPath pkg.KnownPathMountError),
             .send (pkg.PathOnHost podPath pkg.KnownPathMountSock)
               (pm.mountOptions pkg bucketName args credEnv authenticationSource fd),
             .waitForMount (SourceMountDir ++ pod.UID) pod.Name
               (pkg.PathOnHost podPath pkg.KnownPathMountError),
             .closeFD fd, .unmount (SourceMountDir ++ pod.UID)]) := by
        simp [PodMounter.mountSource, hfd, hs, hw, PodMounter.deferred]
      rw [hms]
      refine ⟨_, pm.mountPreamble h pkg target credentialCtx pod podPath ++
        [.mount (SourceMountDir ++ pod.UID) (pm.mountArgs pkg args authenticationSource),
         .removeFile (pkg.PathOnHost podPath pkg.KnownPathMountError),
         .send (pkg.PathOnHost podPath pkg.KnownPathMountSock)
           (pm.mountOptions pkg bucketName args credEnv authenticationSource fd),
         .waitForMount (SourceMountDir ++ pod.UID) pod.Name
           (pkg.PathOnHost podPath pkg.KnownPathMountError)], rfl, ?_, ?_⟩
      · simp
      · simp
    | none =>
      have hms : pm.mountSource h pkg bucketName target args pod podPath
          (SourceMountDir ++ pod.UID) credEnv authenticationSource =
          some ((pm.bindSourceToTarget h (SourceMountDir ++ pod.UID) target).1,
            [.mount (SourceMountDir ++ pod.UID) (pm.mountArgs pkg args authenticationSource),
             .removeFile (pkg.PathOnHost podPath pkg.KnownPathMountError),
             .send (pkg.PathOnHost podPath pkg.KnownPathMountSock)
               (pm.mountOptions pkg bucketName args credEnv authenticationSource fd),
             .waitForMount (SourceMountDir ++ pod.UID) pod.Name
               (pkg.PathOnHost podPath pkg.KnownPathMountError)] ++
            (pm.bindSourceToTarget h (SourceMountDir ++ pod.UID) target).2 ++
            [.closeFD fd]) := by
        simp [PodMounter.mountSource, hfd, hs, hw, PodMounter.deferred]
      rw [hms]
      refine ⟨_, pm.mountPreamble h pkg target credentialCtx pod podPath ++
        [.mount (SourceMountDir ++ pod.UID) (pm.mountArgs pkg args authenticationSource),
         .removeFile (pkg.PathOnHost podPath pkg.KnownPathMountError),
         .send (pkg.PathOnHost podPath pkg.KnownPathMountSock)
           (pm.mountOptions pkg bucketName args credEnv authenticationSource fd),
         .waitForMount (SourceMountDir ++ pod.UID) pod.Name
           (pkg.PathOnHost podPath pkg.KnownPathMountError)] ++
        (pm.bindSourceToTarget h (SourceMountDir ++ pod.UID) target).2, rfl, ?_, ?_⟩
      · simp
      · simp

/-- Witness of C8 (as amended): `Mount` on the target `t1` when neither `t1` nor the source of
helper pod `abc` is mounted, on a node where every call succeeds. -/
theorem C8_witness :
    ∃ out before, exampleMounter.Mount (exampleHost [] 0) exampleNodePkg [] {} "bucket" "t1" {}
        [] = some out ∧
      out.log = before ++ [.closeFD 7] ++
        (if (none : Option Err).isSome then [.unmount (SourceMountDir ++ exampleHelper.UID)]
          else []) ++ [.unlock exampleHelper.UID] ∧
      ((none : Option Err).isSome → out.err.isSome) :=
  (C8_source_unmounted_after_failed_send_and_descriptor_closed exampleMounter
    (exampleHost [] 0) exampleNodePkg [] {} "bucket" "t1" {} [] "pv-123" exampleHelper
    "/var/lib/kubelet/pods/abc" [] "driver" rfl rfl rfl rfl rfl rfl rfl rfl).2.2 7 none
    rfl rfl rfl

/-- Counterexample to C8 as stated: `Mount` reaches the source mount step and the mount
syscall fails.  The error is returned and no unmount call is made on the source, or on
anything else. -/
theorem C8_counterexample_mount_syscall_fails :
    exampleMounter.Mount exampleHostNoFuse exampleNodePkg [] {} "bucket" "t1" {} [] =
      some ⟨some (.errorfW "Failed to mount source %s: %w"
          ["/var/lib/kubelet/plugins/s3.csi.aws.com/mnt/abc"] (.ext "mount failed" false)),
        [.lock "abc", .mkdir "/var/lib/kubelet/pods/abc/comm/credentials",
          .provide { WritePath := "/var/lib/kubelet/pods/abc/comm/credentials",
                     EnvPath := "/comm/credentials" },
          .mount "/var/lib/kubelet/plugins/s3.csi.aws.com/mnt/abc"
            ["--user-agent-prefix=driver/v1.30"],
          .unlock "abc"],
        []⟩ := by
  decide

/-! ## C9 and C10: `Watcher.Wait` -/

/-- Nothing is sent on `podChan` when no notification carries a matching pod that is running. -/
theorem podChan_none (w : Watcher) (getenv : Getenv) (volumeName : String)
    (credentialCtx : ProvideContext)
    (hnone : ∀ ev ∈ w.Events, ¬ (isAssignedMpPod getenv ev.pod volumeName credentialCtx = true ∧
      ev.pod.Status.Phase = PodRunning)) :
    w.podChan getenv volumeName credentialCtx = none := by
  simp only [Watcher.podChan, Option.map_eq_none', List.find?_eq_none]
  intro ev hev
  have := hnone ev hev
  simpa [Watcher.isPodReady] using this

/-- C9: for a volume name and a credential context, when `Wait` reaches its `select` statement
and the context is done with no running matching pod delivered by a notification (the
deadline fires first), `Wait` returns `ErrPodNotFound` if no listed pod was on the local node
and no notification carried a matching pod, and `ErrPodNotReady` if a listed pod was on the
local node or a notification carried a matching pod. -/
theorem C9_wait_deadline_not_found_or_not_ready (w : Watcher) (getenv : Getenv) (ctx : Context) (volumeName : String)
    (credentialCtx : ProvideContext) (pods : List Pod) (podFound : Bool)
    (hlist : w.List (Watcher.labelSelector volumeName credentialCtx) = .ok pods)
    (hselect : w.beforeSelect getenv volumeName credentialCtx = .inr podFound)
    (hdone : ctx.Done = true)
    (hnone : ∀ ev ∈ w.Events, ¬ (isAssignedMpPod getenv ev.pod volumeName credentialCtx = true ∧
      ev.pod.Status.Phase = PodRunning)) :
    ((pods.filter (fun pod => pod.Spec.NodeName == getenv "CSI_NODE_NAME") = [] ∧
        ∀ ev ∈ w.Events, isAssignedMpPod getenv ev.pod volumeName credentialCtx = false) →
      w.Wait getenv ctx volumeName credentialCtx = some (.error ErrPodNotFound)) ∧
    ((pods.filter (fun pod => pod.Spec.NodeName == getenv "CSI_NODE_NAME") ≠ [] ∨
        ∃ ev ∈ w.Events, isAssignedMpPod getenv ev.pod volumeName credentialCtx = true) →
      w.Wait getenv ctx volumeName credentialCtx = some (.error ErrPodNotReady)) := by
  have hchan := podChan_none w getenv volumeName credentialCtx hnone
  have hW : w.Wait getenv ctx volumeName credentialCtx =
      some (.error (if (podFound || w.eventsFound getenv volumeName credentialCtx) = true
        then ErrPodNotReady else ErrPodNotFound)) := by
    simp only [Watcher.Wait, hselect, Watcher.select, hchan, hdone, if_true]
    split <;> rfl
  have hfound : podFound = true ↔
      pods.filter (fun pod => pod.Spec.NodeName == getenv "CSI_NODE_NAME") ≠ [] := by
    unfold Watcher.beforeSelect at hselect
    cases hreg : w.AddEventHandler with
    | some e => simp [hreg] at hselect
    | none =>
      simp only [hreg, hlist] at hselect
      split at hselect
      · rename_i pod hp
        split at hselect
        · simp at hselect
        · simp only [Sum.inr.injEq] at hselect
          simp [hp, ← hselect]
      · simp at hselect
      · rename_i hp
        simp only [Sum.inr.injEq] at hselect
        simp [hp, ← hselect]
  constructor
  · rintro ⟨hl, he⟩
    rw [hW]
    have h1 : podFound = false := by
      cases podFound
      · rfl
      · exact absurd hl (hfound.mp rfl)
    have h2 : w.eventsFound getenv volumeName credentialCtx = false := by
      simp only [Watcher.eventsFound, List.any_eq_false]
      intro ev hev
      simp [he ev hev]
    simp [h1, h2]
  · intro hor
    rw [hW]
    have : (podFound || w.eventsFound getenv volumeName credentialCtx) = true := by
      rcases hor with hl | ⟨ev, hev, ha⟩
      · simp [hfound.mpr hl]
      · have : w.eventsFound getenv volumeName credentialCtx = true := by
          simp only [Watcher.eventsFound, List.any_eq_true]
          exact ⟨ev, hev, ha⟩
        simp [this]
    simp [this]

/-- Witness of C9: the helper pod is announced by a notification but is still pending when the
deadline fires. -/
theorem C9_witness :
    (([] : List Pod).filter (fun pod => pod.Spec.NodeName == (fun _ => "node-a")
          "CSI_NODE_NAME") = [] ∧
        (∀ ev ∈ (exampleWatcher [] [.add examplePendingHelper]).Events,
          isAssignedMpPod (fun _ => "node-a") ev.pod "pv-123" {} = false) →
      (exampleWatcher [] [.add examplePendingHelper]).Wait (fun _ => "node-a") {} "pv-123" {}
        = some (.error ErrPodNotFound)) ∧
    (([] : List Pod).filter (fun pod => pod.Spec.NodeName == (fun _ => "node-a")
          "CSI_NODE_NAME") ≠ [] ∨
        (∃ ev ∈ (exampleWatcher [] [.add examplePendingHelper]).Events,
          isAssignedMpPod (fun _ => "node-a") ev.pod "pv-123" {} = true) →
      (exampleWatcher [] [.add examplePendingHelper]).Wait (fun _ => "node-a") {} "pv-123" {}
        = some (.error ErrPodNotReady)) :=
  C9_wait_deadline_not_found_or_not_ready (exampleWatcher [] [.add examplePendingHelper])
    (fun _ => "node-a") {} "pv-123" {} [] false rfl rfl rfl (by decide)

/-- C10: for an initial list result of `Wait` (the handler being registered and the list call
having succeeded): if exactly one listed pod is on the local node and its phase is Running,
`Wait` returns that pod with no error whatever the notifications and the context are; if more
than one listed pod is on the local node, `Wait` returns one and the same non-nil error
whatever their phases, the notifications and the context are; and two list results with the
same pods on the local node give the same outcome, so pods listed on other nodes never affect
it. -/
theorem C10_wait_initial_list (w : Watcher) (getenv : Getenv) (volumeName : String)
    (credentialCtx : ProvideContext) (pods : List Pod)
    (hreg : w.AddEventHandler = none)
    (hlist : w.List (Watcher.labelSelector volumeName credentialCtx) = .ok pods) :
    (∀ pod, pods.filter (fun pod => pod.Spec.NodeName == getenv "CSI_NODE_NAME") = [pod] →
      pod.Status.Phase = PodRunning →
      ∀ (ctx : Context) (events : List PodEvent),
        ({ w with Events := events } : Watcher).Wait getenv ctx volumeName credentialCtx
          = some (.ok pod)) ∧
    ((pods.filter (fun pod => pod.Spec.NodeName == getenv "CSI_NODE_NAME")).length > 1 →
      ∃ err, ∀ (ctx : Context) (events : List PodEvent),
        ({ w with Events := events } : Watcher).Wait getenv ctx volumeName credentialCtx
          = some (.error err)) ∧
    (∀ (w' : Watcher) (pods' : List Pod), w'.AddEventHandler = none → w'.Events = w.Events →
      w'.List (Watcher.labelSelector volumeName credentialCtx) = .ok pods' →
      pods'.filter (fun pod => pod.Spec.NodeName == getenv "CSI_NODE_NAME") =
        pods.filter (fun pod => pod.Spec.NodeName == getenv "CSI_NODE_NAME") →
      ∀ ctx : Context, w'.Wait getenv ctx volumeName credentialCtx
        = w.Wait getenv ctx volumeName credentialCtx) := by
  refine ⟨?_, ?_, ?_⟩
  · intro pod hp hrun ctx events
    simp [Watcher.Wait, Watcher.beforeSelect, hreg, hlist, hp, Watcher.isPodReady, hrun]
  · intro hlen
    refine ⟨.errorf "found %d MP Pods instead of 1"
      [toString (pods.filter (fun pod => pod.Spec.NodeName == getenv "CSI_NODE_NAME")).length],
      ?_⟩
    intro ctx events
    rcases hf : pods.filter (fun pod => pod.Spec.NodeName == getenv "CSI_NODE_NAME")
      with _ | ⟨a, _ | ⟨b, t⟩⟩
    · rw [hf] at hlen; simp at hlen
    · rw [hf] at hlen; simp at hlen
    · simp [Watcher.Wait, Watcher.beforeSelect, hreg, hlist, hf]
  · intro w' pods' hreg' hev hlist' hsame ctx
    have hsel : ∀ b, w'.select getenv ctx volumeName credentialCtx b =
        w.select getenv ctx volumeName credentialCtx b := by
      intro b
      simp [Watcher.select, Watcher.podChan, Watcher.eventsFound, hev, Watcher.isPodReady]
    have hbefore : w'.beforeSelect getenv volumeName credentialCtx =
        w.beforeSelect getenv volumeName credentialCtx := by
      simp [Watcher.beforeSelect, hreg, hlist, hreg', hlist', hsame, Watcher.isPodReady]
    simp only [Watcher.Wait, hbefore]
    cases w.beforeSelect getenv volumeName credentialCtx with
    | inl res => rfl
    | inr b => exact hsel b

/-- Witness of C10: the list returns the running helper pod of `node-a` and a helper pod of
another node. -/
theorem C10_witness :
    (∀ pod, [exampleRemoteHelper, exampleHelper].filter
        (fun pod => pod.Spec.NodeName == (fun _ => "node-a") "CSI_NODE_NAME") = [pod] →
      pod.Status.Phase = PodRunning →
      ∀ (ctx : Context) (events : List PodEvent),
        ({ exampleWatcher [exampleRemoteHelper, exampleHelper] [] with
            Events := events } : Watcher).Wait (fun _ => "node-a") ctx "pv-123" {}
          = some (.ok pod)) ∧
    (([exampleRemoteHelper, exampleHelper].filter
        (fun pod => pod.Spec.NodeName == (fun _ => "node-a") "CSI_NODE_NAME")).length > 1 →
      ∃ err, ∀ (ctx : Context) (events : List PodEvent),
        ({ exampleWatcher [exampleRemoteHelper, exampleHelper] [] with
            Events := events } : Watcher).Wait (fun _ => "node-a") ctx "pv-123" {}
          = some (.error err)) ∧
    (∀ (w' : Watcher) (pods' : List Pod), w'.AddEventHandler = none →
      w'.Events = (exampleWatcher [exampleRemoteHelper, exampleHelper] []).Events →
      w'.List (Watcher.labelSelector "pv-123" {}) = .ok pods' →
      pods'.filter (fun pod => pod.Spec.NodeName == (fun _ => "node-a") "CSI_NODE_NAME") =
        [exampleRemoteHelper, exampleHelper].filter
          (fun pod => pod.Spec.NodeName == (fun _ => "node-a") "CSI_NODE_NAME") →
      ∀ ctx : Context, w'.Wait (fun _ => "node-a") ctx "pv-123" {}
        = (exampleWatcher [exampleRemoteHelper, exampleHelper] []).Wait (fun _ => "node-a") ctx
            "pv-123" {}) :=
  C10_wait_initial_list (exampleWatcher [exampleRemoteHelper, exampleHelper] [])
    (fun _ => "node-a") "pv-123" {} [exampleRemoteHelper, exampleHelper] rfl rfl

/-! ## C11: the volumes of a workload pod -/

/-- The loop body of `reconcileWorkloadPod` adds the verdict of the volume to its
accumulators. -/
theorem reconcileVolume_eq_verdict (r : Reconciler) (pod : Pod) (requeue : Bool)
    (errs : List Err) (s : RState) (vol : Volume) :
    r.reconcileVolume pod requeue errs s vol =
      (r.volumeVerdict pod s vol).map (fun v => (requeue || v.1.1, errs ++ v.1.2, v.2)) := by
  unfold Reconciler.reconcileVolume Reconciler.volumeVerdict
  cases vol.PersistentVolumeClaim with
  | none => simp
  | some podPVC =>
    simp only
    rcases r.getBoundPVForPodClaim s pod podPVC with ⟨res, s1⟩
    cases res with
    | error e =>
      simp only
      split <;> simp
    | ok pp =>
      obtain ⟨pvc, pv⟩ := pp
      simp only
      cases extractCSISpecFromPV pv with
      | none => simp
      | some csi =>
        simp only
        cases r.spawnOrDeleteMountpointPodIfNeeded s1 pod pvc pv csi with
        | none => rfl
        | some x =>
          obtain ⟨⟨q, e⟩, s2⟩ := x
          cases e <;> simp

/-- The loop of `reconcileWorkloadPod` adds the verdicts of the volumes, in order, to its
accumulators. -/
theorem reconcileVolumes_eq_verdicts (r : Reconciler) (pod : Pod) (vols : List Volume)
    (requeue : Bool) (errs : List Err) (s : RState) :
    r.reconcileVolumes pod vols requeue errs s =
      (r.volumeVerdicts pod vols s).map (fun vs =>
        (requeue || vs.1.any (fun v => v.1), errs ++ (vs.1.map (fun v => v.2)).flatten, vs.2)) := by
  induction vols generalizing requeue errs s with
  | nil => simp [Reconciler.reconcileVolumes, Reconciler.volumeVerdicts]
  | cons vol vols ih =>
    simp only [Reconciler.reconcileVolumes, Reconciler.volumeVerdicts,
      reconcileVolume_eq_verdict]
    cases r.volumeVerdict pod s vol with
    | none => rfl
    | some x =>
      obtain ⟨⟨q, e⟩, s1⟩ := x
      simp only [Option.map_some', ih]
      cases r.volumeVerdicts pod vols s1 with
      | none => rfl
      | some y =>
        obtain ⟨vs, s2⟩ := y
        simp [Bool.or_assoc, List.append_assoc]

theorem volumeVerdicts_length (r : Reconciler) (pod : Pod) (vols : List Volume) (s : RState)
    (vs : List (Bool × List Err)) (s' : RState)
    (h : r.volumeVerdicts pod vols s = some (vs, s')) : vs.length = vols.length := by
  induction vols generalizing s vs s' with
  | nil =>
    simp [Reconciler.volumeVerdicts] at h
    simp [h.1.symm]
  | cons vol vols ih =>
    simp only [Reconciler.volumeVerdicts] at h
    cases h1 : r.volumeVerdict pod s vol with
    | none => simp [h1] at h
    | some x =>
      obtain ⟨v, s1⟩ := x
      simp only [h1] at h
      cases h2 : r.volumeVerdicts pod vols s1 with
      | none => simp [h2] at h
      | some y =>
        obtain ⟨ws, s2⟩ := y
        simp only [h2, Option.some.injEq, Prod.mk.injEq] at h
        rw [← h.1]
        simp [ih s1 ws s2 h2]

theorem selector_isSome (r : Reconciler) (pod : Pod) (pv : PersistentVolume)
    (sc : PodSecurityContext) (hsc : pod.Spec.SecurityContext = some sc) :
    ∃ authSource labelFilters, r.selector pod pv = some (authSource, labelFilters) := by
  simp [Reconciler.selector, hsc]

theorem spawnOrDelete_isSome (r : Reconciler) (s : RState) (pod : Pod)
    (pvc : PersistentVolumeClaim) (pv : PersistentVolume) (csiSpec : CSIPersistentVolumeSource)
    (sc : PodSecurityContext) (hsc : pod.Spec.SecurityContext = some sc) :
    (r.spawnOrDeleteMountpointPodIfNeeded s pod pvc pv csiSpec).isSome = true := by
  obtain ⟨authSource, labelFilters, hsel⟩ := selector_isSome r pod pv sc hsc
  obtain ⟨mpPod, hmk⟩ := selector_Create r pod pv authSource labelFilters hsel
  simp only [Reconciler.spawnOrDeleteMountpointPodIfNeeded, hsel,
    Reconciler.spawnMountpointPod, hmk]
  cases r.client.Create mpPod <;>
  · simp only
    repeat' split
    all_goals rfl

theorem volumeVerdicts_isSome (r : Reconciler) (pod : Pod) (vols : List Volume) (s : RState)
    (sc : PodSecurityContext) (hsc : pod.Spec.SecurityContext = some sc) :
    (r.volumeVerdicts pod vols s).isSome = true := by
  induction vols generalizing s with
  | nil => rfl
  | cons vol vols ih =>
    have hv : (r.volumeVerdict pod s vol).isSome = true := by
      unfold Reconciler.volumeVerdict
      cases vol.PersistentVolumeClaim with
      | none => rfl
      | some podPVC =>
        simp only
        rcases r.getBoundPVForPodClaim s pod podPVC with ⟨res, s1⟩
        cases res with
        | error e => simp only; split <;> rfl
        | ok pp =>
          obtain ⟨pvc, pv⟩ := pp
          simp only
          cases extractCSISpecFromPV pv with
          | none => rfl
          | some csi =>
            simp only
            have := spawnOrDelete_isSome r s1 pod pvc pv csi sc hsc
            cases hx : r.spawnOrDeleteMountpointPodIfNeeded s1 pod pvc pv csi with
            | none => simp [hx] at this
            | some x => rfl
    simp only [Reconciler.volumeVerdicts]
    cases h1 : r.volumeVerdict pod s vol with
    | none => simp [h1] at hv
    | some x =>
      obtain ⟨v, s1⟩ := x
      simp only
      have := ih s1
      cases h2 : r.volumeVerdicts pod vols s1 with
      | none => simp [h2] at this
      | some y => rfl

/-- C11: for a scheduled workload pod with a non-empty volume list, `reconcileWorkloadPod`
gives every volume its verdict, in order, each on the state left by the volumes before it and
whatever the verdicts before it were; it returns `Requeue` equal to the logical OR of the retry
flags of the verdicts (claim not bound yet, or retry asked by the spawn decision) and the join
of the non-retryable errors of the verdicts, in order, which is nil exactly when no volume has
such an error; and it does return when the security context of the pod is set. -/
theorem C11_reconcileWorkloadPod_aggregates_volumes (r : Reconciler) (s : RState) (pod : Pod)
    (hsched : pod.Spec.NodeName ≠ "") (hvols : pod.Spec.Volumes ≠ []) :
    r.reconcileWorkloadPod s pod =
      (r.volumeVerdicts pod pod.Spec.Volumes s).map (fun vs =>
        (({ Requeue := vs.1.any (fun v => v.1) },
          errorsJoin (vs.1.map (fun v => v.2)).flatten), vs.2)) ∧
    (∀ vs s', r.volumeVerdicts pod pod.Spec.Volumes s = some (vs, s') →
      vs.length = pod.Spec.Volumes.length ∧
      (errorsJoin (vs.map (fun v => v.2)).flatten = none ↔ ∀ v ∈ vs, v.2 = []) ∧
      (∀ e, errorsJoin (vs.map (fun v => v.2)).flatten = some e →
        e = .joined (vs.map (fun v => v.2)).flatten)) ∧
    (∀ sc, pod.Spec.SecurityContext = some sc → (r.reconcileWorkloadPod s pod).isSome = true) := by
  have hlen : ¬ (pod.Spec.Volumes.length = 0) := by
    simpa [List.length_eq_zero] using hvols
  have hmain : r.reconcileWorkloadPod s pod =
      (r.volumeVerdicts pod pod.Spec.Volumes s).map (fun vs =>
        (({ Requeue := vs.1.any (fun v => v.1) },
          errorsJoin (vs.1.map (fun v => v.2)).flatten), vs.2)) := by
    simp only [Reconciler.reconcileWorkloadPod, hsched, hlen, beq_iff_eq, if_false,
      reconcileVolumes_eq_verdicts]
    cases r.volumeVerdicts pod pod.Spec.Volumes s with
    | none => rfl
    | some y => simp
  refine ⟨hmain, ?_, ?_⟩
  · intro vs s' h
    refine ⟨volumeVerdicts_length r pod _ s vs s' h, ?_, ?_⟩
    · simp only [errorsJoin, List.isEmpty_iff, ite_eq_left_iff, reduceCtorEq, imp_false,
        not_not, List.flatten_eq_nil_iff, List.mem_map]
      constructor
      · intro hall v hv
        exact hall v.2 ⟨v, hv, rfl⟩
      · rintro hall l ⟨v, hv, rfl⟩
        exact hall v hv
    · intro e he
      unfold errorsJoin at he
      split at he
      · simp at he
      · simpa using he.symm
  · intro sc hsc
    rw [hmain]
    have := volumeVerdicts_isSome r pod pod.Spec.Volumes s sc hsc
    simpa using this

/-- Witness of C11: the example workload, whose first volume is not a claim and whose second
volume gets a helper pod. -/
theorem C11_witness :
    (exampleReconciler [] none).reconcileWorkloadPod {} exampleWorkload =
      ((exampleReconciler [] none).volumeVerdicts exampleWorkload exampleWorkload.Spec.Volumes
        {}).map (fun vs =>
        (({ Requeue := vs.1.any (fun v => v.1) },
          errorsJoin (vs.1.map (fun v => v.2)).flatten), vs.2)) ∧
    (∀ vs s', (exampleReconciler [] none).volumeVerdicts exampleWorkload
        exampleWorkload.Spec.Volumes {} = some (vs, s') →
      vs.length = exampleWorkload.Spec.Volumes.length ∧
      (errorsJoin (vs.map (fun v => v.2)).flatten = none ↔ ∀ v ∈ vs, v.2 = []) ∧
      (∀ e, errorsJoin (vs.map (fun v => v.2)).flatten = some e →
        e = .joined (vs.map (fun v => v.2)).flatten)) ∧
    (∀ sc, exampleWorkload.Spec.SecurityContext = some sc →
      ((exampleReconciler [] none).reconcileWorkloadPod {} exampleWorkload).isSome = true) :=
  C11_reconcileWorkloadPod_aggregates_volumes (exampleReconciler [] none) {} exampleWorkload
    (by decide) (by decide)

/-! ## C12: claims that are not bound yet -/

/-- C12 (as amended): for a claim that is fetched successfully, when its phase is not Bound or
its volume name is empty, `getBoundPVForPodClaim` reports `errPVCIsNotBoundToAPV`, so that the
reconciliation requests a retry and records no error for that volume; when the claim is bound
and the referenced volume is fetched but its `ClaimRef` is absent or does not point back to the
claim, `getBoundPVForPodClaim` returns another error, which is not `errPVCIsNotBoundToAPV`, so
that the reconciliation records that error for the volume and requests no retry for it. -/
theorem C12_unbound_claim_is_retried_and_foreign_claimRef_is_an_error (r : Reconciler)
    (s : RState) (pod : Pod) (vol : Volume) (podPVC : PersistentVolumeClaimVolumeSource)
    (pvc : PersistentVolumeClaim) (requeue : Bool) (errs : List Err)
    (hvol : vol.PersistentVolumeClaim = some podPVC)
    (hpvc : r.client.GetPVC pod.Namespace podPVC.ClaimName = .ok pvc) :
    (pvc.Phase ≠ ClaimBound ∨ pvc.VolumeName = "" →
      (r.getBoundPVForPodClaim s pod podPVC).1 = .error errPVCIsNotBoundToAPV ∧
      r.reconcileVolume pod requeue errs s vol =
        some (true, errs, { s with calls := s.calls ++
          [.getPVC pod.Namespace podPVC.ClaimName] })) ∧
    (∀ pv, pvc.Phase = ClaimBound → pvc.VolumeName ≠ "" →
      r.client.GetPV pvc.VolumeName = .ok pv →
      (pv.ClaimRef = none ∨ ∃ ref, pv.ClaimRef = some ref ∧ ref.Name ≠ pvc.Name) →
      (r.getBoundPVForPodClaim s pod podPVC).1 =
        .error (.new "The PV has a different `ClaimRef` than the PVC") ∧
      errorsIs (.new "The PV has a different `ClaimRef` than the PVC") errPVCIsNotBoundToAPV
        = false ∧
      r.reconcileVolume pod requeue errs s vol =
        some (requeue, errs ++ [.new "The PV has a different `ClaimRef` than the PVC"],
          { s with calls := s.calls ++
            [.getPVC pod.Namespace podPVC.ClaimName, .getPV pvc.VolumeName] })) := by
  have hne : errorsIs (.new "The PV has a different `ClaimRef` than the PVC")
      errPVCIsNotBoundToAPV = false := by decide
  have hself : errorsIs errPVCIsNotBoundToAPV errPVCIsNotBoundToAPV = true := by decide
  refine ⟨?_, ?_⟩
  · intro h
    have hg : r.getBoundPVForPodClaim s pod podPVC = (.error errPVCIsNotBoundToAPV,
        { s with calls := s.calls ++ [.getPVC pod.Namespace podPVC.ClaimName] }) := by
      rcases h with h | h <;>
        simp [Reconciler.getBoundPVForPodClaim, hpvc, h, RState.call]
    exact ⟨by rw [hg], by simp [Reconciler.reconcileVolume, hvol, hg, hself]⟩
  · intro pv hph hvn hpv hcr
    have hg : r.getBoundPVForPodClaim s pod podPVC =
        (.error (.new "The PV has a different `ClaimRef` than the PVC"),
          { s with calls := s.calls ++
            [.getPVC pod.Namespace podPVC.ClaimName, .getPV pvc.VolumeName] }) := by
      rcases hcr with hcr | ⟨ref, hcr, hn⟩ <;>
        simp [Reconciler.getBoundPVForPodClaim, hpvc, hph, hvn, hpv, hcr, RState.call, *]
    exact ⟨by rw [hg], hne, by simp [Reconciler.reconcileVolume, hvol, hg, hne]⟩

/-- Witness of C12 (as amended): the claim of the example workload is bound to the volume
`pv-123`, which has no claim reference. -/
theorem C12_witness :
    (examplePVC.Phase ≠ ClaimBound ∨ examplePVC.VolumeName = "" →
      (exampleUnclaimedReconciler.getBoundPVForPodClaim {} exampleWorkload
        { ClaimName := "claim" }).1 = .error errPVCIsNotBoundToAPV ∧
      exampleUnclaimedReconciler.reconcileVolume exampleWorkload false [] {} exampleVolume =
        some (true, [], { ({} : RState) with calls := ({} : RState).calls ++
          [.getPVC exampleWorkload.Namespace
            ({ ClaimName := "claim" } : PersistentVolumeClaimVolumeSource).ClaimName] })) ∧
    (∀ pv, examplePVC.Phase = ClaimBound → examplePVC.VolumeName ≠ "" →
      exampleUnclaimedReconciler.client.GetPV examplePVC.VolumeName = .ok pv →
      (pv.ClaimRef = none ∨ ∃ ref, pv.ClaimRef = some ref ∧ ref.Name ≠ examplePVC.Name) →
      (exampleUnclaimedReconciler.getBoundPVForPodClaim {} exampleWorkload
        { ClaimName := "claim" }).1 =
        .error (.new "The PV has a different `ClaimRef` than the PVC") ∧
      errorsIs (.new "The PV has a different `ClaimRef` than the PVC") errPVCIsNotBoundToAPV
        = false ∧
      exampleUnclaimedReconciler.reconcileVolume exampleWorkload false [] {} exampleVolume =
        some (false, [] ++ [.new "The PV has a different `ClaimRef` than the PVC"],
          { ({} : RState) with calls := ({} : RState).calls ++
            [.getPVC exampleWorkload.Namespace
              ({ ClaimName := "claim" } : PersistentVolumeClaimVolumeSource).ClaimName,
             .getPV examplePVC.VolumeName] })) :=
  C12_unbound_claim_is_retried_and_foreign_claimRef_is_an_error exampleUnclaimedReconciler {}
    exampleWorkload exampleVolume { ClaimName := "claim" } examplePVC false [] rfl rfl

/-- Counterexample to C12 as stated: the claim of the workload `web-0` is fetched and is bound
to the volume `pv-123`, whose `ClaimRef` is absent.  `getBoundPVForPodClaim` does not report
`errPVCIsNotBoundToAPV`: the reconciliation returns an error and requests no retry. -/
theorem C12_counterexample_absent_claimRef :
    exampleUnclaimedReconciler.client.GetPVC "default" "claim" = .ok examplePVC ∧
    exampleUnclaimedReconciler.client.GetPV "pv-123" = .ok exampleUnclaimedPV ∧
    exampleUnclaimedPV.ClaimRef = none ∧
    (exampleUnclaimedReconciler.getBoundPVForPodClaim {} exampleWorkload
      { ClaimName := "claim" }).1 =
        .error (.new "The PV has a different `ClaimRef` than the PVC") ∧
    Err.new "The PV has a different `ClaimRef` than the PVC" ≠ errPVCIsNotBoundToAPV ∧
    errorsIs (.new "The PV has a different `ClaimRef` than the PVC") errPVCIsNotBoundToAPV
      = false ∧
    (exampleUnclaimedReconciler.Reconcile {} { Namespace := "default", Name := "web-0" }).map
        (fun x => x.1) =
      some ({ Requeue := false },
        some (.joined [.new "The PV has a different `ClaimRef` than the PVC"])) :=
  ⟨rfl, rfl, rfl, rfl, by decide, by decide, by decide⟩

/-! ## C13 and C14: helper pods and inactive workloads -/

/-- C13: for a pod whose namespace is the configured helper namespace, fetched by a
reconciliation: if its phase is Succeeded the reconciliation issues exactly one delete call,
for that pod, and returns an empty result with no error when the delete succeeds or reports
not-found, and with the delete error otherwise; if its phase is Pending, Running or Failed it
makes no call after the fetch (no delete, no create) and returns an empty result with no
error. -/
theorem C13_helper_pod_deleted_once_succeeded (r : Reconciler) (s : RState)
    (req : NamespacedName) (pod : Pod)
    (hget : r.client.GetPod req.Namespace req.Name = .ok pod)
    (hns : pod.Namespace = r.mountpointPodConfig.Namespace) :
    (pod.Status.Phase = PodSucceeded →
      (r.client.Delete pod = none →
        r.Reconcile s req = some (({}, none),
          { s with calls := s.calls ++ [.getPod req.Namespace req.Name, .delete pod] })) ∧
      (∀ err, r.client.Delete pod = some err → IsNotFound err = true →
        r.Reconcile s req = some (({}, none),
          { s with calls := s.calls ++ [.getPod req.Namespace req.Name, .delete pod] })) ∧
      (∀ err, r.client.Delete pod = some err → IsNotFound err = false →
        r.Reconcile s req = some (({}, some (.single err)),
          { s with calls := s.calls ++ [.getPod req.Namespace req.Name, .delete pod] }))) ∧
    (pod.Status.Phase = PodPending ∨ pod.Status.Phase = PodRunning ∨
        pod.Status.Phase = PodFailed →
      r.Reconcile s req = some (({}, none),
        { s with calls := s.calls ++ [.getPod req.Namespace req.Name] })) := by
  have hmp : r.isMountpointPod pod = true := by
    simp [Reconciler.isMountpointPod, hns]
  refine ⟨?_, ?_⟩
  · intro hph
    have h1 : ¬ (PodSucceeded = PodPending) := by decide
    have h2 : ¬ (PodSucceeded = PodRunning) := by decide
    refine ⟨?_, ?_, ?_⟩
    · intro hd
      simp [Reconciler.Reconcile, hget, hmp, Reconciler.reconcileMountpointPod, hph, h1, h2,
        Reconciler.deleteMountpointPod, hd, RState.call]
    · intro err hd hnf
      simp [Reconciler.Reconcile, hget, hmp, Reconciler.reconcileMountpointPod, hph, h1, h2,
        Reconciler.deleteMountpointPod, hd, hnf, RState.call]
    · intro err hd hnf
      simp [Reconciler.Reconcile, hget, hmp, Reconciler.reconcileMountpointPod, hph, h1, h2,
        Reconciler.deleteMountpointPod, hd, hnf, RState.call]
  · intro hph
    have h3 : ¬ (PodFailed = PodPending) := by decide
    have h4 : ¬ (PodFailed = PodRunning) := by decide
    have h5 : ¬ (PodFailed = PodSucceeded) := by decide
    rcases hph with hph | hph | hph <;>
      simp [Reconciler.Reconcile, hget, hmp, Reconciler.reconcileMountpointPod, hph, h3, h4, h5,
        RState.call]

/-- Witness of C13: the helper pod `mp-abc` has succeeded and the delete call succeeds. -/
theorem C13_witness :
    (exampleSucceededHelper.Status.Phase = PodSucceeded →
      ((exampleHelperReconciler exampleSucceededHelper none).client.Delete
          exampleSucceededHelper = none →
        (exampleHelperReconciler exampleSucceededHelper none).Reconcile {}
            { Namespace := "mount-s3", Name := "mp-abc" } =
          some (({}, none),
            { ({} : RState) with calls := ({} : RState).calls ++
              [.getPod "mount-s3" "mp-abc", .delete exampleSucceededHelper] })) ∧
      (∀ err, (exampleHelperReconciler exampleSucceededHelper none).client.Delete
          exampleSucceededHelper = some err → IsNotFound err = true →
        (exampleHelperReconciler exampleSucceededHelper none).Reconcile {}
            { Namespace := "mount-s3", Name := "mp-abc" } =
          some (({}, none),
            { ({} : RState) with calls := ({} : RState).calls ++
              [.getPod "mount-s3" "mp-abc", .delete exampleSucceededHelper] })) ∧
      (∀ err, (exampleHelperReconciler exampleSucceededHelper none).client.Delete
          exampleSucceededHelper = some err → IsNotFound err = false →
        (exampleHelperReconciler exampleSucceededHelper none).Reconcile {}
            { Namespace := "mount-s3", Name := "mp-abc" } =
          some (({}, some (.single err)),
            { ({} : RState) with calls := ({} : RState).calls ++
              [.getPod "mount-s3" "mp-abc", .delete exampleSucceededHelper] }))) ∧
    (exampleSucceededHelper.Status.Phase = PodPending ∨
        exampleSucceededHelper.Status.Phase = PodRunning ∨
        exampleSucceededHelper.Status.Phase = PodFailed →
      (exampleHelperReconciler exampleSucceededHelper none).Reconcile {}
          { Namespace := "mount-s3", Name := "mp-abc" } =
        some (({}, none),
          { ({} : RState) with calls := ({} : RState).calls ++
            [.getPod "mount-s3" "mp-abc"] })) :=
  C13_helper_pod_deleted_once_succeeded (exampleHelperReconciler exampleSucceededHelper none) {}
    { Namespace := "mount-s3", Name := "mp-abc" } exampleSucceededHelper rfl rfl

/-- C14: for a workload pod that is not active (its phase is Succeeded or Failed, or its
deletion timestamp is set) and every volume, `spawnOrDeleteMountpointPodIfNeeded` returns
`(false, nil)` and leaves the state as it was: no call is made on the API client (no list,
create or delete) and the expectation set is unchanged. -/
theorem C14_inactive_workload_is_left_alone (r : Reconciler) (s : RState) (workloadPod : Pod)
    (pvc : PersistentVolumeClaim) (pv : PersistentVolume) (csiSpec : CSIPersistentVolumeSource)
    (hinactive : workloadPod.Status.Phase = PodSucceeded ∨
      workloadPod.Status.Phase = PodFailed ∨ workloadPod.DeletionTimestamp ≠ none) :
    isPodActive workloadPod = false ∧
    r.spawnOrDeleteMountpointPodIfNeeded s workloadPod pvc pv csiSpec =
      some ((false, none), s) := by
  have h : isPodActive workloadPod = false := by
    unfold isPodActive
    rcases hinactive with h | h | h
    · simp [h]
    · simp [h]
    · cases hd : workloadPod.DeletionTimestamp with
      | none => exact absurd hd h
      | some t => simp
  exact ⟨h, by simp [Reconciler.spawnOrDeleteMountpointPodIfNeeded, h]⟩

/-- Witness of C14: the workload `web-0` scheduled for deletion. -/
theorem C14_witness :
    isPodActive exampleTerminatingWorkload = false ∧
    (exampleReconciler [] none).spawnOrDeleteMountpointPodIfNeeded {}
        exampleTerminatingWorkload examplePVC examplePV { Driver := "s3.csi.aws.com" } =
      some ((false, none), {}) :=
  C14_inactive_workload_is_left_alone (exampleReconciler [] none) {} exampleTerminatingWorkload
    examplePVC examplePV { Driver := "s3.csi.aws.com" } (Or.inr (Or.inr (by decide)))

/-! ## C15 and C16: the labels of the created pod and the selector -/

theorem GoMap_get_eq (m : GoMap) (k : String) :
    m.get k = match List.lookup k m with
      | none => ""
      | some v => v := by
  unfold GoMap.get
  cases List.lookup k m <;> rfl

theorem authSource_resolved (pkg : Pkg) (pv : PersistentVolume) :
    (if ((ExtractVolumeAttributes pv).get pkg.volumecontextAuthenticationSource == "") = true
      then "driver" else (ExtractVolumeAttributes pv).get pkg.volumecontextAuthenticationSource)
      = resolvedAuthenticationSource pkg pv := by
  unfold resolvedAuthenticationSource
  rw [GoMap_get_eq]
  cases List.lookup pkg.volumecontextAuthenticationSource (ExtractVolumeAttributes pv) with
  | none => simp
  | some v => simp

/-- The labels of the pod built by `Creator.Create`. -/
theorem Create_labels (c : Creator) (pkg : Pkg) (pod : Pod) (pv : PersistentVolume)
    (sc : PodSecurityContext) (hsc : pod.Spec.SecurityContext = some sc) :
    ∃ mpPod, c.Create pkg pod pv = some mpPod ∧
      mpPod.Namespace = c.config.Namespace ∧
      mpPod.Labels =
        if resolvedAuthenticationSource pkg pv = "pod" then
          [(LabelMountpointVersion, c.config.MountpointVersion),
            (LabelCSIDriverVersion, c.config.CSIDriverVersion),
            (LabelVolumeName, pv.Name),
            (LabelAuthenticationSource, resolvedAuthenticationSource pkg pv),
            (LabelWorkloadPodFSGroup, renderedFSGroup sc),
            (LabelWorkloadPodNamespace, pod.Namespace),
            (LabelWorkloadPodServiceAccountName, pod.Spec.ServiceAccountName)]
        else
          [(LabelMountpointVersion, c.config.MountpointVersion),
            (LabelCSIDriverVersion, c.config.CSIDriverVersion),
            (LabelVolumeName, pv.Name),
            (LabelAuthenticationSource, resolvedAuthenticationSource pkg pv),
            (LabelWorkloadPodFSGroup, renderedFSGroup sc)] := by
  have ha := authSource_resolved pkg pv
  simp only [Creator.Create, hsc, AuthenticationSourceDriver, ha]
  refine ⟨_, rfl, rfl, ?_⟩
  simp only [AuthenticationSourcePod, renderedFSGroup, beq_iff_eq]
  split
  · simp [GoMap.set, GoMap.has, List.lookup, LabelMountpointVersion, LabelCSIDriverVersion,
      LabelVolumeName, LabelAuthenticationSource, LabelWorkloadPodFSGroup,
      LabelWorkloadPodNamespace, LabelWorkloadPodServiceAccountName]
  · rfl

/-- The label filter that `spawnOrDeleteMountpointPodIfNeeded` derives. -/
theorem selector_labels (r : Reconciler) (pod : Pod) (pv : PersistentVolume)
    (sc : PodSecurityContext) (hsc : pod.Spec.SecurityContext = some sc) :
    r.selector pod pv = some (resolvedAuthenticationSource r.pkg pv,
      if resolvedAuthenticationSource r.pkg pv = "pod" then
        [(LabelVolumeName, pv.Name),
          (LabelAuthenticationSource, resolvedAuthenticationSource r.pkg pv),
          (LabelWorkloadPodFSGroup, renderedFSGroup sc),
          (LabelWorkloadPodNamespace, pod.Namespace),
          (LabelWorkloadPodServiceAccountName, pod.Spec.ServiceAccountName)]
      else
        [(LabelVolumeName, pv.Name),
          (LabelAuthenticationSource, resolvedAuthenticationSource r.pkg pv),
          (LabelWorkloadPodFSGroup, renderedFSGroup sc)]) := by
  have ha := authSource_resolved r.pkg pv
  simp only [Reconciler.selector, hsc, ha]
  simp only [renderedFSGroup, beq_iff_eq]
  split
  · simp [GoMap.set, GoMap.has, List.lookup, LabelVolumeName, LabelAuthenticationSource,
      LabelWorkloadPodFSGroup, LabelWorkloadPodNamespace, LabelWorkloadPodServiceAccountName]
  · rfl

/-- C15: for a workload pod (whose security context is set, so that `Creator.Create` returns)
and a bound volume, the pod built by `Creator.Create` carries the labels volume-name = the name
of the volume, authentication-source = the value of the volume attribute, or "driver" when
that attribute is unset or empty, and workload-pod-fsgroup = the decimal rendering of the
`fsGroup` of the workload, or the empty string when it is unset; when the resolved
authentication source is pod-scoped it carries the labels workload-pod-namespace and
workload-pod-service-account-name, equal to the namespace and service account of the workload,
and otherwise it carries neither label. -/
theorem C15_created_pod_labels (c : Creator) (pkg : Pkg) (pod : Pod) (pv : PersistentVolume)
    (sc : PodSecurityContext) (hsc : pod.Spec.SecurityContext = some sc) :
    ∃ mpPod, c.Create pkg pod pv = some mpPod ∧
      List.lookup LabelVolumeName mpPod.Labels = some pv.Name ∧
      List.lookup LabelAuthenticationSource mpPod.Labels =
        some (resolvedAuthenticationSource pkg pv) ∧
      List.lookup LabelWorkloadPodFSGroup mpPod.Labels = some (renderedFSGroup sc) ∧
      (resolvedAuthenticationSource pkg pv = AuthenticationSourcePod →
        List.lookup LabelWorkloadPodNamespace mpPod.Labels = some pod.Namespace ∧
        List.lookup LabelWorkloadPodServiceAccountName mpPod.Labels =
          some pod.Spec.ServiceAccountName) ∧
      (resolvedAuthenticationSource pkg pv ≠ AuthenticationSourcePod →
        List.lookup LabelWorkloadPodNamespace mpPod.Labels = none ∧
        List.lookup LabelWorkloadPodServiceAccountName mpPod.Labels = none) := by
  obtain ⟨mpPod, hmk, -, hl⟩ := Create_labels c pkg pod pv sc hsc
  refine ⟨mpPod, hmk, ?_⟩
  rw [hl]
  simp only [AuthenticationSourcePod]
  by_cases hp : resolvedAuthenticationSource pkg pv = "pod"
  · simp [hp, List.lookup, LabelMountpointVersion, LabelCSIDriverVersion,
      LabelVolumeName, LabelAuthenticationSource, LabelWorkloadPodFSGroup,
      LabelWorkloadPodNamespace, LabelWorkloadPodServiceAccountName]
  · simp [hp, List.lookup, LabelMountpointVersion, LabelCSIDriverVersion,
      LabelVolumeName, LabelAuthenticationSource, LabelWorkloadPodFSGroup,
      LabelWorkloadPodNamespace, LabelWorkloadPodServiceAccountName]

/-- Witness of C15: the workload `web-0` with the `fsGroup` 1000 and a volume with the
pod-scoped authentication source. -/
theorem C15_witness :
    ∃ mpPod, (NewCreator { Namespace := "mount-s3" }).Create examplePkg
        examplePodScopedWorkload examplePodScopedPV = some mpPod ∧
      List.lookup LabelVolumeName mpPod.Labels = some examplePodScopedPV.Name ∧
      List.lookup LabelAuthenticationSource mpPod.Labels =
        some (resolvedAuthenticationSource examplePkg examplePodScopedPV) ∧
      List.lookup LabelWorkloadPodFSGroup mpPod.Labels
        = some (renderedFSGroup { FSGroup := some 1000 }) ∧
      (resolvedAuthenticationSource examplePkg examplePodScopedPV = AuthenticationSourcePod →
        List.lookup LabelWorkloadPodNamespace mpPod.Labels
          = some examplePodScopedWorkload.Namespace ∧
        List.lookup LabelWorkloadPodServiceAccountName mpPod.Labels =
          some examplePodScopedWorkload.Spec.ServiceAccountName) ∧
      (resolvedAuthenticationSource examplePkg examplePodScopedPV ≠ AuthenticationSourcePod →
        List.lookup LabelWorkloadPodNamespace mpPod.Labels = none ∧
        List.lookup LabelWorkloadPodServiceAccountName mpPod.Labels = none) :=
  C15_created_pod_labels (NewCreator { Namespace := "mount-s3" }) examplePkg
    examplePodScopedWorkload examplePodScopedPV { FSGroup := some 1000 } rfl

/-- C16: for a reconciler built by `NewReconciler`, a workload pod (whose security context is
set, so that the selector is derived and the pod is built) and a bound volume, the helper pod
built by `Creator.Create` satisfies the namespace and the label filter of the list query that
`spawnOrDeleteMountpointPodIfNeeded` builds for the same workload pod and volume: it is in the
configured helper namespace and every entry of the label filter is a label of the created pod,
with the same value; and the pod is pinned by its node affinity to the node named by the field
filter of the query. -/
theorem C16_created_pod_matches_selector (client : Client) (pkg : Pkg) (podConfig : Config)
    (pod : Pod) (pv : PersistentVolume) (sc : PodSecurityContext)
    (hsc : pod.Spec.SecurityContext = some sc) :
    ∃ authSource labelFilters mpPod,
      (NewReconciler client pkg podConfig).1.selector pod pv = some (authSource, labelFilters) ∧
      (NewReconciler client pkg podConfig).1.mountpointPodCreator.Create
        (NewReconciler client pkg podConfig).1.pkg pod pv = some mpPod ∧
      mpPod.Namespace = (NewReconciler client pkg podConfig).1.mountpointPodConfig.Namespace ∧
      (∀ kv ∈ labelFilters, List.lookup kv.1 mpPod.Labels = some kv.2) ∧
      (∀ k, labelFilters.has k = true →
        mpPod.Labels.has k = true ∧ mpPod.Labels.get k = labelFilters.get k) ∧
      mpPod.Spec.Affinity = some (pinnedTo pod.Spec.NodeName) := by
  have hs := selector_labels (NewReconciler client pkg podConfig).1 pod pv sc hsc
  obtain ⟨mpPod, hmk, hns, hl⟩ := Create_labels
    (NewReconciler client pkg podConfig).1.mountpointPodCreator
    (NewReconciler client pkg podConfig).1.pkg pod pv sc hsc
  have haff : mpPod.Spec.Affinity = some (pinnedTo pod.Spec.NodeName) := by
    simp only [Creator.Create, hsc, Option.some.injEq] at hmk
    rw [← hmk]
    rfl
  have hall : ∀ kv ∈ (if resolvedAuthenticationSource
        (NewReconciler client pkg podConfig).1.pkg pv = "pod" then
        [(LabelVolumeName, pv.Name),
          (LabelAuthenticationSource, resolvedAuthenticationSource
            (NewReconciler client pkg podConfig).1.pkg pv),
          (LabelWorkloadPodFSGroup, renderedFSGroup sc),
          (LabelWorkloadPodNamespace, pod.Namespace),
          (LabelWorkloadPodServiceAccountName, pod.Spec.ServiceAccountName)]
      else
        [(LabelVolumeName, pv.Name),
          (LabelAuthenticationSource, resolvedAuthenticationSource
            (NewReconciler client pkg podConfig).1.pkg pv),
          (LabelWorkloadPodFSGroup, renderedFSGroup sc)]),
      List.lookup kv.1 mpPod.Labels = some kv.2 := by
    rw [hl]
    by_cases hp : resolvedAuthenticationSource (NewReconciler client pkg podConfig).1.pkg pv
        = "pod"
    · simp [hp, List.lookup, LabelMountpointVersion, LabelCSIDriverVersion,
        LabelVolumeName, LabelAuthenticationSource, LabelWorkloadPodFSGroup,
        LabelWorkloadPodNamespace, LabelWorkloadPodServiceAccountName]
    · simp [hp, List.lookup, LabelMountpointVersion, LabelCSIDriverVersion,
        LabelVolumeName, LabelAuthenticationSource, LabelWorkloadPodFSGroup,
        LabelWorkloadPodNamespace, LabelWorkloadPodServiceAccountName]
  refine ⟨_, _, mpPod, hs, hmk, ?_, hall, ?_, haff⟩
  · rw [hns]; rfl
  · intro k hk
    rw [hl]
    by_cases hp : resolvedAuthenticationSource (NewReconciler client pkg podConfig).1.pkg pv
        = "pod"
    · simp only [hp, if_true, GoMap.has, GoMap.get, List.lookup] at hk ⊢
      repeat' split at hk
      all_goals simp_all [LabelMountpointVersion, LabelCSIDriverVersion,
        LabelVolumeName, LabelAuthenticationSource, LabelWorkloadPodFSGroup,
        LabelWorkloadPodNamespace, LabelWorkloadPodServiceAccountName]
    · simp only [hp, if_false, GoMap.has, GoMap.get, List.lookup] at hk ⊢
      repeat' split at hk
      all_goals simp_all [LabelMountpointVersion, LabelCSIDriverVersion,
        LabelVolumeName, LabelAuthenticationSource, LabelWorkloadPodFSGroup,
        LabelWorkloadPodNamespace, LabelWorkloadPodServiceAccountName]

/-- Witness of C16: the pod-scoped example workload and volume. -/
theorem C16_witness :
    ∃ authSource labelFilters mpPod,
      (NewReconciler (exampleClient [] none) examplePkg { Namespace := "mount-s3" }).1.selector
        examplePodScopedWorkload examplePodScopedPV = some (authSource, labelFilters) ∧
      (NewReconciler (exampleClient [] none) examplePkg
          { Namespace := "mount-s3" }).1.mountpointPodCreator.Create
        (NewReconciler (exampleClient [] none) examplePkg { Namespace := "mount-s3" }).1.pkg
        examplePodScopedWorkload examplePodScopedPV = some mpPod ∧
      mpPod.Namespace = (NewReconciler (exampleClient [] none) examplePkg
        { Namespace := "mount-s3" }).1.mountpointPodConfig.Namespace ∧
      (∀ kv ∈ labelFilters, List.lookup kv.1 mpPod.Labels = some kv.2) ∧
      (∀ k, labelFilters.has k = true →
        mpPod.Labels.has k = true ∧ mpPod.Labels.get k = labelFilters.get k) ∧
      mpPod.Spec.Affinity = some (pinnedTo examplePodScopedWorkload.Spec.NodeName) :=
  C16_created_pod_matches_selector (exampleClient [] none) examplePkg
    { Namespace := "mount-s3" } examplePodScopedWorkload examplePodScopedPV
    { FSGroup := some 1000 } rfl

/-! ## C17: the lock registry -/

theorem lookup_cons_eq (l : MPPodLocks) (k u : String) (m : Int) :
    List.lookup u ((k, m) :: l) = if u = k then some m else List.lookup u l := by
  by_cases h : u = k
  · subst h
    simp [List.lookup]
  · have : (u == k) = false := by simpa using h
    simp [List.lookup, this, h]

theorem lookup_map_same (l : MPPodLocks) (uid : String) (n v : Int)
    (h : List.lookup uid l = some n) :
    List.lookup uid (l.map (fun e => if e.1 == uid then (uid, v) else e)) = some v := by
  induction l with
  | nil => simp at h
  | cons e l ih =>
    obtain ⟨k, m⟩ := e
    rw [lookup_cons_eq] at h
    rw [List.map_cons]
    by_cases hk : k = uid
    · subst hk
      simp only [beq_self_eq_true, if_true]
      rw [lookup_cons_eq]
      simp
    · have hk' : (k == uid) = false := by simpa using hk
      simp only [hk', Bool.false_eq_true, if_false]
      rw [lookup_cons_eq]
      have hne : ¬ (uid = k) := fun h' => hk h'.symm
      simp only [hne, if_false] at h ⊢
      exact ih h

theorem lookup_map_other (l : MPPodLocks) (uid u : String) (v : Int) (hu : u ≠ uid) :
    List.lookup u (l.map (fun e => if e.1 == uid then (uid, v) else e)) = List.lookup u l := by
  induction l with
  | nil => rfl
  | cons e l ih =>
    obtain ⟨k, m⟩ := e
    rw [List.map_cons]
    by_cases hk : k = uid
    · subst hk
      simp only [beq_self_eq_true, if_true]
      rw [lookup_cons_eq, lookup_cons_eq]
      simp only [hu, if_false]
      exact ih
    · have hk' : (k == uid) = false := by simpa using hk
      simp only [hk', Bool.false_eq_true, if_false]
      rw [lookup_cons_eq, lookup_cons_eq, ih]

theorem lookup_filter_same (l : MPPodLocks) (uid : String) :
    List.lookup uid (l.filter (fun e => e.1 != uid)) = none := by
  induction l with
  | nil => rfl
  | cons e l ih =>
    obtain ⟨k, m⟩ := e
    by_cases hk : k = uid
    · subst hk
      have : ((k, m).1 != k) = false := by simp
      rw [List.filter_cons_of_neg (by simp)]
      exact ih
    · have hk' : (k != uid) = true := by simpa using hk
      simp only [List.filter_cons, hk', if_true]
      rw [lookup_cons_eq]
      have hne : ¬ (uid = k) := fun h' => hk h'.symm
      simp only [hne, if_false]
      exact ih

theorem lookup_filter_other (l : MPPodLocks) (uid u : String) (hu : u ≠ uid) :
    List.lookup u (l.filter (fun e => e.1 != uid)) = List.lookup u l := by
  induction l with
  | nil => rfl
  | cons e l ih =>
    obtain ⟨k, m⟩ := e
    by_cases hk : k = uid
    · subst hk
      rw [List.filter_cons_of_neg (by simp), lookup_cons_eq]
      simp only [hu, if_false]
      exact ih
    · have hk' : (k != uid) = true := by simpa using hk
      simp only [List.filter_cons, hk', if_true]
      rw [lookup_cons_eq, lookup_cons_eq, ih]

theorem lookup_append_new (l : MPPodLocks) (uid u : String) (v : Int)
    (h : List.lookup uid l = none) :
    List.lookup u (l ++ [(uid, v)]) = if u = uid then some v else List.lookup u l := by
  induction l with
  | nil =>
    rw [List.nil_append, lookup_cons_eq]
  | cons e l ih =>
    obtain ⟨k, m⟩ := e
    rw [lookup_cons_eq] at h
    by_cases hk : uid = k
    · simp [hk] at h
    · simp only [hk, if_false] at h
      rw [List.cons_append, lookup_cons_eq, lookup_cons_eq, ih h]
      by_cases huk : u = k
      · subst huk
        have : ¬ (u = uid) := fun h' => hk h'.symm
        simp [this]
      · simp [huk]

/-- An acquire creates the entry of its UID with the count 1, or adds 1 to its count. -/
theorem lookup_getMPPodLock (l : MPPodLocks) (uid u : String) :
    List.lookup u (getMPPodLock l uid) =
      if u = uid then some ((List.lookup uid l).getD 0 + 1) else List.lookup u l := by
  unfold getMPPodLock
  cases h : List.lookup uid l with
  | none =>
    simp only [Option.getD_none, zero_add]
    exact lookup_append_new l uid u 1 h
  | some n =>
    simp only [Option.getD_some]
    by_cases hu : u = uid
    · subst hu
      simp only [if_true]
      exact lookup_map_same l u n (n + 1) h
    · simp only [hu, if_false]
      exact lookup_map_other l uid u (n + 1) hu

/-- A release takes 1 from the count of its UID and deletes the entry when nothing is left;
it leaves the other entries, and the registry when the UID has no entry. -/
theorem lookup_releaseMPPodLock (l : MPPodLocks) (uid u : String) :
    List.lookup u (releaseMPPodLock l uid) =
      if u = uid then
        match List.lookup uid l with
        | none => none
        | some n => if n - 1 ≤ 0 then none else some (n - 1)
      else List.lookup u l := by
  unfold releaseMPPodLock
  cases h : List.lookup uid l with
  | none =>
    by_cases hu : u = uid
    · subst hu; simp [h]
    · simp [hu]
  | some n =>
    simp only
    by_cases hn : n - 1 ≤ 0
    · simp only [hn, if_true]
      by_cases hu : u = uid
      · subst hu
        simp only [if_true]
        exact lookup_filter_same l u
      · simp only [hu, if_false]
        exact lookup_filter_other l uid u hu
    · simp only [hn, if_false]
      by_cases hu : u = uid
      · subst hu
        simp only [if_true]
        exact lookup_map_same l u n (n - 1) h
      · simp only [hu, if_false]
        exact lookup_map_other l uid u (n - 1) hu

theorem acquires_snoc (uid : String) (seen : List LockCall) (c : LockCall) :
    acquires uid (seen ++ [c]) = acquires uid seen + if c = .acquire uid then 1 else 0 := by
  unfold acquires
  rw [List.count_append, List.count_singleton]
  by_cases h : c = .acquire uid
  · simp [h]
  · have : (c == LockCall.acquire uid) = false := by simpa using h
    simp [h, this]

theorem releases_snoc (uid : String) (seen : List LockCall) (c : LockCall) :
    releases uid (seen ++ [c]) = releases uid seen + if c = .release uid then 1 else 0 := by
  unfold releases
  rw [List.count_append, List.count_singleton]
  by_cases h : c = .release uid
  · simp [h]
  · have : (c == LockCall.release uid) = false := by simpa using h
    simp [h, this]

/-- The registry follows the sequence of calls: from a registry that holds the expected entries
for the calls seen, matched calls lead to the expected entries for all the calls. -/
theorem runLockCalls_expected (calls seen : List LockCall) (l : MPPodLocks)
    (hl : ∀ u, List.lookup u l = expectedLock u seen)
    (hle : ∀ u, releases u seen ≤ acquires u seen)
    (hm : releasesMatched seen calls = true) :
    (∀ u, List.lookup u (runLockCalls l calls) = expectedLock u (seen ++ calls)) ∧
    (∀ u, releases u (seen ++ calls) ≤ acquires u (seen ++ calls)) := by
  induction calls generalizing seen l with
  | nil => simpa [runLockCalls] using ⟨hl, hle⟩
  | cons c calls ih =>
    have happ : seen ++ c :: calls = (seen ++ [c]) ++ calls := by simp
    rw [happ]
    cases c with
    | acquire uid =>
      simp only [releasesMatched] at hm
      refine ih (seen ++ [.acquire uid]) (getMPPodLock l uid) ?_ ?_ hm
      · intro u
        rw [lookup_getMPPodLock, hl, hl]
        have h1 := hle uid
        have h2 := hle u
        simp only [expectedLock, acquires_snoc, releases_snoc]
        by_cases hu : u = uid
        · subst hu
          by_cases hlt : releases u seen < acquires u seen
          · have : releases u seen < acquires u seen + 1 := by omega
            simp [hlt, this]
            omega
          · have : releases u seen < acquires u seen + 1 := by omega
            have heq : releases u seen = acquires u seen := by omega
            simp [hlt, heq]
        · have hne : ¬ (LockCall.acquire uid = LockCall.acquire u) := by
            intro h; injection h with h; exact hu h.symm
          simp [hu, hne]
      · intro u
        have h2 := hle u
        simp only [acquires_snoc, releases_snoc]
        simp only [reduceCtorEq, if_false]
        omega
    | release uid =>
      simp only [releasesMatched, Bool.and_eq_true, decide_eq_true_eq] at hm
      obtain ⟨hlt, hm⟩ := hm
      refine ih (seen ++ [.release uid]) (releaseMPPodLock l uid) ?_ ?_ hm
      · intro u
        rw [lookup_releaseMPPodLock, hl, hl]
        simp only [expectedLock, acquires_snoc, releases_snoc]
        by_cases hu : u = uid
        · subst hu
          simp only [hlt, if_true, reduceCtorEq, if_false, add_zero]
          by_cases h1 : releases u seen + 1 < acquires u seen
          · have : ¬ ((acquires u seen : Int) - (releases u seen : Int) - 1 ≤ 0) := by omega
            simp [h1, this]
            omega
          · have : (acquires u seen : Int) - (releases u seen : Int) - 1 ≤ 0 := by omega
            simp [h1, this]
        · have hne : ¬ (LockCall.release uid = LockCall.release u) := by
            intro h; injection h with h; exact hu h.symm
          simp [hu, hne]
      · intro u
        have h2 := hle u
        simp only [acquires_snoc, releases_snoc]
        simp only [reduceCtorEq, if_false]
        by_cases hu : u = uid
        · subst hu
          simp
          omega
        · have hne : ¬ (LockCall.release uid = LockCall.release u) := by
            intro h; injection h with h; exact hu h.symm
          simp [hne]
          omega

/-- C17: for a sequence of `getMPPodLock` and `releaseMPPodLock` calls on the empty registry
in which each release of a UID is preceded by an unmatched acquire of that UID, the registry
holds an entry for a UID exactly when its acquires outnumber its releases, and the reference
count of the entry is that difference, hence at least 1; an acquire of a UID without entry
creates the entry with the count 1; a release deletes the entry exactly when its count was 1,
so that it returns to zero; and the release of a UID without entry leaves the registry as it
was. -/
theorem C17_lock_registry_counts_references (calls : List LockCall)
    (hmatched : releasesMatched [] calls = true) :
    (∀ uid, List.lookup uid (runLockCalls [] calls) = expectedLock uid calls) ∧
    (∀ uid, (List.lookup uid (runLockCalls [] calls)).isSome = true ↔
      releases uid calls < acquires uid calls) ∧
    (∀ uid n, List.lookup uid (runLockCalls [] calls) = some n →
      n = (acquires uid calls : Int) - (releases uid calls : Int) ∧ 1 ≤ n) ∧
    (∀ uid, List.lookup uid (runLockCalls [] calls) = none →
      List.lookup uid (getMPPodLock (runLockCalls [] calls) uid) = some 1) ∧
    (∀ uid n, List.lookup uid (runLockCalls [] calls) = some n →
      (List.lookup uid (releaseMPPodLock (runLockCalls [] calls) uid) = none ↔ n = 1) ∧
      (n ≠ 1 →
        List.lookup uid (releaseMPPodLock (runLockCalls [] calls) uid) = some (n - 1))) ∧
    (∀ uid, List.lookup uid (runLockCalls [] calls) = none →
      releaseMPPodLock (runLockCalls [] calls) uid = runLockCalls [] calls) := by
  have h := (runLockCalls_expected calls [] [] (by intro u; rfl) (by intro u; rfl) hmatched).1
  simp only [List.nil_append] at h
  have hcount : ∀ uid n, List.lookup uid (runLockCalls [] calls) = some n →
      n = (acquires uid calls : Int) - (releases uid calls : Int) ∧ 1 ≤ n := by
    intro uid n hn
    rw [h, expectedLock] at hn
    split at hn
    · simp only [Option.some.injEq] at hn
      exact ⟨hn.symm, by omega⟩
    · simp at hn
  refine ⟨h, ?_, hcount, ?_, ?_, ?_⟩
  · intro uid
    rw [h, expectedLock]
    split <;> simp [*]
  · intro uid hn
    rw [lookup_getMPPodLock, hn]
    simp
  · intro uid n hn
    have h1 := (hcount uid n hn).2
    rw [lookup_releaseMPPodLock, hn]
    simp only [if_true]
    by_cases h1n : n = 1
    · subst h1n; simp
    · have : ¬ (n - 1 ≤ 0) := by omega
      simp [this, h1n]
  · intro uid hn
    simp [releaseMPPodLock, hn]

/-- Witness of C17: the helper pod `abc` is acquired twice and released once, and the helper
pod `def` is acquired and released. -/
theorem C17_witness :
    (∀ uid, List.lookup uid (runLockCalls [] [.acquire "abc", .acquire "def", .acquire "abc",
        .release "def", .release "abc"]) =
      expectedLock uid [.acquire "abc", .acquire "def", .acquire "abc", .release "def",
        .release "abc"]) ∧
    runLockCalls [] [.acquire "abc", .acquire "def", .acquire "abc", .release "def",
      .release "abc"] = [("abc", 1)] :=
  ⟨(C17_lock_registry_counts_references [.acquire "abc", .acquire "def", .acquire "abc",
      .release "def", .release "abc"] (by decide)).1, by decide⟩

/-! ## C18: `Unmount` without a source mount -/

/-- C18: for an `Unmount` call in which the source mount backing the target cannot be
resolved, `Unmount` makes one call, the unmount of the target on the node, and returns: with
success exactly when that unmount succeeds, its error wrapped otherwise.  It takes no pod lock
(the registry is untouched and no lock is logged), writes no exit marker, unmounts no source,
removes no directory and cleans up no credentials. -/
theorem C18_unmount_without_source_unmounts_target_only (pm : PodMounter) (h : Host)
    (pkg : NodePkg) (mpPodLocks : MPPodLocks) (target : String) (credentialCtx : CleanupContext)
    (err : Err) (hfind : h.findSourceMountPoint target = .error err) :
    (pm.Unmount h pkg mpPodLocks target credentialCtx).log = [.unmount target] ∧
    (pm.Unmount h pkg mpPodLocks target credentialCtx).locks = mpPodLocks ∧
    ((pm.Unmount h pkg mpPodLocks target credentialCtx).err = none ↔
      h.Unmount target = none) ∧
    (∀ e, h.Unmount target = some e →
      pm.Unmount h pkg mpPodLocks target credentialCtx =
        ⟨some (.errorfW "Failed to unmount bind mount %q: %w" [target] e), [.unmount target],
          mpPodLocks⟩) ∧
    (h.Unmount target = none →
      pm.Unmount h pkg mpPodLocks target credentialCtx = ⟨none, [.unmount target], mpPodLocks⟩) := by
  unfold PodMounter.Unmount
  simp only [PodMounter.findSourceMountPoint, hfind, PodMounter.unmountTarget]
  cases hu : h.Unmount target <;> simp

/-- Witness of C18: `Unmount` of the target `t1` on a node where its source cannot be
resolved. -/
theorem C18_witness :
    (exampleMounter.Unmount exampleHostNoSource exampleNodePkg [] "t1" {}).log
      = [.unmount "t1"] ∧
    (exampleMounter.Unmount exampleHostNoSource exampleNodePkg [] "t1" {}).locks = [] ∧
    ((exampleMounter.Unmount exampleHostNoSource exampleNodePkg [] "t1" {}).err = none ↔
      exampleHostNoSource.Unmount "t1" = none) ∧
    (∀ e, exampleHostNoSource.Unmount "t1" = some e →
      exampleMounter.Unmount exampleHostNoSource exampleNodePkg [] "t1" {} =
        ⟨some (.errorfW "Failed to unmount bind mount %q: %w" ["t1"] e), [.unmount "t1"],
          []⟩) ∧
    (exampleHostNoSource.Unmount "t1" = none →
      exampleMounter.Unmount exampleHostNoSource exampleNodePkg [] "t1" {} =
        ⟨none, [.unmount "t1"], []⟩) :=
  C18_unmount_without_source_unmounts_target_only exampleMounter exampleHostNoSource
    exampleNodePkg [] "t1" {} (.ext "no source mount" false) rfl

/-! ## C19: the expectation key -/

theorem foldl_entries (labelFilters : GoMap) (keys : List String) (init : String) :
    keys.foldl (fun sb k => sb ++ k ++ "=" ++ labelFilters.get k ++ ";") init =
      init ++ concatEntries labelFilters keys := by
  induction keys generalizing init with
  | nil => simp [concatEntries]
  | cons k keys ih =>
    rw [List.foldl_cons, ih]
    simp only [concatEntries, String.append_assoc]

/-- In a map with distinct keys, the read of a key finds the one entry with that key. -/
theorem lookup_eq_some_iff_mem (m : GoMap) (hnd : (GoMap.keys m).Nodup) (k v : String) :
    List.lookup k m = some v ↔ (k, v) ∈ m := by
  induction m with
  | nil => simp
  | cons e m ih =>
    obtain ⟨k', v'⟩ := e
    simp only [GoMap.keys, List.map_cons, List.nodup_cons, List.mem_map, not_exists,
      not_and] at hnd
    obtain ⟨hnot, hnd⟩ := hnd
    by_cases hk : k = k'
    · subst hk
      simp only [List.lookup, beq_self_eq_true, Option.some.injEq, List.mem_cons,
        Prod.mk.injEq, true_and]
      constructor
      · intro h; exact Or.inl h.symm
      · rintro (h | h)
        · exact h.symm
        · exact absurd rfl (hnot (k, v) h)
    · have hk' : (k == k') = false := by simpa using hk
      simp only [List.lookup, hk', List.mem_cons, Prod.mk.injEq, hk, false_and, false_or]
      exact ih hnd

theorem get_perm (m₁ m₂ : GoMap) (hperm : m₁.Perm m₂) (hnd : (GoMap.keys m₁).Nodup)
    (k : String) : m₁.get k = m₂.get k := by
  have hnd₂ : (GoMap.keys m₂).Nodup := (hperm.map Prod.fst).nodup_iff.mp hnd
  have hl : List.lookup k m₁ = List.lookup k m₂ := by
    cases h₁ : List.lookup k m₁ with
    | some v =>
      have := (lookup_eq_some_iff_mem m₁ hnd k v).mp h₁
      exact ((lookup_eq_some_iff_mem m₂ hnd₂ k v).mpr (hperm.mem_iff.mp this)).symm
    | none =>
      cases h₂ : List.lookup k m₂ with
      | none => rfl
      | some v =>
        have := (lookup_eq_some_iff_mem m₂ hnd₂ k v).mp h₂
        have := (lookup_eq_some_iff_mem m₁ hnd k v).mpr (hperm.mem_iff.mpr this)
        rw [h₁] at this
        exact absurd this (by simp)
  simp [GoMap.get, hl]

theorem concatEntries_congr (m₁ m₂ : GoMap) (keys : List String)
    (h : ∀ k, m₁.get k = m₂.get k) : concatEntries m₁ keys = concatEntries m₂ keys := by
  induction keys with
  | nil => rfl
  | cons k keys ih => simp [concatEntries, h k, ih]

/-- C19: the key that `deriveKeyFromFilters` gives a label filter and a node name is the node
name followed by the concatenation of "key=value;" for the keys of the filter taken in
ascending order (a sorted permutation of its keys, strings being compared as the lists of their
characters); so a filter with the same entries in another order (a map has each key once)
yields the same key. -/
theorem C19_deriveKeyFromFilters_sorted_and_order_independent (labelFilters other : GoMap)
    (nodeName : String) (hperm : labelFilters.Perm other)
    (hnodup : (GoMap.keys labelFilters).Nodup) :
    (∃ keys : List String, keys.Perm (GoMap.keys labelFilters) ∧
      keys.Sorted (fun a b => a ≤ b) ∧
      deriveKeyFromFilters labelFilters nodeName =
        nodeName ++ concatEntries labelFilters keys) ∧
    (∀ a b : String, a ≤ b ↔ a.toList ≤ b.toList) ∧
    deriveKeyFromFilters labelFilters nodeName = deriveKeyFromFilters other nodeName := by
  have hkey : ∀ m : GoMap, deriveKeyFromFilters m nodeName =
      nodeName ++ concatEntries m ((GoMap.keys m).insertionSort (fun a b => a ≤ b)) := by
    intro m
    simp only [deriveKeyFromFilters, foldl_entries, String.empty_append]
  refine ⟨⟨_, List.perm_insertionSort _ _, List.sorted_insertionSort _ _, hkey labelFilters⟩,
    fun a b => String.le_iff_toList_le, ?_⟩
  rw [hkey, hkey]
  have hkeys : (GoMap.keys labelFilters).Perm (GoMap.keys other) := hperm.map Prod.fst
  have hsort : (GoMap.keys labelFilters).insertionSort (fun a b => a ≤ b) =
      (GoMap.keys other).insertionSort (fun a b => a ≤ b) := by
    apply List.eq_of_perm_of_sorted (r := fun a b : String => a ≤ b)
    · exact ((List.perm_insertionSort _ _).trans hkeys).trans (List.perm_insertionSort _ _).symm
    · exact List.sorted_insertionSort _ _
    · exact List.sorted_insertionSort _ _
  rw [hsort]
  congr 1
  exact concatEntries_congr _ _ _ (get_perm labelFilters other hperm hnodup)

/-- Witness of C19: the example selector and the same entries in another order. -/
theorem C19_witness :
    (∃ keys : List String, keys.Perm (GoMap.keys exampleSelector) ∧
      keys.Sorted (fun a b => a ≤ b) ∧
      deriveKeyFromFilters exampleSelector "node-a" =
        "node-a" ++ concatEntries exampleSelector keys) ∧
    (∀ a b : String, a ≤ b ↔ a.toList ≤ b.toList) ∧
    deriveKeyFromFilters exampleSelector "node-a" =
      deriveKeyFromFilters exampleSelectorReordered "node-a" :=
  C19_deriveKeyFromFilters_sorted_and_order_independent exampleSelector exampleSelectorReordered
    "node-a" (by decide) (by decide)

/-! ## C20: a failed create call -/

/-- C20: for an active workload pod and a bound volume, `labelFilters` being the selector that
the function derives for them, when no helper pod matches the selector, no expectation is
outstanding for the derived key and the create call fails, `spawnOrDeleteMountpointPodIfNeeded`
returns that error with no retry requested, after its list call and its one create call, and
the expectation set is unchanged: the derived key is still not pending. -/
theorem C20_failed_create_records_no_expectation (r : Reconciler) (s : RState)
    (workloadPod : Pod) (pvc : PersistentVolumeClaim) (pv : PersistentVolume)
    (csiSpec : CSIPersistentVolumeSource) (authSource : String) (labelFilters : GoMap)
    (mpPod : Pod) (err : Err)
    (hactive : isPodActive workloadPod = true)
    (hsel : r.selector workloadPod pv = some (authSource, labelFilters))
    (hlist : r.client.List r.mountpointPodConfig.Namespace workloadPod.Spec.NodeName labelFilters
      = .ok [])
    (hpend : s.mountpointPodExpectations.IsPending
      (deriveKeyFromFilters labelFilters workloadPod.Spec.NodeName) = false)
    (hpod : r.mountpointPodCreator.Create r.pkg workloadPod pv = some mpPod)
    (hcreate : r.client.Create mpPod = some err) :
    ∃ s', r.spawnOrDeleteMountpointPodIfNeeded s workloadPod pvc pv csiSpec =
        some ((false, some err), s') ∧
      s'.calls = s.calls ++
        [.list r.mountpointPodConfig.Namespace workloadPod.Spec.NodeName labelFilters,
          .create mpPod] ∧
      s'.mountpointPodExpectations = s.mountpointPodExpectations ∧
      s'.mountpointPodExpectations.IsPending
        (deriveKeyFromFilters labelFilters workloadPod.Spec.NodeName) = false := by
  refine ⟨RState.mk s.mountpointPodExpectations (s.calls ++
      [.list r.mountpointPodConfig.Namespace workloadPod.Spec.NodeName labelFilters,
        .create mpPod]), ?_, rfl, rfl, hpend⟩
  simp [Reconciler.spawnOrDeleteMountpointPodIfNeeded, hactive, hsel, hlist, hpend,
    Reconciler.spawnMountpointPod, hpod, hcreate, RState.call]

/-- Witness of C20: the workload `web-0`, no helper pod listed, no expectation outstanding, and
a create call that the API server refuses. -/
theorem C20_witness :
    ∃ s', (exampleReconciler [] (some (.ext "create refused"
        false))).spawnOrDeleteMountpointPodIfNeeded {} exampleWorkload examplePVC examplePV
        { Driver := "s3.csi.aws.com" } =
        some ((false, some (.ext "create refused" false)), s') ∧
      s'.calls = ({} : RState).calls ++
        [.list (exampleReconciler [] (some (.ext "create refused"
          false))).mountpointPodConfig.Namespace exampleWorkload.Spec.NodeName exampleSelector,
          .create exampleMountpointPod] ∧
      s'.mountpointPodExpectations = ({} : RState).mountpointPodExpectations ∧
      s'.mountpointPodExpectations.IsPending
        (deriveKeyFromFilters exampleSelector exampleWorkload.Spec.NodeName) = false :=
  C20_failed_create_records_no_expectation
    (exampleReconciler [] (some (.ext "create refused" false))) {} exampleWorkload examplePVC
    examplePV { Driver := "s3.csi.aws.com" } "driver" exampleSelector exampleMountpointPod
    (.ext "create refused" false) (by decide) (by decide) rfl rfl (by decide) rfl

/-! ## C21: the errors of `Mount` and `Unmount` -/

/-- C21 (as amended): every error that `Mount` or `Unmount` returns for a failure of the mount
syscall, of the send of mount options, of the wait for the mount, of the bind mount, of an
unmount or of the creation of the exit marker shows the path acted on (the source, the target,
or both); the errors of the steps that involve the helper pod (the send, the wait, the exit
marker) show, besides, the help message for the logs of that helper pod, as last value; the
errors of the mount syscall, of the bind mount and of the unmounts show the paths alone. -/
theorem C21_errors_show_the_path_and_helper_pod_steps_show_the_help_message (pm : PodMounter)
    (h : Host) (pkg : NodePkg) (mpPodLocks : MPPodLocks) :
    (∀ ctx bucketName target credentialCtx args volumeName pod podPath credEnv
        authenticationSource isSourceMountPoint,
      pm.volumeNameFromTargetPath pkg target = .ok volumeName →
      (pm.verifyOrSetupMountTarget h target).1 = none →
      pm.IsMountPoint h target = .ok false →
      pm.waitForMountpointPod h pkg ctx volumeName credentialCtx = some (.ok (pod, podPath)) →
      (pm.verifyOrSetupMountTarget h (SourceMountDir ++ pod.UID)).1 = none →
      (pm.ensureCredentialsDirExists h pkg podPath).1 = .ok (pm.credentialsDir pkg podPath) →
      h.Provide (pm.provideContext pkg credentialCtx podPath)
        = .ok (credEnv, authenticationSource) →
      pm.IsMountPoint h (SourceMountDir ++ pod.UID) = .ok isSourceMountPoint →
      (isSourceMountPoint = true →
        ∀ err, pm.bindMountSyscallWithDefault h (SourceMountDir ++ pod.UID) target = some err →
          (pm.Mount h pkg mpPodLocks ctx bucketName target credentialCtx args).map Outcome.err =
            some (some (.errorfW "Failed to bind mount %s to target %s: %w"
              [SourceMountDir ++ pod.UID, target] err))) ∧
      (isSourceMountPoint = false →
        (∀ err, pm.mountSyscallWithDefault h (SourceMountDir ++ pod.UID)
            (pm.mountArgs pkg args authenticationSource) = .error err →
          (pm.Mount h pkg mpPodLocks ctx bucketName target credentialCtx args).map Outcome.err =
            some (some (.errorfW "Failed to mount source %s: %w"
              [SourceMountDir ++ pod.UID] err))) ∧
        (∀ fd, pm.mountSyscallWithDefault h (SourceMountDir ++ pod.UID)
            (pm.mountArgs pkg args authenticationSource) = .ok fd →
          (∀ err, h.Send (pkg.PathOnHost podPath pkg.KnownPathMountSock)
              (pm.mountOptions pkg bucketName args credEnv authenticationSource fd)
              = some err →
            (pm.Mount h pkg mpPodLocks ctx bucketName target credentialCtx args).map
                Outcome.err =
              some (some (.errorfW
                "Failed to send mount options to Mountpoint Pod %s for %s: %w\n%s"
                [pod.Name, SourceMountDir ++ pod.UID,
                  pm.helpMessageForGettingMountpointLogs pod.UID] err))) ∧
          (h.Send (pkg.PathOnHost podPath pkg.KnownPathMountSock)
              (pm.mountOptions pkg bucketName args credEnv authenticationSource fd) = none →
            (∀ err, pm.waitForMount h (SourceMountDir ++ pod.UID) pod.Name
                (pkg.PathOnHost podPath pkg.KnownPathMountError) = some (some err) →
              (pm.Mount h pkg mpPodLocks ctx bucketName target credentialCtx args).map
                  Outcome.err =
                some (some (.errorfW
                  "Failed to wait for Mountpoint Pod %s to be ready for %s: %w\n%s"
                  [pod.Name, SourceMountDir ++ pod.UID,
                    pm.helpMessageForGettingMountpointLogs pod.UID] err))) ∧
            (pm.waitForMount h (SourceMountDir ++ pod.UID) pod.Name
                (pkg.PathOnHost podPath pkg.KnownPathMountError) = some none →
              ∀ err, pm.bindMountSyscallWithDefault h (SourceMountDir ++ pod.UID) target
                  = some err →
                (pm.Mount h pkg mpPodLocks ctx bucketName target credentialCtx args).map
                    Outcome.err =
                  some (some (.errorfW "Failed to bind mount %s to target %s: %w"
                    [SourceMountDir ++ pod.UID, target] err))))))) ∧
    (∀ target credentialCtx,
      (∀ e err, pm.findSourceMountPoint h target = .error e →
        pm.unmountTarget h target = some err →
        (pm.Unmount h pkg mpPodLocks target credentialCtx).err =
          some (.errorfW "Failed to unmount bind mount %q: %w" [target] err)) ∧
      (∀ source, pm.findSourceMountPoint h target = .ok source →
        (∀ err, pm.unmountTarget h target = some err →
          (pm.Unmount h pkg mpPodLocks target credentialCtx).err =
            some (.errorfW "Failed to unmount bind mount %q: %w" [target] err)) ∧
        (pm.unmountTarget h target = none → pm.bindMountCount h source target = .ok 0 →
          (∀ err, h.OpenFile (pm.podMountExitPath pkg source) = some err →
            (pm.Unmount h pkg mpPodLocks target credentialCtx).err =
              some (.errorfW
                "Failed to send a exit message to Mountpoint Pod for %q: %w\n%s"
                [source, pm.helpMessageForGettingMountpointLogs (filepathBase source)]
                err)) ∧
          (h.OpenFile (pm.podMountExitPath pkg source) = none →
            ∀ err, pm.unmountTarget h source = some err →
              (pm.Unmount h pkg mpPodLocks target credentialCtx).err =
                some (.errorfW "Failed to unmount source %q: %w" [source] err))))) := by
  refine ⟨?_, ?_⟩
  · intro ctx bucketName target credentialCtx args volumeName pod podPath credEnv
      authenticationSource isSourceMountPoint hvol htarget hmounted hwait hsource hdir hprovide
      hsrc
    have hM := Mount_of_provide pm h pkg mpPodLocks ctx bucketName target credentialCtx args
      volumeName pod podPath credEnv authenticationSource isSourceMountPoint hvol htarget
      hmounted hwait hsource hdir hprovide hsrc
    refine ⟨?_, ?_⟩
    · intro hs err hb
      subst hs
      rw [hM]
      simp [PodMounter.bindSourceToTarget, hb]
    · intro hs
      subst hs
      simp only [Bool.false_eq_true, if_false] at hM
      refine ⟨?_, ?_⟩
      · intro err he
        rw [hM]
        simp [PodMounter.mountSource, he]
      · intro fd hfd
        refine ⟨?_, ?_⟩
        · intro err hse
          rw [hM]
          simp [PodMounter.mountSource, hfd, hse]
        · intro hse
          refine ⟨?_, ?_⟩
          · intro err hw
            rw [hM]
            simp [PodMounter.mountSource, hfd, hse, hw]
          · intro hw err hb
            rw [hM]
            simp [PodMounter.mountSource, hfd, hse, hw, PodMounter.bindSourceToTarget, hb]
  · intro target credentialCtx
    refine ⟨?_, ?_⟩
    · intro e err hf hu
      simp [PodMounter.Unmount, hf, hu]
    · intro source hf
      refine ⟨?_, ?_⟩
      · intro err hu
        simp [PodMounter.Unmount, hf, PodMounter.unmountLocked, hu]
      · intro hu hc
        simp only [PodMounter.podMountExitPath]
        refine ⟨?_, ?_⟩
        · intro err ho
          simp [PodMounter.Unmount, hf, PodMounter.unmountLocked, hu, hc, ho]
        · intro ho err hus
          simp [PodMounter.Unmount, hf, PodMounter.unmountLocked, hu, hc, ho, hus]

/-- Witness of C21 (as amended): `Unmount` of the target `t1`, the last bind mount of the
source of helper pod `abc`, on a node where the exit marker cannot be created. -/
theorem C21_witness :
    (exampleMounter.Unmount exampleHostReadOnly exampleNodePkg [] "t1" {}).err =
      some (.errorfW "Failed to send a exit message to Mountpoint Pod for %q: %w\n%s"
        [exampleSource,
          exampleMounter.helpMessageForGettingMountpointLogs (filepathBase exampleSource)]
        (.ext "read-only file system" false)) :=
  ((((C21_errors_show_the_path_and_helper_pod_steps_show_the_help_message exampleMounter
    exampleHostReadOnly exampleNodePkg []).2 "t1" {}).2 exampleSource rfl).2 rfl rfl).1
    (.ext "read-only file system" false) rfl

/-- Counterexample to C21 as stated: `Mount` reaches the source mount step and the mount
syscall fails.  The error returned shows the source path and nothing else: the help message
for the logs of helper pod `abc` is not among the values it shows. -/
theorem C21_counterexample_mount_syscall_error_without_help_message :
    (exampleMounter.Mount exampleHostNoFuse exampleNodePkg [] {} "bucket" "t1" {} []).map
        Outcome.err =
      some (some (.errorfW "Failed to mount source %s: %w"
        ["/var/lib/kubelet/plugins/s3.csi.aws.com/mnt/abc"] (.ext "mount failed" false))) ∧
    (Err.errorfW "Failed to mount source %s: %w"
        ["/var/lib/kubelet/plugins/s3.csi.aws.com/mnt/abc"] (.ext "mount failed" false)).args =
      ["/var/lib/kubelet/plugins/s3.csi.aws.com/mnt/abc"] ∧
    exampleMounter.helpMessageForGettingMountpointLogs "abc" ∉
      (Err.errorfW "Failed to mount source %s: %w"
        ["/var/lib/kubelet/plugins/s3.csi.aws.com/mnt/abc"] (.ext "mount failed" false)).args :=
  ⟨by decide, rfl, by decide⟩

/-! ## C22: the name of a helper pod -/

/-- C22, at the failing input: the pairs `("node-1", "0pv")` and `("node-10", "pv")` differ, and
`MountpointPodNameFor` gives them the same name, whatever the hash function: both hand the
bytes of `node-10pv` to it. -/
theorem C22_distinct_pairs_with_one_name :
    (("node-1", "0pv") : String × String) ≠ ("node-10", "pv") ∧
    "node-1" ++ "0pv" = "node-10" ++ "pv" ∧
    ∀ Sum224 : String → List Nat,
      MountpointPodNameFor Sum224 "node-1" "0pv" = MountpointPodNameFor Sum224 "node-10" "pv" := by
  refine ⟨by decide, by decide, ?_⟩
  intro Sum224
  have h : "node-1" ++ "0pv" = "node-10" ++ "pv" := by decide
  simp only [MountpointPodNameFor, h]

/-! ## C23: a workload pod scheduled for termination -/

/-- The calls of `getBoundPVForPodClaim` are reads of the claim and of the volume, and it
leaves the expectations as they were. -/
theorem getBound_calls (r : Reconciler) (s : RState) (pod : Pod)
    (c : PersistentVolumeClaimVolumeSource) :
    ∃ extra, (r.getBoundPVForPodClaim s pod c).2.calls = s.calls ++ extra ∧
      (r.getBoundPVForPodClaim s pod c).2.mountpointPodExpectations =
        s.mountpointPodExpectations ∧
      ∀ call ∈ extra, call.isDelete = false ∧ call.isList = false ∧ call.isCreate = false := by
  unfold Reconciler.getBoundPVForPodClaim
  simp only [RState.call]
  repeat' split
  all_goals
    first
      | refine ⟨_, rfl, rfl, ?_⟩
      | refine ⟨_, List.append_assoc _ _ _, rfl, ?_⟩
    simp [Call.isDelete, Call.isList, Call.isCreate]

/-- The loop of `reconcileWorkloadPod` over the volumes of a workload pod that is not active
returns, and only reads claims and volumes. -/
theorem reconcileVolumes_inactive (r : Reconciler) (pod : Pod)
    (hinactive : isPodActive pod = false) (vols : List Volume) (requeue : Bool)
    (errs : List Err) (s : RState) :
    ∃ requeue' errs' s' extra,
      r.reconcileVolumes pod vols requeue errs s = some (requeue', errs', s') ∧
      s'.calls = s.calls ++ extra ∧
      s'.mountpointPodExpectations = s.mountpointPodExpectations ∧
      ∀ call ∈ extra, call.isDelete = false ∧ call.isList = false ∧ call.isCreate = false := by
  induction vols generalizing requeue errs s with
  | nil => exact ⟨requeue, errs, s, [], rfl, by simp, rfl, by simp⟩
  | cons vol vols ih =>
    have hstep : ∃ requeue₁ errs₁ s₁ extra₁,
        r.reconcileVolume pod requeue errs s vol = some (requeue₁, errs₁, s₁) ∧
        s₁.calls = s.calls ++ extra₁ ∧
        s₁.mountpointPodExpectations = s.mountpointPodExpectations ∧
        ∀ call ∈ extra₁,
          call.isDelete = false ∧ call.isList = false ∧ call.isCreate = false := by
      unfold Reconciler.reconcileVolume
      cases vol.PersistentVolumeClaim with
      | none => exact ⟨requeue, errs, s, [], rfl, by simp, rfl, by simp⟩
      | some podPVC =>
        simp only
        obtain ⟨extra, hc, he, hx⟩ := getBound_calls r s pod podPVC
        rcases hg : r.getBoundPVForPodClaim s pod podPVC with ⟨res, s₁⟩
        rw [hg] at hc he
        simp only at hc he
        cases res with
        | error e =>
          simp only
          split
          · exact ⟨true, errs, s₁, extra, rfl, hc, he, hx⟩
          · exact ⟨requeue, errs ++ [e], s₁, extra, rfl, hc, he, hx⟩
        | ok pp =>
          obtain ⟨pvc, pv⟩ := pp
          simp only
          cases extractCSISpecFromPV pv with
          | none => exact ⟨requeue, errs, s₁, extra, rfl, hc, he, hx⟩
          | some csi =>
            simp only [Reconciler.spawnOrDeleteMountpointPodIfNeeded, hinactive,
              Bool.not_false, if_true, Bool.or_false]
            exact ⟨requeue, errs, s₁, extra, rfl, hc, he, hx⟩
    obtain ⟨requeue₁, errs₁, s₁, extra₁, h1, hc1, he1, hx1⟩ := hstep
    obtain ⟨requeue₂, errs₂, s₂, extra₂, h2, hc2, he2, hx2⟩ := ih requeue₁ errs₁ s₁
    refine ⟨requeue₂, errs₂, s₂, extra₁ ++ extra₂, ?_, ?_, ?_, ?_⟩
    · simp only [Reconciler.reconcileVolumes, h1, h2]
    · rw [hc2, hc1, List.append_assoc]
    · rw [he2, he1]
    · intro call hcall
      rcases List.mem_append.mp hcall with hcall | hcall
      · exact hx1 call hcall
      · exact hx2 call hcall

/-- C23 (as amended): if the workload pod is scheduled for termination (its
`DeletionTimestamp` is non-nil) and there is an existing Mountpoint Pod for it (the list of
the selector of the workload pod and the volume returns it),
`spawnOrDeleteMountpointPodIfNeeded` leaves that Mountpoint Pod alone: it returns
`(false, nil)` and makes no call, so it lists, creates and deletes no pod; and the
reconciliation of the workload pod returns, after reads of claims and volumes only: it
issues no delete call for any of the volumes of the pod. -/
theorem C23_terminating_workload_leaves_helper_pod (r : Reconciler) (s : RState)
    (workloadPod : Pod) (pvc : PersistentVolumeClaim) (pv : PersistentVolume)
    (csiSpec : CSIPersistentVolumeSource) (authSource : String) (labelFilters : GoMap)
    (mpPod : Pod)
    (hterminating : workloadPod.DeletionTimestamp ≠ none)
    (_hsel : r.selector workloadPod pv = some (authSource, labelFilters))
    (_hexists : r.client.List r.mountpointPodConfig.Namespace workloadPod.Spec.NodeName
      labelFilters = .ok [mpPod]) :
    r.spawnOrDeleteMountpointPodIfNeeded s workloadPod pvc pv csiSpec
      = some ((false, none), s) ∧
    ∃ res s' extra, r.reconcileWorkloadPod s workloadPod = some (res, s') ∧
      s'.calls = s.calls ++ extra ∧
      s'.mountpointPodExpectations = s.mountpointPodExpectations ∧
      (∀ call ∈ extra, call.isDelete = false ∧ call.isList = false ∧ call.isCreate = false) ∧
      Call.delete mpPod ∉ extra := by
  have hinactive : isPodActive workloadPod = false := by
    unfold isPodActive
    cases hd : workloadPod.DeletionTimestamp with
    | none => exact absurd hd hterminating
    | some t => simp
  refine ⟨by simp [Reconciler.spawnOrDeleteMountpointPodIfNeeded, hinactive], ?_⟩
  unfold Reconciler.reconcileWorkloadPod
  split
  · exact ⟨_, s, [], rfl, by simp, rfl, by simp, by simp⟩
  · split
    · exact ⟨_, s, [], rfl, by simp, rfl, by simp, by simp⟩
    · obtain ⟨requeue', errs', s', extra, h1, hc, he, hx⟩ :=
        reconcileVolumes_inactive r workloadPod hinactive workloadPod.Spec.Volumes false [] s
      refine ⟨_, s', extra, by rw [h1], hc, he, hx, ?_⟩
      intro hmem
      have := (hx _ hmem).1
      simp [Call.isDelete] at this

/-- Witness of C23 (as amended): the workload `web-0`, pending and scheduled for termination,
whose helper pod `mp-abc` exists. -/
theorem C23_witness :
    exampleTerminatingReconciler.spawnOrDeleteMountpointPodIfNeeded {}
        examplePendingTerminatingWorkload examplePVC examplePV { Driver := "s3.csi.aws.com" }
      = some ((false, none), {}) ∧
    ∃ res s' extra, exampleTerminatingReconciler.reconcileWorkloadPod {}
        examplePendingTerminatingWorkload = some (res, s') ∧
      s'.calls = ({} : RState).calls ++ extra ∧
      s'.mountpointPodExpectations = ({} : RState).mountpointPodExpectations ∧
      (∀ call ∈ extra, call.isDelete = false ∧ call.isList = false ∧ call.isCreate = false) ∧
      Call.delete exampleHelper ∉ extra :=
  C23_terminating_workload_leaves_helper_pod exampleTerminatingReconciler {}
    examplePendingTerminatingWorkload examplePVC examplePV { Driver := "s3.csi.aws.com" }
    "driver" exampleSelector exampleHelper (by decide) (by decide) rfl

/-- Counterexample to C23 as stated: the workload `web-0` is pending and scheduled for
termination, and the helper pod `mp-abc` exists for it (the list of the selector returns it).
`spawnOrDeleteMountpointPodIfNeeded` returns `(false, nil)` without a call, and the whole
reconciliation of the workload makes no list call and no delete call. -/
theorem C23_counterexample_terminating_workload_keeps_helper_pod :
    examplePendingTerminatingWorkload.DeletionTimestamp ≠ none ∧
    exampleTerminatingReconciler.client.List "mount-s3" "node-a" exampleSelector
      = .ok [exampleHelper] ∧
    exampleTerminatingReconciler.selector examplePendingTerminatingWorkload examplePV
      = some ("driver", exampleSelector) ∧
    exampleTerminatingReconciler.spawnOrDeleteMountpointPodIfNeeded {}
        examplePendingTerminatingWorkload examplePVC examplePV { Driver := "s3.csi.aws.com" }
      = some ((false, none), {}) ∧
    exampleTerminatingReconciler.Reconcile {} { Namespace := "default", Name := "web-0" }
      = some (({ Requeue := false }, none),
          { calls := [.getPod "default" "web-0", .getPVC "default" "claim", .getPV "pv-123"] }) := by
  refine ⟨by decide, rfl, by decide, by decide, by decide⟩

/-! ## C25: `verifyOrSetupMountTarget` -/

/-- C25: for every path, `verifyOrSetupMountTarget` returns success with no call when the stat
succeeds; when the stat fails because the path is missing it makes the one `MkdirAll` call on
the path and returns success exactly when that call succeeds; when the stat fails with the
signature of a corrupted mount (and not as a missing path, which the method tests first) it
makes the one unmount call on the path, on the node, and returns success exactly when that
unmount succeeds; for any other failure of the stat it returns that failure and makes no
call. -/
theorem C25_verifyOrSetupMountTarget_by_stat_result (pm : PodMounter) (h : Host)
    (target : String) :
    (h.verifyMountPointStatx target = none →
      pm.verifyOrSetupMountTarget h target = (none, [])) ∧
    (∀ err, h.verifyMountPointStatx target = some err →
      (h.IsNotExist err = true →
        (pm.verifyOrSetupMountTarget h target).2 = [.mkdirAll target] ∧
        ((pm.verifyOrSetupMountTarget h target).1 = none ↔ h.MkdirAll target = none) ∧
        (∀ e, h.MkdirAll target = some e → (pm.verifyOrSetupMountTarget h target).1 =
          some (.errorfW "Failed to create target directory: %w" [] e))) ∧
      (h.IsNotExist err = false → h.IsCorruptedMnt err = true →
        (pm.verifyOrSetupMountTarget h target).2 = [.unmount target] ∧
        ((pm.verifyOrSetupMountTarget h target).1 = none ↔ h.Unmount target = none) ∧
        (∀ e, h.Unmount target = some e → (pm.verifyOrSetupMountTarget h target).1 =
          some (.errorfWV "Failed to unmount target path %q: %w, original failure of stat: %v"
            [target] e err))) ∧
      (h.IsNotExist err = false → h.IsCorruptedMnt err = false →
        pm.verifyOrSetupMountTarget h target = (some err, []))) := by
  refine ⟨?_, ?_⟩
  · intro hs
    simp [PodMounter.verifyOrSetupMountTarget, hs]
  · intro err hs
    refine ⟨?_, ?_, ?_⟩
    · intro hm
      cases hmk : h.MkdirAll target <;>
        simp [PodMounter.verifyOrSetupMountTarget, hs, hm, hmk]
    · intro hm hc
      cases hu : h.Unmount target <;>
        simp [PodMounter.verifyOrSetupMountTarget, PodMounter.unmountTarget, hs, hm, hc, hu]
    · intro hm hc
      simp [PodMounter.verifyOrSetupMountTarget, hs, hm, hc]

/-- Witness of C25: the stat of `t1` fails with the signature of a corrupted mount and the
unmount succeeds. -/
theorem C25_witness :
    (exampleMounter.verifyOrSetupMountTarget
        (exampleHostStat (.ext "transport endpoint is not connected" false) false true) "t1").2
      = [.unmount "t1"] ∧
    ((exampleMounter.verifyOrSetupMountTarget
        (exampleHostStat (.ext "transport endpoint is not connected" false) false true) "t1").1
      = none ↔
      (exampleHostStat (.ext "transport endpoint is not connected" false) false true).Unmount
        "t1" = none) ∧
    (∀ e, (exampleHostStat (.ext "transport endpoint is not connected" false) false
        true).Unmount "t1" = some e →
      (exampleMounter.verifyOrSetupMountTarget
        (exampleHostStat (.ext "transport endpoint is not connected" false) false true) "t1").1 =
        some (.errorfWV "Failed to unmount target path %q: %w, original failure of stat: %v"
          ["t1"] e (.ext "transport endpoint is not connected" false))) :=
  ((C25_verifyOrSetupMountTarget_by_stat_result exampleMounter
    (exampleHostStat (.ext "transport endpoint is not connected" false) false true) "t1").2
    (.ext "transport endpoint is not connected" false) rfl).2.1 rfl rfl

/-! ## C26: the helper pod UID of a source path -/

theorem takeWhile_append_of_all {α : Type} (p : α → Bool) (xs ys : List α) (a : α)
    (hall : ∀ x ∈ xs, p x = true) (ha : p a = false) :
    (xs ++ a :: ys).takeWhile p = xs := by
  induction xs with
  | nil => simp [List.takeWhile, ha]
  | cons x xs ih =>
    have hx : p x = true := hall x (List.mem_cons_self _ _)
    simp only [List.cons_append, List.takeWhile_cons, hx, if_true]
    rw [ih (fun y hy => hall y (List.mem_cons_of_mem _ hy))]

/-- The last element of a path that ends in a slash followed by a non-empty name without
slash is that name. -/
theorem filepathBase_dir_append (dir uid : List Char) (hne : uid ≠ [])
    (hsep : '/' ∉ uid) :
    filepathBase (String.mk (dir ++ '/' :: uid)) = String.mk uid := by
  have hne2 : String.mk (dir ++ '/' :: uid) ≠ "" := by
    intro hh
    have := congrArg String.data hh
    simp at this
  have hrev : (dir ++ '/' :: uid).reverse = uid.reverse ++ '/' :: dir.reverse := by simp
  have hall : ∀ c ∈ uid.reverse, (c != '/') = true := by
    intro c hc
    have : c ∈ uid := List.mem_reverse.mp hc
    simp only [bne_iff_ne, ne_eq]
    intro hcs
    exact hsep (hcs ▸ this)
  obtain ⟨c, cs, hcs⟩ : ∃ c cs, uid.reverse = c :: cs := by
    cases hr : uid.reverse with
    | nil => exact absurd (List.reverse_eq_nil_iff.mp hr) hne
    | cons c cs => exact ⟨c, cs, rfl⟩
  have hc : (c == '/') = false := by
    have := hall c (by rw [hcs]; exact List.mem_cons_self _ _)
    simpa using this
  have hdrop : ((dir ++ '/' :: uid).reverse.dropWhile (fun c => c == '/')) =
      (dir ++ '/' :: uid).reverse := by
    rw [hrev, hcs]
    simp [List.dropWhile, hc]
  have htake : ((dir ++ '/' :: uid).reverse.takeWhile (fun c => c != '/')) = uid.reverse := by
    rw [hrev]
    exact takeWhile_append_of_all _ _ _ _ hall (by simp)
  unfold filepathBase
  have hb : (String.mk (dir ++ '/' :: uid) == "") = false := by simpa using hne2
  simp only [hb, Bool.false_eq_true, if_false, String.toList, hdrop, List.reverse_reverse,
    htake]
  have : uid.isEmpty = false := by
    cases uid with
    | nil => exact absurd rfl hne
    | cons _ _ => rfl
  simp [this]

theorem SourceMountDir_append (uid : String) :
    SourceMountDir ++ uid =
      String.mk ("/var/lib/kubelet/plugins/s3.csi.aws.com/mnt".toList ++ '/' :: uid.toList) := by
  apply String.ext
  have hd : SourceMountDir.data =
      "/var/lib/kubelet/plugins/s3.csi.aws.com/mnt".toList ++ ['/'] := by decide
  simp only [String.data_append, hd, String.toList, List.append_assoc, List.singleton_append]

/-- C26: for every non-empty helper pod UID that contains no path separator,
`filepath.Base(SourceMountDir + uid)` is the UID; so `Unmount` of a target whose source mount
is the source path that `Mount` builds for the helper pod, and `Mount` for that helper pod,
take and release the same key of the lock registry, and lock and unlock the same mutex. -/
theorem C26_unmount_derives_the_uid_of_mount (uid : String) (hne : uid ≠ "")
    (hsep : '/' ∉ uid.toList) :
    filepathBase (SourceMountDir ++ uid) = uid ∧
    (∀ (pm : PodMounter) (h : Host) (pkg : NodePkg) (mpPodLocks : MPPodLocks) (target : String)
        (credentialCtx : CleanupContext),
      pm.findSourceMountPoint h target = .ok (SourceMountDir ++ uid) →
      (pm.Unmount h pkg mpPodLocks target credentialCtx).locks =
        releaseMPPodLock (getMPPodLock mpPodLocks uid) uid ∧
      (pm.Unmount h pkg mpPodLocks target credentialCtx).log =
        [.lock uid] ++ (pm.unmountLocked h pkg target credentialCtx (SourceMountDir ++ uid)
          uid).2 ++ [.unlock uid]) ∧
    (∀ (pm : PodMounter) (h : Host) (pkg : NodePkg) (mpPodLocks : MPPodLocks) (ctx : Context)
        (bucketName target : String) (credentialCtx : ProvideContext) (args : Args)
        (volumeName : String) (pod : Pod) (podPath : String) (isTargetMountPoint : Bool)
        (out : Outcome),
      pod.UID = uid →
      pm.volumeNameFromTargetPath pkg target = .ok volumeName →
      (pm.verifyOrSetupMountTarget h target).1 = none →
      pm.IsMountPoint h target = .ok isTargetMountPoint →
      pm.waitForMountpointPod h pkg ctx volumeName credentialCtx = some (.ok (pod, podPath)) →
      pm.Mount h pkg mpPodLocks ctx bucketName target credentialCtx args = some out →
      out.locks = releaseMPPodLock (getMPPodLock mpPodLocks uid) uid ∧
      ∃ inside, pm.mountLocked h pkg bucketName target credentialCtx args isTargetMountPoint
          pod podPath = some (out.err, inside) ∧
        out.log = (pm.verifyOrSetupMountTarget h target).2 ++ [.lock uid] ++ inside ++
          [.unlock uid]) := by
  have hbase : filepathBase (SourceMountDir ++ uid) = uid := by
    rw [SourceMountDir_append]
    have hne' : uid.toList ≠ [] := by
      intro hh
      apply hne
      apply String.ext
      simpa [String.toList] using hh
    rw [filepathBase_dir_append _ _ hne' hsep]
    rfl
  refine ⟨hbase, ?_, ?_⟩
  · intro pm h pkg mpPodLocks target credentialCtx hf
    simp [PodMounter.Unmount, hf, hbase]
  · intro pm h pkg mpPodLocks ctx bucketName target credentialCtx args volumeName pod podPath
      isTargetMountPoint out huid hvol htarget hmounted hwait hM
    subst huid
    rw [Mount_of_wait pm h pkg mpPodLocks ctx bucketName target credentialCtx args
      volumeName pod podPath isTargetMountPoint hvol htarget hmounted hwait] at hM
    cases hml : pm.mountLocked h pkg bucketName target credentialCtx args isTargetMountPoint
        pod podPath with
    | none => simp [hml] at hM
    | some r =>
      simp only [hml, Option.map_some', Option.some.injEq] at hM
      subst hM
      exact ⟨rfl, r.2, rfl, rfl⟩

/-- Witness of C26: the helper pod `abc`, whose source is the source of the target `t1`. -/
theorem C26_witness :
    filepathBase (SourceMountDir ++ "abc") = "abc" ∧
    (exampleMounter.Unmount (exampleHost [] 1) exampleNodePkg [] "t1" {}).log =
      [.lock "abc"] ++ (exampleMounter.unmountLocked (exampleHost [] 1) exampleNodePkg "t1" {}
        (SourceMountDir ++ "abc") "abc").2 ++ [.unlock "abc"] :=
  ⟨(C26_unmount_derives_the_uid_of_mount "abc" (by decide) (by decide)).1,
    ((C26_unmount_derives_the_uid_of_mount "abc" (by decide) (by decide)).2.1 exampleMounter
      (exampleHost [] 1) exampleNodePkg [] "t1" {} rfl).2⟩

/-! ## C27: a workload pod without security context -/

/-- C27, at the failing input: the workload `web-0` has no pod-level security context.
`Creator.Create` and the selector computation of `spawnOrDeleteMountpointPodIfNeeded` panic on
the nil pointer, and so does the reconciliation of the workload; with an empty security
context, whose `fsGroup` is unset, both complete and the label and the filter value of
workload-pod-fsgroup are the empty string. -/
theorem C27_absent_security_context_panics :
    exampleBareWorkload.Spec.SecurityContext = none ∧
    (NewCreator { Namespace := "mount-s3" }).Create examplePkg exampleBareWorkload examplePV
      = none ∧
    exampleBareReconciler.selector exampleBareWorkload examplePV = none ∧
    exampleBareReconciler.spawnOrDeleteMountpointPodIfNeeded {} exampleBareWorkload examplePVC
      examplePV { Driver := "s3.csi.aws.com" } = none ∧
    exampleBareReconciler.Reconcile {} { Namespace := "default", Name := "web-0" } = none ∧
    exampleWorkload.Spec.SecurityContext = some { FSGroup := none } ∧
    ((NewCreator { Namespace := "mount-s3" }).Create examplePkg exampleWorkload examplePV).map
      (fun mpPod => List.lookup LabelWorkloadPodFSGroup mpPod.Labels) = some (some "") ∧
    ((exampleReconciler [] none).selector exampleWorkload examplePV).map
      (fun sel => List.lookup LabelWorkloadPodFSGroup sel.2) = some (some "") := by
  refine ⟨rfl, rfl, rfl, by decide, by decide, rfl, by decide, by decide⟩

/-! ## C28: the list path and the event path of `Wait` -/

/-- C28, at the failing inputs: for a credential context whose authentication source is
`other`, the helper pod `mp-abc`, scheduled on the local node, satisfies the label selector of
the list and is not accepted by `isAssignedMpPod`; and for the unspecified authentication
source and the empty `fsGroup`, a pod on the local node that lacks the label of the `fsGroup`
is accepted by `isAssignedMpPod` and does not satisfy the label selector.  So `Wait`, with
a context whose deadline fires after the notifications, returns the first pod when the lister
holds it and `ErrPodNotFound` when a notification announces it; and it returns
`ErrPodNotFound` when the lister holds the second pod, and that pod when a notification
announces it. -/
theorem C28_list_and_event_paths_differ :
    (exampleHelper.Spec.NodeName = "node-a" ∧
      matchesSelector (Watcher.labelSelector "pv-123" { AuthenticationSource := "other" })
        exampleHelper.Labels = true ∧
      isAssignedMpPod (fun _ => "node-a") exampleHelper "pv-123"
        { AuthenticationSource := "other" } = false) ∧
    (exampleUnlabelledHelper.Spec.NodeName = "node-a" ∧
      matchesSelector (Watcher.labelSelector "pv-123" {}) exampleUnlabelledHelper.Labels
        = false ∧
      isAssignedMpPod (fun _ => "node-a") exampleUnlabelledHelper "pv-123" {} = true) ∧
    ((exampleListingWatcher [exampleHelper] []).Wait (fun _ => "node-a") {} "pv-123"
        { AuthenticationSource := "other" } = some (.ok exampleHelper) ∧
      (exampleListingWatcher [] [.add exampleHelper]).Wait (fun _ => "node-a") {} "pv-123"
        { AuthenticationSource := "other" } = some (.error ErrPodNotFound)) ∧
    ((exampleListingWatcher [exampleUnlabelledHelper] []).Wait (fun _ => "node-a") {} "pv-123"
        {} = some (.error ErrPodNotFound) ∧
      (exampleListingWatcher [] [.add exampleUnlabelledHelper]).Wait (fun _ => "node-a") {}
        "pv-123" {} = some (.ok exampleUnlabelledHelper)) :=
  ⟨by decide, by decide, ⟨rfl, rfl⟩, rfl, rfl⟩

/-! ## C29: the lock of a helper pod is released on every exit path -/

theorem verifyOrSetup_onLock (pm : PodMounter) (h : Host) (target : String) :
    ∀ a ∈ (pm.verifyOrSetupMountTarget h target).2, a.onLock = false := by
  intro a ha
  rcases verifyOrSetup_log pm h target a ha with rfl | rfl <;> rfl

theorem bindSourceToTarget_onLock (pm : PodMounter) (h : Host) (source target : String) :
    ∀ a ∈ (pm.bindSourceToTarget h source target).2, a.onLock = false := by
  intro a ha
  unfold PodMounter.bindSourceToTarget at ha
  split at ha <;> simp at ha <;> subst ha <;> rfl

theorem mountSource_onLock (pm : PodMounter) (h : Host) (pkg : NodePkg)
    (bucketName target : String) (args : Args) (pod : Pod) (podPath source : String)
    (credEnv : Env) (authenticationSource : String) (r : Option Err × List Action)
    (hr : pm.mountSource h pkg bucketName target args pod podPath source credEnv
      authenticationSource = some r) :
    ∀ a ∈ r.2, a.onLock = false := by
  have hb := bindSourceToTarget_onLock pm h source target
  unfold PodMounter.mountSource at hr
  simp only at hr
  split at hr
  · simp only [Option.some.injEq] at hr
    subst hr
    simp [Action.onLock]
  · split at hr
    · simp only [Option.some.injEq] at hr
      subst hr
      intro a ha
      simp only [PodMounter.deferred, if_true, List.mem_append, List.mem_cons,
        List.mem_singleton, List.not_mem_nil, or_false] at ha
      rcases ha with (ha | ha | ha) | ha | ha <;> subst ha <;> rfl
    · split at hr
      · simp at hr
      · simp only [Option.some.injEq] at hr
        subst hr
        intro a ha
        simp only [PodMounter.deferred, if_true, List.mem_append, List.mem_cons,
          List.mem_singleton, List.not_mem_nil, or_false] at ha
        rcases ha with ((ha | ha | ha) | ha) | ha | ha <;> subst ha <;> rfl
      · simp only [Option.some.injEq] at hr
        subst hr
        intro a ha
        simp only [PodMounter.deferred, Bool.false_eq_true, if_false, List.mem_append,
          List.mem_cons, List.mem_singleton, List.not_mem_nil, or_false,
          List.append_nil] at ha
        rcases ha with (((ha | ha | ha) | ha) | ha) | ha
        · subst ha; rfl
        · subst ha; rfl
        · subst ha; rfl
        · subst ha; rfl
        · exact hb a ha
        · subst ha; rfl

theorem mountLocked_onLock (pm : PodMounter) (h : Host) (pkg : NodePkg)
    (bucketName target : String) (credentialCtx : ProvideContext) (args : Args)
    (isTargetMountPoint : Bool) (pod : Pod) (podPath : String) (r : Option Err × List Action)
    (hr : pm.mountLocked h pkg bucketName target credentialCtx args isTargetMountPoint pod
      podPath = some r) :
    ∀ a ∈ r.2, a.onLock = false := by
  have hv := verifyOrSetup_onLock pm h (SourceMountDir ++ pod.UID)
  have hc := ensureCredentialsDir_log pm h pkg podPath
  have hb := bindSourceToTarget_onLock pm h (SourceMountDir ++ pod.UID) target
  unfold PodMounter.mountLocked at hr
  simp only at hr
  rcases h1 : pm.verifyOrSetupMountTarget h (SourceMountDir ++ pod.UID) with ⟨e1, log1⟩
  rcases h2 : pm.ensureCredentialsDirExists h pkg podPath with ⟨p, log2⟩
  rw [h1] at hr hv
  rw [h2] at hr hc
  simp only at hv hc
  subst hc
  have hpre : ∀ (c : ProvideContext), ∀ a ∈ log1 ++ [Action.mkdir (pm.credentialsDir pkg podPath)]
      ++ [Action.provide c], a.onLock = false := by
    intro c a ha
    simp only [List.mem_append, List.mem_singleton] at ha
    rcases ha with (ha | ha) | ha
    · exact hv a ha
    · subst ha; rfl
    · subst ha; rfl
  cases e1 with
  | some e =>
    simp only [Option.some.injEq] at hr
    subst hr
    exact hv
  | none =>
    simp only at hr
    cases p with
    | error e =>
      simp only [Option.some.injEq] at hr
      subst hr
      intro a ha
      simp only [List.mem_append, List.mem_singleton] at ha
      rcases ha with ha | ha
      · exact hv a ha
      · subst ha; rfl
    | ok path =>
      simp only at hr
      split at hr
      · simp only [Option.some.injEq] at hr
        subst hr
        exact hpre _
      · split at hr
        · simp only [Option.some.injEq] at hr
          subst hr
          exact hpre _
        · split at hr
          · simp only [Option.some.injEq] at hr
            subst hr
            exact hpre _
          · split at hr
            · split at hr
              · simp at hr
              · rename_i err log' hms
                simp only [Option.some.injEq] at hr
                subst hr
                intro a ha
                rw [List.mem_append] at ha
                rcases ha with ha | ha
                · exact hpre _ a ha
                · exact mountSource_onLock pm h pkg bucketName target args pod podPath _ _ _
                    (err, log') hms a ha
            · simp only [Option.some.injEq] at hr
              subst hr
              intro a ha
              rw [List.mem_append] at ha
              rcases ha with ha | ha
              · exact hpre _ a ha
              · exact hb a ha

theorem unmountLocked_onLock (pm : PodMounter) (h : Host) (pkg : NodePkg) (target : String)
    (credentialCtx : CleanupContext) (source mpPodUID : String) :
    ∀ a ∈ (pm.unmountLocked h pkg target credentialCtx source mpPodUID).2,
      a.onLock = false := by
  have hall : ((pm.unmountLocked h pkg target credentialCtx source mpPodUID).2).all
      (fun a => !a.onLock) = true := by
    unfold PodMounter.unmountLocked
    simp only
    repeat' split
    all_goals rfl
  intro a ha
  have := List.all_eq_true.mp hall a ha
  simpa using this

/-- An acquire followed by a release of the same UID leaves every reference count as it was,
the count of the UID, if it has an entry, being at least 1. -/
theorem lookup_release_get (l : MPPodLocks) (uid : String)
    (hcount : ∀ n, List.lookup uid l = some n → 1 ≤ n) (u : String) :
    List.lookup u (releaseMPPodLock (getMPPodLock l uid) uid) = List.lookup u l := by
  rw [lookup_releaseMPPodLock, lookup_getMPPodLock, lookup_getMPPodLock]
  by_cases hu : u = uid
  · subst hu
    simp only [if_true]
    cases hl : List.lookup u l with
    | none => simp
    | some n =>
      have := hcount n hl
      have hn : ¬ (n + 1 - 1 ≤ 0) := by omega
      simp [hn]
      omega
  · simp [hu]

/-- C29: for every call of `Mount` that returns, and every call of `Unmount`, that takes the
lock of a helper pod UID (the reference count of the UID, if it has an entry, being at least 1
when the call starts, as it is in every registry that calls have built): the lock is taken
once and the last call made is the one unlock of the mutex, whether the call succeeds or
fails; the registry is the one that one acquire followed by one release of the UID leaves, in
which every reference count, that of the UID included, is what it was before the call. -/
theorem C29_lock_released_on_every_exit_path (pm : PodMounter) (h : Host) (pkg : NodePkg)
    (mpPodLocks : MPPodLocks) (uid : String)
    (hcount : ∀ n, List.lookup uid mpPodLocks = some n → 1 ≤ n) :
    (∀ ctx bucketName target credentialCtx args out,
      pm.Mount h pkg mpPodLocks ctx bucketName target credentialCtx args = some out →
      .lock uid ∈ out.log →
      (∃ before inside, out.log = before ++ [.lock uid] ++ inside ++ [.unlock uid] ∧
        ∀ a ∈ before ++ inside, a.onLock = false) ∧
      out.locks = releaseMPPodLock (getMPPodLock mpPodLocks uid) uid ∧
      ∀ u, List.lookup u out.locks = List.lookup u mpPodLocks) ∧
    (∀ target credentialCtx,
      .lock uid ∈ (pm.Unmount h pkg mpPodLocks target credentialCtx).log →
      (∃ inside, (pm.Unmount h pkg mpPodLocks target credentialCtx).log =
          [.lock uid] ++ inside ++ [.unlock uid] ∧
        ∀ a ∈ inside, a.onLock = false) ∧
      (pm.Unmount h pkg mpPodLocks target credentialCtx).locks =
        releaseMPPodLock (getMPPodLock mpPodLocks uid) uid ∧
      ∀ u, List.lookup u (pm.Unmount h pkg mpPodLocks target credentialCtx).locks =
        List.lookup u mpPodLocks) := by
  have hfree : ∀ (log : List Action), (∀ a ∈ log, a.onLock = false) →
      Action.lock uid ∉ log := by
    intro log hlog hmem
    have := hlog _ hmem
    simp [Action.onLock] at this
  refine ⟨?_, ?_⟩
  · intro ctx bucketName target credentialCtx args out hM hmem
    have hv := verifyOrSetup_onLock pm h target
    unfold PodMounter.Mount at hM
    cases hvol : pm.volumeNameFromTargetPath pkg target with
    | error e =>
      simp only [hvol, Option.some.injEq] at hM
      subst hM
      simp at hmem
    | ok volumeName =>
      simp only [hvol] at hM
      rcases h0 : pm.verifyOrSetupMountTarget h target with ⟨e0, log0⟩
      rw [h0] at hM hv
      simp only at hv
      cases e0 with
      | some e =>
        simp only [Option.some.injEq] at hM
        subst hM
        exact absurd hmem (hfree _ hv)
      | none =>
        simp only at hM
        cases hmp : pm.IsMountPoint h target with
        | error e =>
          simp only [hmp, Option.some.injEq] at hM
          subst hM
          exact absurd hmem (hfree _ hv)
        | ok isTargetMountPoint =>
          simp only [hmp] at hM
          cases hw : pm.waitForMountpointPod h pkg ctx volumeName credentialCtx with
          | none => simp [hw] at hM
          | some res =>
            cases res with
            | error e =>
              simp only [hw, Option.some.injEq] at hM
              subst hM
              exact absurd hmem (hfree _ hv)
            | ok pp =>
              obtain ⟨pod, podPath⟩ := pp
              simp only [hw] at hM
              cases hml : pm.mountLocked h pkg bucketName target credentialCtx args
                  isTargetMountPoint pod podPath with
              | none => simp [hml] at hM
              | some r =>
                obtain ⟨err, log'⟩ := r
                have hin := mountLocked_onLock pm h pkg bucketName target credentialCtx args
                  isTargetMountPoint pod podPath (err, log') hml
                simp only at hin
                simp only [hml, Option.some.injEq] at hM
                subst hM
                have huid : uid = pod.UID := by
                  simp only [List.mem_append, List.mem_singleton, Action.lock.injEq,
                    reduceCtorEq, or_false] at hmem
                  rcases hmem with (hmem | hmem) | hmem
                  · exact absurd hmem (hfree _ hv)
                  · exact hmem
                  · exact absurd hmem (hfree _ hin)
                subst huid
                refine ⟨⟨log0, log', rfl, ?_⟩, rfl, lookup_release_get mpPodLocks _ hcount⟩
                intro a ha
                rcases List.mem_append.mp ha with ha | ha
                · exact hv a ha
                · exact hin a ha
  · intro target credentialCtx hmem
    unfold PodMounter.Unmount at hmem ⊢
    cases hf : pm.findSourceMountPoint h target with
    | error e =>
      simp only [hf] at hmem
      split at hmem <;> simp at hmem
    | ok source =>
      simp only [hf] at hmem ⊢
      have hin := unmountLocked_onLock pm h pkg target credentialCtx source
        (filepathBase source)
      have huid : uid = filepathBase source := by
        simp only [List.mem_append, List.mem_singleton, Action.lock.injEq, reduceCtorEq,
          or_false, false_or] at hmem
        rcases hmem with hmem | hmem
        · exact hmem
        · exact absurd hmem (hfree _ hin)
      subst huid
      exact ⟨⟨_, rfl, hin⟩, rfl, lookup_release_get mpPodLocks _ hcount⟩

/-- Witness of C29: `Unmount` of the target `t1`, the last bind mount of the source of helper
pod `abc`, on a node where the exit marker cannot be created, called with an empty registry. -/
theorem C29_witness :
    (∃ inside, (exampleMounter.Unmount exampleHostReadOnly exampleNodePkg [] "t1" {}).log =
        [.lock "abc"] ++ inside ++ [.unlock "abc"] ∧
      ∀ a ∈ inside, a.onLock = false) ∧
    (exampleMounter.Unmount exampleHostReadOnly exampleNodePkg [] "t1" {}).locks =
      releaseMPPodLock (getMPPodLock [] "abc") "abc" ∧
    ∀ u, List.lookup u (exampleMounter.Unmount exampleHostReadOnly exampleNodePkg [] "t1"
      {}).locks = List.lookup u ([] : MPPodLocks) :=
  (C29_lock_released_on_every_exit_path exampleMounter exampleHostReadOnly exampleNodePkg []
    "abc" (by intro n hn; simp at hn)).2 "t1" {} (by decide)

/-! ## C30: expectation keys of different helper pods -/

/-- Two lists cut at the first occurrence of an element agree on both sides of it. -/
theorem append_cons_split {α : Type} (c : α) (xs ys xs' ys' : List α) (h : c ∉ xs)
    (h' : c ∉ xs') (e : xs ++ c :: ys = xs' ++ c :: ys') : xs = xs' ∧ ys = ys' := by
  induction xs generalizing xs' with
  | nil =>
    cases xs' with
    | nil => simpa using e
    | cons x' xs' =>
      simp only [List.nil_append, List.cons_append, List.cons.injEq] at e
      exact absurd (e.1 ▸ List.mem_cons_self _ _) h'
  | cons x xs ih =>
    cases xs' with
    | nil =>
      simp only [List.nil_append, List.cons_append, List.cons.injEq] at e
      exact absurd (e.1 ▸ List.mem_cons_self _ _) h
    | cons x' xs' =>
      simp only [List.cons_append, List.cons.injEq] at e
      obtain ⟨hx, e⟩ := e
      obtain ⟨h1, h2⟩ := ih xs' (fun hm => h (List.mem_cons_of_mem _ hm))
        (fun hm => h' (List.mem_cons_of_mem _ hm)) e
      exact ⟨by rw [hx, h1], h2⟩

theorem concatEntries_cons_data (m : GoMap) (k : String) (ks : List String) :
    (concatEntries m (k :: ks)).data =
      k.data ++ '=' :: ((m.get k).data ++ ';' :: (concatEntries m ks).data) := by
  simp [concatEntries, String.data_append]

/-- The key that `deriveKeyFromFilters` derives: the node name, then the entries of the keys
in ascending order. -/
theorem deriveKeyFromFilters_eq (m : GoMap) (nodeName : String) :
    deriveKeyFromFilters m nodeName =
      nodeName ++ concatEntries m ((GoMap.keys m).insertionSort (fun a b => a ≤ b)) := by
  simp only [deriveKeyFromFilters, foldl_entries, String.empty_append]

/-- Entries whose keys hold no `=` and whose values hold no `;` can be read back from their
concatenation. -/
theorem concatEntries_inj (m₁ m₂ : GoMap) (ks₁ ks₂ : List String)
    (hk₁ : ∀ k ∈ ks₁, '=' ∉ k.data) (hk₂ : ∀ k ∈ ks₂, '=' ∉ k.data)
    (hv₁ : ∀ k ∈ ks₁, ';' ∉ (m₁.get k).data) (hv₂ : ∀ k ∈ ks₂, ';' ∉ (m₂.get k).data)
    (e : (concatEntries m₁ ks₁).data = (concatEntries m₂ ks₂).data) :
    ks₁ = ks₂ ∧ ∀ k ∈ ks₁, m₁.get k = m₂.get k := by
  induction ks₁ generalizing ks₂ with
  | nil =>
    cases ks₂ with
    | nil => exact ⟨rfl, by simp⟩
    | cons k ks =>
      rw [concatEntries_cons_data] at e
      simp [concatEntries] at e
  | cons k₁ r₁ ih =>
    cases ks₂ with
    | nil =>
      rw [concatEntries_cons_data] at e
      simp [concatEntries] at e
    | cons k₂ r₂ =>
      rw [concatEntries_cons_data, concatEntries_cons_data] at e
      obtain ⟨hk, e⟩ := append_cons_split '=' _ _ _ _ (hk₁ k₁ (List.mem_cons_self _ _))
        (hk₂ k₂ (List.mem_cons_self _ _)) e
      have hk' : k₁ = k₂ := String.ext hk
      subst hk'
      obtain ⟨hv, e⟩ := append_cons_split ';' _ _ _ _ (hv₁ k₁ (List.mem_cons_self _ _))
        (hv₂ k₁ (List.mem_cons_self _ _)) e
      obtain ⟨hr, hg⟩ := ih r₂ (fun k hm => hk₁ k (List.mem_cons_of_mem _ hm))
        (fun k hm => hk₂ k (List.mem_cons_of_mem _ hm))
        (fun k hm => hv₁ k (List.mem_cons_of_mem _ hm))
        (fun k hm => hv₂ k (List.mem_cons_of_mem _ hm)) e
      refine ⟨by rw [hr], ?_⟩
      intro k hm
      rcases List.mem_cons.mp hm with rfl | hm
      · exact String.ext hv
      · exact hg k hm

/-- The value read at a key of a map is the value of one of its entries. -/
theorem get_mem (m : GoMap) (k : String) (hk : k ∈ GoMap.keys m) : (k, m.get k) ∈ m := by
  induction m with
  | nil => simp [GoMap.keys] at hk
  | cons e m ih =>
    obtain ⟨k', v'⟩ := e
    by_cases h : k = k'
    · subst h
      simp [GoMap.get, List.lookup]
    · have hb : (k == k') = false := by simpa using h
      have hk' : k ∈ GoMap.keys m := by
        simp only [GoMap.keys, List.map_cons, List.mem_cons] at hk
        rcases hk with hk | hk
        · exact absurd hk h
        · exact hk
      have := ih hk'
      simp only [GoMap.get, List.lookup, hb] at this ⊢
      exact List.mem_cons_of_mem _ this

theorem lookup_eq_of_keys_get (m₁ m₂ : GoMap)
    (hkeys : ∀ k, k ∈ GoMap.keys m₁ ↔ k ∈ GoMap.keys m₂)
    (hget : ∀ k ∈ GoMap.keys m₁, m₁.get k = m₂.get k) (k : String) :
    List.lookup k m₁ = List.lookup k m₂ := by
  have hnone : ∀ m : GoMap, k ∉ GoMap.keys m → List.lookup k m = none := by
    intro m hk
    rw [List.lookup_eq_none_iff]
    intro p hp
    simp only [bne_iff_ne, ne_eq]
    intro hkp
    exact hk (List.mem_map.mpr ⟨p, hp, hkp.symm⟩)
  have hsome : ∀ m : GoMap, k ∈ GoMap.keys m → List.lookup k m = some (m.get k) := by
    intro m hk
    cases hl : List.lookup k m with
    | none =>
      rw [List.lookup_eq_none_iff] at hl
      obtain ⟨p, hp, hkp⟩ := List.mem_map.mp hk
      have := hl p hp
      simp [hkp] at this
    | some v => simp [GoMap.get, hl]
  by_cases hk : k ∈ GoMap.keys m₁
  · rw [hsome m₁ hk, hsome m₂ ((hkeys k).mp hk), hget k hk]
  · rw [hnone m₁ hk, hnone m₂ (fun h => hk ((hkeys k).mpr h))]

/-- C30 (as amended): on label filters whose keys contain no `=` and whose values contain no
`;`, and node names that contain no `=`, `deriveKeyFromFilters` is injective among the filters
that have the same least key: if two such pairs of a filter and a node name have the same key,
the node names are equal and the filters have the same entries.  Every filter that
`spawnOrDeleteMountpointPodIfNeeded` builds has the same least key, the authentication-source
label, and its keys contain no `=`. -/
theorem C30_deriveKeyFromFilters_injective_on_label_names (f₁ f₂ : GoMap) (n₁ n₂ : String)
    (hkeys : ∀ k ∈ GoMap.keys f₁ ++ GoMap.keys f₂, '=' ∉ k.toList)
    (hvalues : ∀ kv ∈ f₁ ++ f₂, ';' ∉ kv.2.toList)
    (hnodes : '=' ∉ n₁.toList ∧ '=' ∉ n₂.toList)
    (hleast : leastKey f₁ = leastKey f₂)
    (hkey : deriveKeyFromFilters f₁ n₁ = deriveKeyFromFilters f₂ n₂) :
    (n₁ = n₂ ∧ ∀ k, List.lookup k f₁ = List.lookup k f₂) ∧
    (∀ (r : Reconciler) (workloadPod : Pod) (pv : PersistentVolume) (authSource : String)
        (labelFilters : GoMap),
      r.selector workloadPod pv = some (authSource, labelFilters) →
      leastKey labelFilters = some LabelAuthenticationSource ∧
      ∀ k ∈ GoMap.keys labelFilters, '=' ∉ k.toList) := by
  refine ⟨?_, ?_⟩
  · have hp₁ := List.perm_insertionSort (fun a b : String => a ≤ b) (GoMap.keys f₁)
    have hp₂ := List.perm_insertionSort (fun a b : String => a ≤ b) (GoMap.keys f₂)
    rw [deriveKeyFromFilters_eq, deriveKeyFromFilters_eq] at hkey
    have hdata := congrArg String.data hkey
    simp only [String.data_append] at hdata
    unfold leastKey at hleast
    generalize (GoMap.keys f₁).insertionSort (fun a b => a ≤ b) = s₁ at hp₁ hdata hleast
    generalize (GoMap.keys f₂).insertionSort (fun a b => a ≤ b) = s₂ at hp₂ hdata hleast
    have hk₁ : ∀ k ∈ s₁, '=' ∉ k.data := fun k hk =>
      hkeys k (List.mem_append_left _ (hp₁.mem_iff.mp hk))
    have hk₂ : ∀ k ∈ s₂, '=' ∉ k.data := fun k hk =>
      hkeys k (List.mem_append_right _ (hp₂.mem_iff.mp hk))
    have hv₁ : ∀ k ∈ s₁, ';' ∉ (f₁.get k).data := fun k hk =>
      hvalues _ (List.mem_append_left _ (get_mem f₁ k (hp₁.mem_iff.mp hk)))
    have hv₂ : ∀ k ∈ s₂, ';' ∉ (f₂.get k).data := fun k hk =>
      hvalues _ (List.mem_append_right _ (get_mem f₂ k (hp₂.mem_iff.mp hk)))
    have hsplit : n₁ = n₂ ∧ (concatEntries f₁ s₁).data = (concatEntries f₂ s₂).data := by
      cases s₁ with
      | nil =>
        cases s₂ with
        | nil =>
          have hemp : ("" : String).data = [] := rfl
          simp only [concatEntries, hemp, List.append_nil] at hdata
          exact ⟨String.ext hdata, rfl⟩
        | cons k r => simp at hleast
      | cons k₁ r₁ =>
        cases s₂ with
        | nil => simp at hleast
        | cons k₂ r₂ =>
          simp only [List.head?_cons, Option.some.injEq] at hleast
          subst hleast
          rw [concatEntries_cons_data, concatEntries_cons_data, ← List.append_assoc,
            ← List.append_assoc] at hdata
          have hn₁ : '=' ∉ n₁.data ++ k₁.data := by
            intro hm
            rcases List.mem_append.mp hm with hm | hm
            · exact hnodes.1 hm
            · exact hk₁ k₁ (List.mem_cons_self _ _) hm
          have hn₂ : '=' ∉ n₂.data ++ k₁.data := by
            intro hm
            rcases List.mem_append.mp hm with hm | hm
            · exact hnodes.2 hm
            · exact hk₁ k₁ (List.mem_cons_self _ _) hm
          obtain ⟨ha, hb⟩ := append_cons_split '=' _ _ _ _ hn₁ hn₂ hdata
          refine ⟨String.ext (List.append_cancel_right ha), ?_⟩
          rw [concatEntries_cons_data, concatEntries_cons_data, hb]
    obtain ⟨hn, he⟩ := hsplit
    obtain ⟨hs, hg⟩ := concatEntries_inj f₁ f₂ s₁ s₂ hk₁ hk₂ hv₁ hv₂ he
    subst hs
    refine ⟨hn, lookup_eq_of_keys_get f₁ f₂ ?_ ?_⟩
    · intro k
      rw [← hp₁.mem_iff, ← hp₂.mem_iff]
    · intro k hk
      exact hg k (hp₁.mem_iff.mpr hk)
  · intro r workloadPod pv authSource labelFilters hsel
    cases hsc : workloadPod.Spec.SecurityContext with
    | none => simp [Reconciler.selector, hsc] at hsel
    | some sc =>
      rw [selector_labels r workloadPod pv sc hsc] at hsel
      simp only [Option.some.injEq, Prod.mk.injEq] at hsel
      obtain ⟨-, hsel⟩ := hsel
      subst hsel
      have h1 : LabelAuthenticationSource ≤ LabelWorkloadPodFSGroup := by
        rw [String.le_iff_toList_le]; decide
      have h2 : ¬ (LabelVolumeName.data ≤ LabelAuthenticationSource.data) := by decide
      have h3 : LabelWorkloadPodFSGroup ≤ LabelWorkloadPodNamespace := by
        rw [String.le_iff_toList_le]; decide
      have h4 : LabelWorkloadPodNamespace ≤ LabelWorkloadPodServiceAccountName := by
        rw [String.le_iff_toList_le]; decide
      have e1 : '=' ∉ LabelAuthenticationSource.toList := by decide
      have e2 : '=' ∉ LabelVolumeName.toList := by decide
      have e3 : '=' ∉ LabelWorkloadPodFSGroup.toList := by decide
      have e4 : '=' ∉ LabelWorkloadPodNamespace.toList := by decide
      have e5 : '=' ∉ LabelWorkloadPodServiceAccountName.toList := by decide
      split
      · refine ⟨?_, ?_⟩
        · simp [leastKey, GoMap.keys, List.insertionSort, List.orderedInsert, h1, h2, h3, h4]
        · intro k hk
          simp only [GoMap.keys, List.map_cons, List.map_nil, List.mem_cons,
            List.not_mem_nil, or_false] at hk
          rcases hk with rfl | rfl | rfl | rfl | rfl <;> assumption
      · refine ⟨?_, ?_⟩
        · simp [leastKey, GoMap.keys, List.insertionSort, List.orderedInsert, h1, h2]
        · intro k hk
          simp only [GoMap.keys, List.map_cons, List.map_nil, List.mem_cons,
            List.not_mem_nil, or_false] at hk
          rcases hk with rfl | rfl | rfl <;> assumption

/-- Witness of C30 (as amended): the example selector on the node `node-a`. -/
theorem C30_witness :
    ("node-a" = "node-a" ∧ ∀ k, List.lookup k exampleSelector = List.lookup k exampleSelector) ∧
    (∀ (r : Reconciler) (workloadPod : Pod) (pv : PersistentVolume) (authSource : String)
        (labelFilters : GoMap),
      r.selector workloadPod pv = some (authSource, labelFilters) →
      leastKey labelFilters = some LabelAuthenticationSource ∧
      ∀ k ∈ GoMap.keys labelFilters, '=' ∉ k.toList) :=
  C30_deriveKeyFromFilters_injective_on_label_names exampleSelector exampleSelector "node-a"
    "node-a" (by decide) (by decide) (by decide) rfl rfl

/-- Counterexample to C30 as stated: the filter with the one entry `bc` = `v` on the node
`node-a` and the filter with the one entry `c` = `v` on the node `node-ab` differ in both
components and have the same key; and on one node, the filter with the one entry `k` =
`v;x=y` and the filter with the two entries `k` = `v` and `x` = `y` have the same key. -/
theorem C30_counterexample_colliding_keys :
    ((([("bc", "v")], "node-a") : GoMap × String) ≠ ([("c", "v")], "node-ab") ∧
      deriveKeyFromFilters [("bc", "v")] "node-a" = deriveKeyFromFilters [("c", "v")] "node-ab") ∧
    (([("k", "v;x=y")] : GoMap) ≠ [("k", "v"), ("x", "y")] ∧
      deriveKeyFromFilters [("k", "v;x=y")] "node-a" =
        deriveKeyFromFilters [("k", "v"), ("x", "y")] "node-a") := by
  refine ⟨⟨by decide, by decide⟩, by decide, ?_⟩
  have hle : ¬ (("x" : String).data ≤ ("k" : String).data) := by decide
  have hle' : ("k" : String).data ≤ ("x" : String).data := by decide
  rw [deriveKeyFromFilters_eq, deriveKeyFromFilters_eq]
  simp [GoMap.keys, List.insertionSort, List.orderedInsert, hle, hle', concatEntries, GoMap.get,
    List.lookup]

end S3CSI
